import Mathlib

/-!
# Go-POS: the inventory transaction core

A shallow embedding of the stock-affecting handlers of the backend
(`handlers/sales.go`, `handlers/inventory.go`, `handlers/purchase_order.go`,
`handlers/stock_transfer.go`), of `ValidateDiscount` (`handlers/discount.go`)
and of the pagination arithmetic of the list handlers, over an explicit
database state.

Modelling conventions

* A table is the list of its rows in primary-key order; `First` returns the
  first matching row of that list and `Create` appends a row under the next
  unused primary key.
* `float64` amounts and quantities of the stock and sale handlers are exact
  integers (a fixed-point reading of the decimal columns); there rounding is not
  modelled. The amounts of a discount are `float64` values (`F64`) with the
  rounding of each multiplication and division. Go's `int` is the integers
  with the conversion from `float64` and the wrap-around of its arithmetic
  made explicit where the sale handler computes loyalty points.
* A struct condition `tx.Where(struct)` constrains only the non-zero fields of
  the struct: a zero id or a nil variant pointer puts no condition on its
  column. The balance "seen" for a (product, variant, location) is the quantity
  of the row such a lookup returns; the balance "of the key" is the quantity of
  the first row carrying exactly that product, variant and location.
* A transaction is a working copy of the database: `Begin` copies, `Commit`
  returns the working copy and `Rollback` returns the state the request started
  from.
* Storage operations themselves do not fail (no connection loss, no constraint
  violation), with one exception: the insert of a stock transfer checks the
  foreign keys of its endpoint columns against the store and warehouse master
  data. The other master rows a request refers to through a foreign key
  (products, users) are taken to exist, and primary keys are always assigned by
  the store.
* Timestamps are left out; identifiers derived from the clock (sale number)
  and the clock reading a handler compares dates with are part of the request
  context.
* A Go integer division by zero is `none`: the handler panics.
-/

namespace GoPOS

/-! ## float64 arithmetic -/

/-- A `float64` value: a finite number, held as the rational it denotes, an infinity, or a NaN.
The sign of a zero is not kept. -/
inductive F64 where
  | fin (q : ℚ)
  | inf (negative : Bool)
  | nan
deriving DecidableEq, Repr

instance (n : Nat) : OfNat F64 n := ⟨F64.fin n⟩

/-- Number of halvings that bring `n` below 2, by recursion on `fuel`. -/
def floorLog2Fuel : Nat → Nat → Nat
  | 0, _ => 0
  | fuel + 1, n => if n < 2 then 0 else floorLog2Fuel fuel (n / 2) + 1

/-- The `a` with `2 ^ a ≤ n < 2 ^ (a + 1)`, for `n > 0`. -/
def floorLog2 (n : Nat) : Nat := floorLog2Fuel n n

/-- The binade of the positive fraction `p / q`: the `e` with `2 ^ e ≤ p / q < 2 ^ (e + 1)`. -/
def binade (p q : Nat) : Int :=
  let e : Int := (floorLog2 p : Int) - (floorLog2 q : Int)
  if (if 0 ≤ e then q * 2 ^ e.toNat ≤ p else q ≤ p * 2 ^ (-e).toNat) then e else e - 1

/-- Nearest integer to the fraction `p / q` (`q > 0`), a tie going to the even one. -/
def roundHalfEven (p q : Nat) : Nat :=
  let n := p / q
  let r := p % q
  if 2 * r < q then n
  else if q < 2 * r then n + 1
  else if n % 2 = 0 then n else n + 1

/-- The number `m * 2 ^ k`. -/
def scale2 (m : Nat) (k : Int) : ℚ :=
  if 0 ≤ k then (m : ℚ) * 2 ^ k.toNat else (m : ℚ) / 2 ^ (-k).toNat

/-- The `float64` nearest to the real number `x`, a tie going to the even significand: 53
significant bits, spacing `2 ^ (-1074)` below `2 ^ (-1022)` (gradual underflow), and an
infinity when the rounded magnitude reaches `2 ^ 1024`. -/
def F64.round (x : ℚ) : F64 :=
  if x = 0 then F64.fin 0
  else
    let p := x.num.natAbs
    let q := x.den
    let k : Int := max (binade p q - 52) (-1074)
    let m := if 0 ≤ k then roundHalfEven p (q * 2 ^ k.toNat)
             else roundHalfEven (p * 2 ^ (-k).toNat) q
    if 2 ^ 1024 ≤ scale2 m k then F64.inf (decide (x < 0))
    else F64.fin (if x < 0 then -(scale2 m k) else scale2 m k)

/-- Go's `x * y` on `float64`. -/
def F64.mul : F64 → F64 → F64
  | F64.nan, _ => F64.nan
  | _, F64.nan => F64.nan
  | F64.fin a, F64.fin b => F64.round (a * b)
  | F64.fin a, F64.inf n => if a = 0 then F64.nan else F64.inf (xor (decide (a < 0)) n)
  | F64.inf n, F64.fin b => if b = 0 then F64.nan else F64.inf (xor n (decide (b < 0)))
  | F64.inf n, F64.inf m => F64.inf (xor n m)

/-- Go's `x / y` on `float64`; a zero divisor counts as the positive zero. -/
def F64.div : F64 → F64 → F64
  | F64.nan, _ => F64.nan
  | _, F64.nan => F64.nan
  | F64.fin a, F64.fin b =>
    if b = 0 then (if a = 0 then F64.nan else F64.inf (decide (a < 0)))
    else F64.round (a / b)
  | F64.fin _, F64.inf _ => F64.fin 0
  | F64.inf n, F64.fin b => F64.inf (xor n (decide (b < 0)))
  | F64.inf _, F64.inf _ => F64.nan

/-- Go's `x < y` on `float64`: false when either side is a NaN. -/
def F64.lt : F64 → F64 → Bool
  | F64.nan, _ => false
  | _, F64.nan => false
  | F64.fin a, F64.fin b => decide (a < b)
  | F64.fin _, F64.inf n => !n
  | F64.inf n, F64.fin _ => n
  | F64.inf n, F64.inf m => n && !m

/-! ## models -/

/-- Row of `models.Inventory` (warehouse balance); only the columns the handlers touch. -/
structure Inventory where
  ID : Nat := 0
  ProductID : Nat := 0
  ProductVariantID : Option Nat := none
  WarehouseID : Nat := 0
  Quantity : Int := 0
deriving DecidableEq, Repr

/-- Row of `models.StoreInventory` (store balance). -/
structure StoreInventory where
  ID : Nat := 0
  ProductID : Nat := 0
  ProductVariantID : Option Nat := none
  StoreID : Nat := 0
  Quantity : Int := 0
deriving DecidableEq, Repr

/-- Row of `models.InventoryTransaction` (the movement ledger). -/
structure InventoryTransaction where
  ID : Nat := 0
  ProductID : Nat := 0
  ProductVariantID : Option Nat := none
  LocationType : String := ""
  LocationID : Nat := 0
  WarehouseID : Option Nat := none
  StoreID : Option Nat := none
  TransactionType : String := ""
  Quantity : Int := 0
  UnitCost : Int := 0
  ReferenceType : String := ""
  ReferenceID : Option Nat := none
  Notes : String := ""
  CreatedBy : Nat := 0
deriving DecidableEq, Repr

/-- Row of `models.StockTransferItem`. -/
structure StockTransferItem where
  ID : Nat := 0
  TransferID : Nat := 0
  ProductID : Nat := 0
  ProductVariantID : Option Nat := none
  QuantityRequested : Int := 0
  QuantityShipped : Int := 0
  QuantityReceived : Int := 0
deriving DecidableEq, Repr

/-- Row of `models.StockTransfer`; `Shipped` and `Received` record whether the two timestamps are set. -/
structure StockTransfer where
  ID : Nat := 0
  TransferNumber : String := ""
  FromWarehouseID : Option Nat := none
  ToWarehouseID : Option Nat := none
  FromStoreID : Option Nat := none
  ToStoreID : Option Nat := none
  Status : String := ""
  RequestedBy : Nat := 0
  Shipped : Bool := false
  Received : Bool := false
  Notes : String := ""
deriving DecidableEq, Repr

/-- Row of `models.PurchaseOrderItem`. -/
structure PurchaseOrderItem where
  ID : Nat := 0
  PurchaseOrderID : Nat := 0
  ProductID : Nat := 0
  ProductVariantID : Option Nat := none
  QuantityOrdered : Int := 0
  QuantityReceived : Int := 0
  UnitCost : Int := 0
  TotalCost : Int := 0
deriving DecidableEq, Repr

/-- Row of `models.PurchaseOrder`; `ReceivedDateSet` records whether `received_date` is set. -/
structure PurchaseOrder where
  ID : Nat := 0
  PurchaseNumber : String := ""
  WarehouseID : Nat := 0
  Status : String := ""
  ReceivedDateSet : Bool := false
  TotalAmount : Int := 0
  Notes : String := ""
  CreatedBy : Nat := 0
deriving DecidableEq, Repr

/-- Row of `models.Customer`. -/
structure Customer where
  ID : Nat := 0
  IsMember : Bool := false
  LoyaltyPoints : Int := 0
  TotalSpent : Int := 0
deriving DecidableEq, Repr

/-- Row of `models.Sale`. -/
structure Sale where
  ID : Nat := 0
  SaleNumber : String := ""
  StoreID : Nat := 0
  CustomerID : Option Nat := none
  CashierID : Nat := 0
  DiscountID : Option Nat := none
  Subtotal : Int := 0
  TaxAmount : Int := 0
  DiscountAmount : Int := 0
  TotalAmount : Int := 0
  PaidAmount : Int := 0
  ChangeAmount : Int := 0
  PaymentStatus : String := ""
  SaleStatus : String := ""
  PaymentMethod : String := ""
  Notes : String := ""
deriving DecidableEq, Repr

/-- Row of `models.SaleItem`. -/
structure SaleItem where
  ID : Nat := 0
  SaleID : Nat := 0
  ProductID : Nat := 0
  ProductVariantID : Option Nat := none
  Quantity : Int := 0
  UnitPrice : Int := 0
  DiscountAmount : Int := 0
  TotalPrice : Int := 0
deriving DecidableEq, Repr

/-- Row of `models.SalePayment`. -/
structure SalePayment where
  ID : Nat := 0
  SaleID : Nat := 0
  PaymentMethod : String := ""
  Amount : Int := 0
  ReferenceNumber : String := ""
  Status : String := ""
deriving DecidableEq, Repr

/-- Row of `models.Discount`; `Deleted` records whether the soft-delete column is set, the two
dates are points on the clock of `Ctx.now`, and the three amounts are `float64` values. -/
structure Discount where
  ID : Nat := 0
  Code : String := ""
  DiscountType : String := ""
  DiscountValue : F64 := 0
  MinPurchase : F64 := 0
  MaxDiscount : F64 := 0
  ApplicableTo : String := ""
  CustomerID : Option Nat := none
  UsageLimit : Int := 0
  UsageCount : Int := 0
  UsagePerCustomer : Int := 0
  StartDate : Option Nat := none
  EndDate : Option Nat := none
  IsActive : Bool := false
  StoreID : Option Nat := none
  Deleted : Bool := false
deriving DecidableEq, Repr

/-- Row of `models.DiscountUsage`. -/
structure DiscountUsage where
  ID : Nat := 0
  DiscountID : Nat := 0
  CustomerID : Option Nat := none
  SaleID : Nat := 0
  Amount : Int := 0
deriving DecidableEq, Repr

/-- Modelled from the spec: `models.Setting` is declared outside the given sources; the two
columns the sale handler reads are kept, `Value` holding what `strconv.ParseFloat` makes of the
stored text (`none` when it does not parse). -/
structure Setting where
  ID : Nat := 0
  Key : String := ""
  Value : Option Int := none
deriving DecidableEq, Repr

/-- History record of one `tx.Save` on a balance row: the table written (as the ledger's location
kind), the location, product and variant columns of the row written, its primary key, and its
quantity before and after. -/
structure BalanceWrite where
  LocationType : String := ""
  LocationID : Nat := 0
  ProductID : Nat := 0
  ProductVariantID : Option Nat := none
  RowID : Nat := 0
  Old : Int := 0
  New : Int := 0
deriving DecidableEq, Repr

/-- The database: one list of rows per table. `stores` and `warehouses` hold the primary keys of
`models.Store` and `models.Warehouse`. `balance_writes` is not a table but a history variable:
every `tx.Save` of a balance row, in order, so that the ledger can be compared with the writes
it is meant to describe. -/
structure DB where
  inventories : List Inventory := []
  store_inventories : List StoreInventory := []
  inventory_transactions : List InventoryTransaction := []
  balance_writes : List BalanceWrite := []
  stock_transfers : List StockTransfer := []
  stock_transfer_items : List StockTransferItem := []
  purchase_orders : List PurchaseOrder := []
  purchase_order_items : List PurchaseOrderItem := []
  stores : List Nat := []
  warehouses : List Nat := []
  customers : List Customer := []
  discounts : List Discount := []
  discount_usages : List DiscountUsage := []
  settings : List Setting := []
  sales : List Sale := []
  sale_items : List SaleItem := []
  sale_payments : List SalePayment := []
deriving DecidableEq, Repr

/-- What a handler leaves behind: the HTTP status it answered with and the database state. -/
structure Outcome where
  status : Nat
  db : DB
deriving DecidableEq, Repr

/-- Request context: `c.Get("user_id")`, the clock-derived sale and transfer numbers, and the
clock reading `time.Now()`. -/
structure Ctx where
  user_id : Option Nat := none
  saleNumber : String := ""
  transferNumber : String := ""
  now : Nat := 0
deriving DecidableEq, Repr

/-! ## GORM primitives -/

/-- Primary key handed out by `Create`: one more than the largest key in the table. -/
def nextID (ids : List Nat) : Nat := ids.foldr max 0 + 1

/-- Struct condition on an unsigned column: a zero field of the condition struct is left out. -/
def condUint (want have_ : Nat) : Bool := want == 0 || have_ == want

/-- Struct condition on a nullable column: a nil pointer is left out. -/
def condPtr (want have_ : Option Nat) : Bool :=
  match want with
  | none => true
  | some v => have_ == some v

/-- Struct condition on a numeric column: a zero field is left out. -/
def condNum (want have_ : Int) : Bool := want == 0 || have_ == want

/-- Query `tx.Where(where)` over `models.Inventory` with a struct condition. -/
def Inventory.matchesWhere (w r : Inventory) : Bool :=
  condUint w.ID r.ID && condUint w.ProductID r.ProductID &&
    condPtr w.ProductVariantID r.ProductVariantID &&
    condUint w.WarehouseID r.WarehouseID && condNum w.Quantity r.Quantity

/-- Query `tx.Where(where)` over `models.StoreInventory` with a struct condition. -/
def StoreInventory.matchesWhere (w r : StoreInventory) : Bool :=
  condUint w.ID r.ID && condUint w.ProductID r.ProductID &&
    condPtr w.ProductVariantID r.ProductVariantID &&
    condUint w.StoreID r.StoreID && condNum w.Quantity r.Quantity

/-- Lookup `tx.Where(where).First(&inventory)` on the warehouse balances. -/
def firstInventory (t : List Inventory) (w : Inventory) : Option Inventory :=
  t.find? (fun r => w.matchesWhere r)

/-- Lookup `tx.Where(where).First(&inventory)` on the store balances. -/
def firstStoreInventory (t : List StoreInventory) (w : StoreInventory) : Option StoreInventory :=
  t.find? (fun r => w.matchesWhere r)

/-- Update `tx.Save(&inventory)`: every column of the row with that primary key is written. -/
def saveInventory (t : List Inventory) (inv : Inventory) : List Inventory :=
  t.map (fun r => if r.ID = inv.ID then inv else r)

/-- Update `tx.Save(&inventory)` on the store balances. -/
def saveStoreInventory (t : List StoreInventory) (inv : StoreInventory) : List StoreInventory :=
  t.map (fun r => if r.ID = inv.ID then inv else r)

/-- Statement `inventory.Quantity = qty; tx.Save(&inventory)` for the loaded warehouse balance
row `loaded`; the history records the row as written. -/
def DB.writeInventory (tx : DB) (loaded : Inventory) (qty : Int) : DB :=
  { tx with
    inventories := saveInventory tx.inventories { loaded with Quantity := qty },
    balance_writes := tx.balance_writes ++
      [{ LocationType := "warehouse", LocationID := loaded.WarehouseID,
         ProductID := loaded.ProductID, ProductVariantID := loaded.ProductVariantID,
         RowID := loaded.ID, Old := loaded.Quantity, New := qty }] }

/-- Statement `inventory.Quantity = qty; tx.Save(&inventory)` for the loaded store balance row
`loaded`; the history records the row as written. -/
def DB.writeStoreInventory (tx : DB) (loaded : StoreInventory) (qty : Int) : DB :=
  { tx with
    store_inventories := saveStoreInventory tx.store_inventories { loaded with Quantity := qty },
    balance_writes := tx.balance_writes ++
      [{ LocationType := "store", LocationID := loaded.StoreID,
         ProductID := loaded.ProductID, ProductVariantID := loaded.ProductVariantID,
         RowID := loaded.ID, Old := loaded.Quantity, New := qty }] }

/-- Lookup `tx.Where(where).FirstOrCreate(&inventory, where)`: the first match, or a new row
carrying the condition's columns (quantity defaults to 0). -/
def firstOrCreateInventory (t : List Inventory) (w : Inventory) : Inventory × List Inventory :=
  match firstInventory t w with
  | some inv => (inv, t)
  | none =>
    let inv := { w with ID := nextID (t.map (fun r => r.ID)) }
    (inv, t ++ [inv])

/-- Lookup `tx.Where(where).FirstOrCreate(&storeInventory, where)`. -/
def firstOrCreateStoreInventory (t : List StoreInventory) (w : StoreInventory) :
    StoreInventory × List StoreInventory :=
  match firstStoreInventory t w with
  | some inv => (inv, t)
  | none =>
    let inv := { w with ID := nextID (t.map (fun r => r.ID)) }
    (inv, t ++ [inv])

/-- Insert `tx.Create(&transaction)` on the ledger. -/
def createTransaction (tx : DB) (e : InventoryTransaction) : DB :=
  { tx with inventory_transactions := tx.inventory_transactions ++
      [{ e with ID := nextID (tx.inventory_transactions.map (fun r => r.ID)) }] }

/-- User id of the request: the JWT claim, else the fallback `uint(1)`. -/
def userIDOf (c : Ctx) : Nat :=
  match c.user_id with
  | some id => id
  | none => 1

/-! ## handlers/sales.go -/

/-- The two errors `updateInventoryForSale` builds with `fmt.Errorf`. -/
inductive InvError where
  | notFound (productID : Nat)
  | insufficient (productID : Nat) (available required : Int)
deriving DecidableEq, Repr

/-- Function `SalesHandler.updateInventoryForSale`: reduce the store balance for one sale line
and log the movement. Returns the transaction state it leaves and the Go `error` (nil = `none`). -/
def updateInventoryForSale (tx : DB) (storeID : Nat) (item : SaleItem) (userID : Nat) :
    DB × Option InvError :=
  let cond : StoreInventory :=
    { ProductID := item.ProductID, ProductVariantID := item.ProductVariantID, StoreID := storeID }
  match firstStoreInventory tx.store_inventories cond with
  | none => (tx, some (InvError.notFound item.ProductID))
  | some inventory =>
    if inventory.Quantity < item.Quantity then
      (tx, some (InvError.insufficient item.ProductID inventory.Quantity item.Quantity))
    else
      let tx : DB := tx.writeStoreInventory inventory (inventory.Quantity - item.Quantity)
      let transaction : InventoryTransaction :=
        { ProductID := item.ProductID
          ProductVariantID := item.ProductVariantID
          LocationType := "store"
          LocationID := storeID
          StoreID := some storeID
          TransactionType := "out"
          Quantity := -item.Quantity
          UnitCost := item.UnitPrice
          ReferenceType := "sale"
          ReferenceID := some item.SaleID
          CreatedBy := userID }
      (createTransaction tx transaction, none)

/-- Body of `POST /sales` after JSON decoding; `Items` and `Payments` are the decoded arrays. -/
structure CreateSaleRequest where
  StoreID : Nat := 0
  CustomerID : Option Nat := none
  DiscountID : Option Nat := none
  PointsRedeemed : Int := 0
  PointsRedemptionValue : Int := 0
  Items : List SaleItem := []
  Payments : List SalePayment := []
  DiscountAmount : Int := 0
  TaxAmount : Int := 0
  Notes : String := ""
deriving DecidableEq, Repr

/-- Loop "Calculate totals": the sum of the lines' `TotalPrice`. -/
def saleSubtotal (items : List SaleItem) : Int :=
  items.foldl (fun acc item => acc + item.TotalPrice) 0

/-- Loop "Calculate total paid amount". -/
def salePaidAmount (payments : List SalePayment) : Int :=
  payments.foldl (fun acc payment => acc + payment.Amount) 0

/-- Insert `tx.Create(&sale)`; returns the row with its key. -/
def createSale (tx : DB) (sale : Sale) : Sale × DB :=
  let sale := { sale with ID := nextID (tx.sales.map (fun r => r.ID)) }
  (sale, { tx with sales := tx.sales ++ [sale] })

/-- Insert `tx.Create(&item)` on the sale items. -/
def createSaleItem (tx : DB) (item : SaleItem) : SaleItem × DB :=
  let item := { item with ID := nextID (tx.sale_items.map (fun r => r.ID)) }
  (item, { tx with sale_items := tx.sale_items ++ [item] })

/-- Insert `tx.Create(&payment)`. -/
def createSalePayment (tx : DB) (payment : SalePayment) : DB :=
  { tx with sale_payments := tx.sale_payments ++
      [{ payment with ID := nextID (tx.sale_payments.map (fun r => r.ID)) }] }

/-- Block "Track discount usage": bump `usage_count` of the live discount row and log the usage. -/
def trackDiscountUsage (tx : DB) (req : CreateSaleRequest) (saleID : Nat) : DB :=
  match req.DiscountID with
  | none => tx
  | some did =>
    if req.DiscountAmount > 0 then
      let tx : DB := { tx with discounts := tx.discounts.map (fun (d : Discount) =>
        if d.ID = did ∧ d.Deleted = false then { d with UsageCount := d.UsageCount + 1 } else d) }
      let discountUsage : DiscountUsage :=
        { DiscountID := did, CustomerID := req.CustomerID, SaleID := saleID,
          Amount := req.DiscountAmount }
      { tx with discount_usages := tx.discount_usages ++
          [{ discountUsage with ID := nextID (tx.discount_usages.map (fun r => r.ID)) }] }
    else tx

/-- Loop "Create sale items and update inventory": stops at the first line whose stock update
fails and hands back that error. -/
def saleItemsLoop (storeID saleID userID : Nat) : List SaleItem → DB → DB × Option InvError
  | [], tx => (tx, none)
  | item :: rest, tx =>
    let created := createSaleItem tx { item with SaleID := saleID }
    match updateInventoryForSale created.2 storeID created.1 userID with
    | (tx, some err) => (tx, some err)
    | (tx, none) => saleItemsLoop storeID saleID userID rest tx

/-- Loop "Create sale payments". -/
def salePaymentsLoop (saleID : Nat) : List SalePayment → DB → DB
  | [], tx => tx
  | payment :: rest, tx =>
    salePaymentsLoop saleID rest
      (createSalePayment tx { payment with SaleID := saleID, Status := "completed" })

/-- Points-per-purchase threshold: the `loyalty_min_purchase` setting when it parses to a
positive number, else 10000. -/
def minPurchaseForPoints (tx : DB) : Int :=
  match tx.settings.find? (fun s => s.Key == "loyalty_min_purchase") with
  | some s =>
    match s.Value with
    | some val => if val > 0 then val else 10000
    | none => 10000
  | none => 10000

/-- Conversion `int(x)` of a `float64` to Go's 64-bit `int`, applied to the truncation of `x`
toward zero: a value outside the range of `int` converts to the smallest `int`, which is what
the conversion instruction of amd64 yields (the Go specification leaves the result to the
implementation). -/
def goIntOfFloat (truncated : Int) : Int :=
  if -(2 ^ 63) ≤ truncated ∧ truncated < 2 ^ 63 then truncated else -(2 ^ 63)

/-- A result of arithmetic on Go's 64-bit `int`: it wraps around. -/
def wrapInt64 (x : Int) : Int := (x + 2 ^ 63) % 2 ^ 64 - 2 ^ 63

/-- Block "Update customer's total_spent, loyalty_points and last_visit". The two additions
`total_spent + ?` and `loyalty_points + ?` are made by the database. -/
def updateCustomerStats (tx : DB) (req : CreateSaleRequest) (totalAmount : Int) : DB :=
  match req.CustomerID with
  | none => tx
  | some cid =>
    let minPurchase := minPurchaseForPoints tx
    let loyaltyPointsEarned : Int :=
      if totalAmount ≥ minPurchase then goIntOfFloat (Int.tdiv totalAmount minPurchase) else 0
    let netPointsChange := wrapInt64 (loyaltyPointsEarned - req.PointsRedeemed)
    let withPoints : Bool :=
      match tx.customers.find? (fun (c : Customer) => c.ID == cid) with
      | some customer => customer.IsMember && (netPointsChange != 0)
      | none => false
    { tx with customers := tx.customers.map (fun (c : Customer) =>
        if c.ID = cid then
          { c with
            TotalSpent := c.TotalSpent + totalAmount,
            LoyaltyPoints :=
              if withPoints = true then c.LoyaltyPoints + netPointsChange else c.LoyaltyPoints }
        else c) }

/-- Check "Validate points redemption if applicable": `true` when the request may proceed. -/
def pointsRedemptionOK (db : DB) (req : CreateSaleRequest) : Bool :=
  match req.CustomerID with
  | none => true
  | some cid =>
    if req.PointsRedeemed > 0 then
      match db.customers.find? (fun c => c.ID == cid) with
      | none => false
      | some customer => customer.IsMember && !(customer.LoyaltyPoints < req.PointsRedeemed)
    else true

/-- The sale row `CreateSale` builds from the request. -/
def buildSale (c : Ctx) (req : CreateSaleRequest) : Sale :=
  let subtotal := saleSubtotal req.Items
  let totalAmount := subtotal + req.TaxAmount - req.DiscountAmount
  let paidAmount := salePaidAmount req.Payments
  let changeAmount := if paidAmount - totalAmount < 0 then 0 else paidAmount - totalAmount
  { SaleNumber := c.saleNumber
    StoreID := req.StoreID
    CustomerID := req.CustomerID
    DiscountID := req.DiscountID
    CashierID := userIDOf c
    Subtotal := subtotal
    TaxAmount := req.TaxAmount
    DiscountAmount := req.DiscountAmount
    TotalAmount := totalAmount
    PaidAmount := paidAmount
    ChangeAmount := changeAmount
    PaymentStatus := "paid"
    SaleStatus := "completed"
    PaymentMethod := match req.Payments with
      | [] => "cash"
      | p :: _ => p.PaymentMethod
    Notes := req.Notes }

/-- Transaction state of `CreateSale` when the item loop starts: the sale row is inserted and
the discount usage tracked. Returns the sale (with its key) and that state. -/
def saleTxBeforeItems (c : Ctx) (req : CreateSaleRequest) (db : DB) : Sale × DB :=
  let created := createSale db (buildSale c req)
  (created.1, trackDiscountUsage created.2 req created.1.ID)

/-- Handler `SalesHandler.CreateSale`. -/
def CreateSale (c : Ctx) (req : CreateSaleRequest) (db : DB) : Outcome :=
  if req.StoreID = 0 then ⟨400, db⟩          -- binding:"required"
  else if ¬ req.StoreID ∈ db.stores then ⟨400, db⟩
  else if pointsRedemptionOK db req = false then ⟨400, db⟩
  else
    let start := saleTxBeforeItems c req db
    let sale := start.1
    match saleItemsLoop req.StoreID sale.ID (userIDOf c) req.Items start.2 with
    | (_, some _) => ⟨500, db⟩             -- tx.Rollback()
    | (tx, none) =>
      let tx := salePaymentsLoop sale.ID req.Payments tx
      let tx := updateCustomerStats tx req sale.TotalAmount
      ⟨201, tx⟩                            -- tx.Commit()

/-! ## handlers/inventory.go -/

/-- Body of `POST /inventory/adjust`. -/
structure AdjustInventoryRequest where
  ProductID : Nat := 0
  ProductVariantID : Option Nat := none
  WarehouseID : Nat := 0
  Quantity : Int := 0
  Reason : String := ""
deriving DecidableEq, Repr

/-- Body of `POST /store-inventory/adjust`. -/
structure AdjustStoreInventoryRequest where
  ProductID : Nat := 0
  ProductVariantID : Option Nat := none
  StoreID : Nat := 0
  Quantity : Int := 0
  Reason : String := ""
deriving DecidableEq, Repr

/-- Binding of the adjust request: every field tagged `binding:"required"` is non-zero. -/
def AdjustInventoryRequest.bindOK (req : AdjustInventoryRequest) : Bool :=
  req.ProductID != 0 && req.WarehouseID != 0 && req.Quantity != 0 && req.Reason != ""

/-- Binding of the store adjust request. -/
def AdjustStoreInventoryRequest.bindOK (req : AdjustStoreInventoryRequest) : Bool :=
  req.ProductID != 0 && req.StoreID != 0 && req.Quantity != 0 && req.Reason != ""

/-- The condition struct `where` of `AdjustInventory`. -/
def AdjustInventoryRequest.cond (req : AdjustInventoryRequest) : Inventory :=
  { ProductID := req.ProductID, WarehouseID := req.WarehouseID,
    ProductVariantID := req.ProductVariantID }

/-- The condition struct `where` of `AdjustStoreInventory`. -/
def AdjustStoreInventoryRequest.cond (req : AdjustStoreInventoryRequest) : StoreInventory :=
  { ProductID := req.ProductID, StoreID := req.StoreID,
    ProductVariantID := req.ProductVariantID }

/-- Handler `InventoryHandler.AdjustInventory`. -/
def AdjustInventory (c : Ctx) (req : AdjustInventoryRequest) (db : DB) : Outcome :=
  if req.bindOK = false then ⟨400, db⟩
  else
    let found := firstOrCreateInventory db.inventories req.cond
    let tx : DB := { db with inventories := found.2 }
    let inventory := found.1
    let adjustment := req.Quantity - inventory.Quantity
    let tx : DB := tx.writeInventory inventory req.Quantity
    let transaction : InventoryTransaction :=
      { ProductID := req.ProductID
        ProductVariantID := req.ProductVariantID
        LocationType := "warehouse"
        LocationID := req.WarehouseID
        WarehouseID := some req.WarehouseID
        TransactionType := "adjustment"
        Quantity := adjustment
        ReferenceType := "adjustment"
        Notes := req.Reason
        CreatedBy := userIDOf c }
    ⟨200, createTransaction tx transaction⟩

/-- Handler `InventoryHandler.AdjustStoreInventory`. -/
def AdjustStoreInventory (c : Ctx) (req : AdjustStoreInventoryRequest) (db : DB) : Outcome :=
  if req.bindOK = false then ⟨400, db⟩
  else
    let found := firstOrCreateStoreInventory db.store_inventories req.cond
    let tx : DB := { db with store_inventories := found.2 }
    let storeInventory := found.1
    let adjustment := req.Quantity - storeInventory.Quantity
    let tx : DB := tx.writeStoreInventory storeInventory req.Quantity
    let transaction : InventoryTransaction :=
      { ProductID := req.ProductID
        ProductVariantID := req.ProductVariantID
        LocationType := "store"
        LocationID := req.StoreID
        StoreID := some req.StoreID
        TransactionType := "adjustment"
        Quantity := adjustment
        ReferenceType := "adjustment"
        Notes := req.Reason
        CreatedBy := userIDOf c }
    ⟨200, createTransaction tx transaction⟩

/-! ## handlers/purchase_order.go -/

/-- One line of the body of `POST /purchase-orders/:id/receive`. -/
structure ReceiveItem where
  ItemID : Nat := 0
  QuantityReceived : Int := 0
deriving DecidableEq, Repr

/-- Binding of a receive line: `item_id` required, `quantity_received` required and `gt=0`. -/
def ReceiveItem.bindOK (l : ReceiveItem) : Bool :=
  l.ItemID != 0 && decide (l.QuantityReceived > 0)

/-- Update `tx.Save(&poItem)`. -/
def savePurchaseOrderItem (t : List PurchaseOrderItem) (it : PurchaseOrderItem) :
    List PurchaseOrderItem :=
  t.map (fun r => if r.ID = it.ID then it else r)

/-- Update `tx.Save(&po)` (the order's own columns). -/
def savePurchaseOrder (t : List PurchaseOrder) (po : PurchaseOrder) : List PurchaseOrder :=
  t.map (fun r => if r.ID = po.ID then po else r)

/-- One pass of the loop "Process each item" for a line whose order item `poItem` was found in
the preloaded `po.Items`: bump the item's received quantity, raise the warehouse balance and log
the receipt. -/
def receiveLine (po : PurchaseOrder) (poItem : PurchaseOrderItem) (itemReq : ReceiveItem)
    (userID : Nat) (tx : DB) : DB :=
  let poItem : PurchaseOrderItem :=
    { poItem with QuantityReceived := poItem.QuantityReceived + itemReq.QuantityReceived }
  let tx : DB :=
    { tx with purchase_order_items := savePurchaseOrderItem tx.purchase_order_items poItem }
  let cond : Inventory :=
    { ProductID := poItem.ProductID, WarehouseID := po.WarehouseID,
      ProductVariantID := poItem.ProductVariantID }
  let found := firstOrCreateInventory tx.inventories cond
  let tx : DB := { tx with inventories := found.2 }
  let tx : DB := tx.writeInventory found.1 (found.1.Quantity + itemReq.QuantityReceived)
  let transaction : InventoryTransaction :=
    { ProductID := poItem.ProductID
      ProductVariantID := poItem.ProductVariantID
      LocationType := "warehouse"
      LocationID := po.WarehouseID
      WarehouseID := some po.WarehouseID
      TransactionType := "in"
      Quantity := itemReq.QuantityReceived
      UnitCost := poItem.UnitCost
      ReferenceType := "purchase"
      ReferenceID := some po.ID
      Notes := "Received from PO: " ++ po.PurchaseNumber
      CreatedBy := userID }
  createTransaction tx transaction

/-- Loop "Process each item" of `ReceivePurchaseOrder`; `items` is the preloaded `po.Items`.
`none` when a line names an item that is not in the order (the handler rolls back). -/
def receiveLoop (po : PurchaseOrder) (items : List PurchaseOrderItem) (userID : Nat) :
    List ReceiveItem → DB → Option DB
  | [], tx => some tx
  | itemReq :: rest, tx =>
    match items.find? (fun item => item.ID == itemReq.ItemID) with
    | none => none
    | some poItem => receiveLoop po items userID rest (receiveLine po poItem itemReq userID tx)

/-- Block "Determine status based on received quantities" with the update of the order that
follows it. -/
def receivedStatus (po : PurchaseOrder) (updatedItems : List PurchaseOrderItem) : PurchaseOrder :=
  let allReceived := updatedItems.all (fun item => !decide (item.QuantityReceived < item.QuantityOrdered))
  let anyReceived := updatedItems.any (fun item => decide (item.QuantityReceived > 0))
  if allReceived = true then { po with Status := "received", ReceivedDateSet := true }
  else if anyReceived = true then { po with Status := "partial" }
  else po

/-- Handler `PurchaseOrderHandler.ReceivePurchaseOrder` for the order id of the URL. -/
def ReceivePurchaseOrder (c : Ctx) (id : Nat) (req : List ReceiveItem) (db : DB) : Outcome :=
  if req.all ReceiveItem.bindOK = false then ⟨400, db⟩
  else
    match db.purchase_orders.find? (fun p => p.ID == id) with
    | none => ⟨404, db⟩
    | some po =>
      if po.Status ≠ "draft" ∧ po.Status ≠ "pending" then ⟨400, db⟩
      else
        let items := db.purchase_order_items.filter (fun it => it.PurchaseOrderID == po.ID)
        match receiveLoop po items (userIDOf c) req db with
        | none => ⟨400, db⟩
        | some tx =>
          let updatedItems := tx.purchase_order_items.filter (fun it => it.PurchaseOrderID == po.ID)
          let po := receivedStatus po updatedItems
          ⟨200, { tx with purchase_orders := savePurchaseOrder tx.purchase_orders po }⟩

/-! ## handlers/stock_transfer.go -/

/-- Request line `StockTransferItemCreate`. -/
structure StockTransferItemCreate where
  ProductID : Nat := 0
  ProductVariantID : Option Nat := none
  QuantityRequested : Int := 0
deriving DecidableEq, Repr

/-- Body of `POST /stock-transfers`. -/
structure CreateStockTransferRequest where
  FromWarehouseID : Option Nat := none
  ToWarehouseID : Option Nat := none
  FromStoreID : Option Nat := none
  ToStoreID : Option Nat := none
  Notes : String := ""
  Items : List StockTransferItemCreate := []
deriving DecidableEq, Repr

/-- Binding of a transfer line: `product_id` required, `quantity_requested` required and `gt=0`. -/
def StockTransferItemCreate.bindOK (l : StockTransferItemCreate) : Bool :=
  l.ProductID != 0 && decide (l.QuantityRequested > 0)

/-- Block "Validate transfer locations" with "Cannot transfer to same location": `true` when
the request may proceed. -/
def transferLocationsOK (req : CreateStockTransferRequest) : Bool :=
  let fromCount := (if req.FromWarehouseID.isSome then 1 else 0) +
    (if req.FromStoreID.isSome then 1 else 0)
  let toCount := (if req.ToWarehouseID.isSome then 1 else 0) +
    (if req.ToStoreID.isSome then 1 else 0)
  if fromCount ≠ 1 ∨ toCount ≠ 1 then false
  else
    let sameWarehouse := match req.FromWarehouseID, req.ToWarehouseID with
      | some a, some b => a == b
      | _, _ => false
    let sameStore := match req.FromStoreID, req.ToStoreID with
      | some a, some b => a == b
      | _, _ => false
    !(sameWarehouse || sameStore)

/-- Loop "Validate stock availability for each item" of `CreateStockTransfer`: `true` when every
line finds its source balance and that balance covers the line. -/
def transferStockAvailable (req : CreateStockTransferRequest) (tx : DB) : Bool :=
  req.Items.all (fun itemReq =>
    match req.FromWarehouseID with
    | some wid =>
      match firstInventory tx.inventories
          { ProductID := itemReq.ProductID, WarehouseID := wid,
            ProductVariantID := itemReq.ProductVariantID } with
      | none => false
      | some inventory => !decide (inventory.Quantity < itemReq.QuantityRequested)
    | none =>
      match req.FromStoreID with
      | none => false
      | some sid =>
        match firstStoreInventory tx.store_inventories
            { ProductID := itemReq.ProductID, StoreID := sid,
              ProductVariantID := itemReq.ProductVariantID } with
        | none => false
        | some inventory => !decide (inventory.Quantity < itemReq.QuantityRequested))

/-- Loop "Create stock transfer items". -/
def createTransferItems (transferID : Nat) : List StockTransferItemCreate → DB → DB
  | [], tx => tx
  | itemReq :: rest, tx =>
    let item : StockTransferItem :=
      { ID := nextID (tx.stock_transfer_items.map (fun r => r.ID))
        TransferID := transferID
        ProductID := itemReq.ProductID
        ProductVariantID := itemReq.ProductVariantID
        QuantityRequested := itemReq.QuantityRequested }
    createTransferItems transferID rest
      { tx with stock_transfer_items := tx.stock_transfer_items ++ [item] }

/-- One optional foreign key column: a nil pointer is not checked, an id must be a key of the
master table. -/
def foreignKeyOK (master : List Nat) (id : Option Nat) : Bool :=
  match id with
  | none => true
  | some k => master.contains k

/-- The foreign keys of the four endpoint columns of `models.StockTransfer` (`FromWarehouse`,
`ToWarehouse`, `FromStore`, `ToStore`), as the database checks them when the row is inserted. -/
def transferEndpointsExist (db : DB) (transfer : StockTransfer) : Bool :=
  foreignKeyOK db.warehouses transfer.FromWarehouseID &&
    foreignKeyOK db.warehouses transfer.ToWarehouseID &&
    foreignKeyOK db.stores transfer.FromStoreID &&
    foreignKeyOK db.stores transfer.ToStoreID

/-- Handler `StockTransferHandler.CreateStockTransfer`. The insert `tx.Create(&transfer)` fails
when an endpoint id is not in the master data; the handler then rolls back and answers 500. -/
def CreateStockTransfer (c : Ctx) (req : CreateStockTransferRequest) (db : DB) : Outcome :=
  if req.Items.all StockTransferItemCreate.bindOK = false then ⟨400, db⟩
  else if transferLocationsOK req = false then ⟨400, db⟩
  else if transferStockAvailable req db = false then ⟨400, db⟩
  else
    let transfer : StockTransfer :=
      { ID := nextID (db.stock_transfers.map (fun r => r.ID))
        TransferNumber := c.transferNumber
        FromWarehouseID := req.FromWarehouseID
        ToWarehouseID := req.ToWarehouseID
        FromStoreID := req.FromStoreID
        ToStoreID := req.ToStoreID
        Status := "pending"
        Notes := req.Notes
        RequestedBy := userIDOf c }
    if transferEndpointsExist db transfer = false then ⟨500, db⟩   -- tx.Rollback()
    else
      let tx : DB := { db with stock_transfers := db.stock_transfers ++ [transfer] }
      ⟨201, createTransferItems transfer.ID req.Items tx⟩

/-- Block "Deduct from source location" for one transfer item; `none` when the source balance
row is not found (the handler rolls back). -/
def transferOut (transfer : StockTransfer) (item : StockTransferItem) (userID : Nat) (tx : DB) :
    Option DB :=
  let quantityToTransfer := item.QuantityRequested
  match transfer.FromWarehouseID with
  | some wid =>
    let cond : Inventory :=
      { ProductID := item.ProductID, WarehouseID := wid,
        ProductVariantID := item.ProductVariantID }
    match firstInventory tx.inventories cond with
    | none => none
    | some inventory =>
      let tx : DB := tx.writeInventory inventory (inventory.Quantity - quantityToTransfer)
      let outTransaction : InventoryTransaction :=
        { ProductID := item.ProductID
          ProductVariantID := item.ProductVariantID
          LocationType := "warehouse"
          LocationID := wid
          WarehouseID := some wid
          TransactionType := "out"
          Quantity := quantityToTransfer
          ReferenceType := "transfer"
          ReferenceID := some transfer.ID
          Notes := "Transfer out: " ++ transfer.TransferNumber
          CreatedBy := userID }
      some (createTransaction tx outTransaction)
  | none =>
    match transfer.FromStoreID with
    | none => none    -- nil dereference: the request dies, nothing is committed
    | some sid =>
      let cond : StoreInventory :=
        { ProductID := item.ProductID, StoreID := sid,
          ProductVariantID := item.ProductVariantID }
      match firstStoreInventory tx.store_inventories cond with
      | none => none
      | some inventory =>
        let tx : DB :=
          tx.writeStoreInventory inventory (inventory.Quantity - quantityToTransfer)
        let outTransaction : InventoryTransaction :=
          { ProductID := item.ProductID
            ProductVariantID := item.ProductVariantID
            LocationType := "store"
            LocationID := sid
            StoreID := some sid
            TransactionType := "out"
            Quantity := quantityToTransfer
            ReferenceType := "transfer"
            ReferenceID := some transfer.ID
            Notes := "Transfer out: " ++ transfer.TransferNumber
            CreatedBy := userID }
        some (createTransaction tx outTransaction)

/-- Block "Add to destination location" for one transfer item. -/
def transferIn (transfer : StockTransfer) (item : StockTransferItem) (userID : Nat) (tx : DB) :
    Option DB :=
  let quantityToTransfer := item.QuantityRequested
  match transfer.ToWarehouseID with
  | some wid =>
    let cond : Inventory :=
      { ProductID := item.ProductID, WarehouseID := wid,
        ProductVariantID := item.ProductVariantID }
    let found := firstOrCreateInventory tx.inventories cond
    let tx : DB := { tx with inventories := found.2 }
    let tx : DB := tx.writeInventory found.1 (found.1.Quantity + quantityToTransfer)
    let inTransaction : InventoryTransaction :=
      { ProductID := item.ProductID
        ProductVariantID := item.ProductVariantID
        LocationType := "warehouse"
        LocationID := wid
        WarehouseID := some wid
        TransactionType := "in"
        Quantity := quantityToTransfer
        ReferenceType := "transfer"
        ReferenceID := some transfer.ID
        Notes := "Transfer in: " ++ transfer.TransferNumber
        CreatedBy := userID }
    some (createTransaction tx inTransaction)
  | none =>
    match transfer.ToStoreID with
    | none => none    -- nil dereference: the request dies, nothing is committed
    | some sid =>
      let cond : StoreInventory :=
        { ProductID := item.ProductID, StoreID := sid,
          ProductVariantID := item.ProductVariantID }
      let found := firstOrCreateStoreInventory tx.store_inventories cond
      let tx : DB := { tx with store_inventories := found.2 }
      let tx : DB :=
        tx.writeStoreInventory found.1 (found.1.Quantity + quantityToTransfer)
      let inTransaction : InventoryTransaction :=
        { ProductID := item.ProductID
          ProductVariantID := item.ProductVariantID
          LocationType := "store"
          LocationID := sid
          StoreID := some sid
          TransactionType := "in"
          Quantity := quantityToTransfer
          ReferenceType := "transfer"
          ReferenceID := some transfer.ID
          Notes := "Transfer in: " ++ transfer.TransferNumber
          CreatedBy := userID }
      some (createTransaction tx inTransaction)

/-- Update `tx.Save(&item)` on the transfer items. -/
def saveTransferItem (t : List StockTransferItem) (it : StockTransferItem) :
    List StockTransferItem :=
  t.map (fun r => if r.ID = it.ID then it else r)

/-- Loop "Process each item" of `ExecuteStockTransfer` over the preloaded `transfer.Items`. -/
def executeLoop (transfer : StockTransfer) (userID : Nat) : List StockTransferItem → DB → Option DB
  | [], tx => some tx
  | item :: rest, tx =>
    match transferOut transfer item userID tx with
    | none => none
    | some tx =>
      match transferIn transfer item userID tx with
      | none => none
      | some tx =>
        let item : StockTransferItem :=
          { item with QuantityShipped := item.QuantityRequested,
                      QuantityReceived := item.QuantityRequested }
        executeLoop transfer userID rest
          { tx with stock_transfer_items := saveTransferItem tx.stock_transfer_items item }

/-- Handler `StockTransferHandler.ExecuteStockTransfer` for the transfer id of the URL. -/
def ExecuteStockTransfer (c : Ctx) (id : Nat) (db : DB) : Outcome :=
  match db.stock_transfers.find? (fun t => t.ID == id) with
  | none => ⟨404, db⟩
  | some transfer =>
    if transfer.Status ≠ "pending" then ⟨400, db⟩
    else
      let items := db.stock_transfer_items.filter (fun it => it.TransferID == transfer.ID)
      match executeLoop transfer (userIDOf c) items db with
      | none => ⟨500, db⟩
      | some tx =>
        let transfer : StockTransfer :=
          { transfer with Status := "completed", Shipped := true, Received := true }
        ⟨200, { tx with stock_transfers :=
          tx.stock_transfers.map (fun r => if r.ID = transfer.ID then transfer else r) }⟩

/-! ## handlers/discount.go -/

/-- Query of `GET /discounts/validate`. An id or amount parameter that is the empty string is
`none`; otherwise it is the value its parse (`strconv.Atoi`, `strconv.ParseFloat`) yields. -/
structure ValidateDiscountQuery where
  code : String := ""
  customer_id : Option Nat := none
  store_id : Option Nat := none
  amount : Option F64 := none
deriving DecidableEq, Repr

/-- Answer of `ValidateDiscount`: the status and, with 200, the `discount` and the
`discount_amount` the handler passes to `c.JSON`. -/
structure ValidateDiscountResponse where
  status : Nat
  discount : Option Discount := none
  discount_amount : F64 := 0
deriving DecidableEq, Repr

/-- Block "Calculate discount amount" of `ValidateDiscount`, with the cap that follows it. -/
def calculateDiscountAmount (discount : Discount) (amount : Option F64) : F64 :=
  match amount with
  | none => 0
  | some purchaseAmount =>
    let discountAmount :=
      if discount.DiscountType = "percentage" then
        F64.mul purchaseAmount (F64.div discount.DiscountValue 100)
      else discount.DiscountValue
    if F64.lt 0 discount.MaxDiscount = true ∧
        F64.lt discount.MaxDiscount discountAmount = true then
      discount.MaxDiscount
    else discountAmount

/-- Check "Check per-customer usage limit": `true` when the customer has used the discount as
often as it allows. -/
def perCustomerLimitReached (db : DB) (discount : Discount) (customer_id : Option Nat) : Bool :=
  match customer_id with
  | none => false
  | some cid =>
    decide (discount.UsagePerCustomer > 0) &&
      decide (((db.discount_usages.filter (fun u =>
        u.DiscountID == discount.ID && u.CustomerID == some cid)).length : Int)
          ≥ discount.UsagePerCustomer)

/-- Handler `DiscountHandler.ValidateDiscount`. -/
def ValidateDiscount (c : Ctx) (q : ValidateDiscountQuery) (db : DB) :
    ValidateDiscountResponse :=
  if q.code = "" then { status := 400 }
  else
    match db.discounts.find? (fun d => d.Code == q.code && d.IsActive && !d.Deleted) with
    | none => { status := 404 }
    | some discount =>
      if (match discount.StartDate with
          | some start => decide (c.now < start)
          | none => false) = true then { status := 400 }
      else if (match discount.EndDate with
          | some stop => decide (c.now > stop)
          | none => false) = true then { status := 400 }
      else if discount.UsageLimit > 0 ∧ discount.UsageCount ≥ discount.UsageLimit then
        { status := 400 }
      else if (match discount.StoreID, q.store_id with
          | some want, some given => given != want
          | _, _ => false) = true then { status := 400 }
      else if (match q.amount with
          | some purchaseAmount => F64.lt purchaseAmount discount.MinPurchase
          | none => false) = true then { status := 400 }
      else if discount.ApplicableTo = "member" ∧ q.customer_id = none then { status := 400 }
      else if (discount.ApplicableTo == "specific_customer" &&
          (match discount.CustomerID, q.customer_id with
            | some _, none => true
            | some want, some given => given != want
            | none, _ => false)) = true then { status := 400 }
      else if perCustomerLimitReached db discount q.customer_id = true then { status := 400 }
      else
        { status := 200, discount := some discount,
          discount_amount := calculateDiscountAmount discount q.amount }

/-! ## pagination of the list handlers -/

/-- A query parameter as `strconv.Atoi(c.DefaultQuery(name, dflt))` reads it: not in the URL,
in the URL but not a number, or a number. -/
inductive QueryParam where
  | absent
  | text
  | number (n : Int)
deriving DecidableEq, Repr

/-- Expression `strconv.Atoi(c.DefaultQuery(name, dflt))` with the error dropped: the default
when the parameter is absent, 0 when it does not parse. -/
def atoiDefaultQuery (q : QueryParam) (dflt : Int) : Int :=
  match q with
  | QueryParam.absent => dflt
  | QueryParam.text => 0
  | QueryParam.number n => n

/-- Go's `/` on `int64`: a run-time panic on a zero divisor (`none`), else the quotient
truncated toward zero. -/
def goDiv (a b : Int) : Option Int :=
  if b = 0 then none else some (Int.tdiv a b)

/-- The `pagination` object of the list handlers. -/
structure Pagination where
  current_page : Int
  per_page : Int
  total : Int
  total_pages : Int
deriving DecidableEq, Repr

/-- The pagination part of `GetInventory`, `GetInventoryTransactions` and the other list
handlers for a count of `total` rows: `none` when building the answer panics. -/
def pagination (total : Int) (pageParam limitParam : QueryParam) : Option Pagination :=
  let page := atoiDefaultQuery pageParam 1
  let limit := atoiDefaultQuery limitParam 10
  match goDiv (total + limit - 1) limit with
  | none => none
  | some pages =>
    some { current_page := page, per_page := limit, total := total, total_pages := pages }

/-- Status of a list handler: 200 with the pagination object, or the 500 that gin's recovery
answers when the handler panics. -/
def listStatus (total : Int) (pageParam limitParam : QueryParam) : Nat :=
  match pagination total pageParam limitParam with
  | some _ => 200
  | none => 500

/-! ## Observations used to state the properties -/

/-- Every warehouse and store balance row has a quantity of at least 0. -/
def DB.nonneg (db : DB) : Prop :=
  (∀ r ∈ db.inventories, 0 ≤ r.Quantity) ∧ (∀ r ∈ db.store_inventories, 0 ≤ r.Quantity)

instance (db : DB) : Decidable db.nonneg := by
  unfold DB.nonneg; infer_instance

/-! ## Example states and requests -/

def exStoreDB : DB :=
  { stores := [1],
    store_inventories := [{ ID := 1, ProductID := 1, StoreID := 1, Quantity := 50 }] }

def exLine20 : SaleItem := { ProductID := 1, Quantity := 20, UnitPrice := 5, TotalPrice := 100 }
def exLine40 : SaleItem := { ProductID := 1, Quantity := 40, UnitPrice := 5, TotalPrice := 200 }
def exSaleTwoLines : CreateSaleRequest :=
  { StoreID := 1, Items := [exLine20, exLine40],
    Payments := [{ PaymentMethod := "cash", Amount := 300 }] }

def exDB : DB :=
  { stores := [1],
    warehouses := [1, 2],
    store_inventories := [{ ID := 1, ProductID := 1, StoreID := 1, Quantity := 50 }],
    inventories := [{ ID := 1, ProductID := 1, WarehouseID := 1, Quantity := 100 }],
    purchase_orders := [{ ID := 1, PurchaseNumber := "PO-1", WarehouseID := 1, Status := "draft" }],
    purchase_order_items :=
      [{ ID := 1, PurchaseOrderID := 1, ProductID := 2, QuantityOrdered := 100, UnitCost := 3 }] }

def exSaleOneLine : CreateSaleRequest :=
  { StoreID := 1, Items := [exLine20],
    Payments := [{ PaymentMethod := "cash", Amount := 100 }] }

def exReceive100 : List ReceiveItem := [{ ItemID := 1, QuantityReceived := 100 }]

def exAdjustTo80 : AdjustInventoryRequest :=
  { ProductID := 1, WarehouseID := 1, Quantity := 80, Reason := "damage" }

def exAdjustStoreTo80 : AdjustStoreInventoryRequest :=
  { ProductID := 1, StoreID := 1, Quantity := 80, Reason := "damage" }

def exAdjustNegative : AdjustInventoryRequest :=
  { ProductID := 1, WarehouseID := 1, Quantity := -5, Reason := "recount" }

/-- A stock location: its kind with its id. -/
inductive Location where
  | warehouse (id : Nat)
  | store (id : Nat)
deriving DecidableEq, Repr

/-- The id of a location. -/
def Location.id : Location → Nat
  | Location.warehouse w => w
  | Location.store s => s

/-- The ledger's `location_type` text for a location. -/
def Location.kind : Location → String
  | Location.warehouse _ => "warehouse"
  | Location.store _ => "store"

/-- Source of a transfer as `ExecuteStockTransfer` reads it: the warehouse when
`from_warehouse_id` is set, else the store. -/
def StockTransfer.source (t : StockTransfer) : Option Location :=
  match t.FromWarehouseID with
  | some w => some (Location.warehouse w)
  | none => t.FromStoreID.map Location.store

/-- Destination of a transfer as `ExecuteStockTransfer` reads it. -/
def StockTransfer.dest (t : StockTransfer) : Option Location :=
  match t.ToWarehouseID with
  | some w => some (Location.warehouse w)
  | none => t.ToStoreID.map Location.store

/-- Quantity of the warehouse balance row the lookup under `cond` returns, 0 when there is none. -/
def warehouseBalance (t : List Inventory) (cond : Inventory) : Int :=
  match firstInventory t cond with
  | some r => r.Quantity
  | none => 0

/-- Quantity of the store balance row the lookup under `cond` returns, 0 when there is none. -/
def storeBalance (t : List StoreInventory) (cond : StoreInventory) : Int :=
  match firstStoreInventory t cond with
  | some r => r.Quantity
  | none => 0

/-- The balance the handlers see for a (product, variant) at a location. -/
def balanceAt (db : DB) (loc : Location) (productID : Nat) (variant : Option Nat) : Int :=
  match loc with
  | Location.warehouse w =>
    warehouseBalance db.inventories
      { ProductID := productID, WarehouseID := w, ProductVariantID := variant }
  | Location.store s =>
    storeBalance db.store_inventories
      { ProductID := productID, StoreID := s, ProductVariantID := variant }

/-- Primary keys are distinct within each of the two balance tables. -/
def DB.uniqueKeys (db : DB) : Prop :=
  (db.inventories.map (fun r => r.ID)).Nodup ∧ (db.store_inventories.map (fun r => r.ID)).Nodup

instance (db : DB) : Decidable db.uniqueKeys := by
  unfold DB.uniqueKeys; infer_instance

def exTransferOneItem : CreateStockTransferRequest :=
  { FromWarehouseID := some 1, ToStoreID := some 1,
    Items := [{ ProductID := 1, QuantityRequested := 30 }] }

def exTransferDB : DB := (CreateStockTransfer {} exTransferOneItem exDB).db

def exTransferTwoItems : CreateStockTransferRequest :=
  { FromWarehouseID := some 1, ToWarehouseID := some 2,
    Items := [{ ProductID := 1, QuantityRequested := 60 },
              { ProductID := 1, QuantityRequested := 60 }] }

/-- A ledger entry describes a balance write: it carries the product, variant, location kind and
location id of the row written, and its quantity has the absolute value of the change written. -/
def Paired (w : BalanceWrite) (e : InventoryTransaction) : Prop :=
  e.ProductID = w.ProductID ∧ e.ProductVariantID = w.ProductVariantID ∧
    e.LocationType = w.LocationType ∧ e.LocationID = w.LocationID ∧
    e.Quantity.natAbs = (w.New - w.Old).natAbs

instance (w : BalanceWrite) (e : InventoryTransaction) : Decidable (Paired w e) := by
  unfold Paired; infer_instance

/-- Between `db` and `db'` the balance writes performed and the ledger entries appended pair up
one to one, in order, each entry carrying the key of the row written. -/
def LedgerExact (db db' : DB) : Prop :=
  ∃ ws es, db'.balance_writes = db.balance_writes ++ ws ∧
    db'.inventory_transactions = db.inventory_transactions ++ es ∧
    List.Forall₂ Paired ws es

/-- A ledger entry describes a balance write as far as the lookup that loaded the row goes: the
same location kind and a quantity with the absolute value of the change written; the product
and the location id of the row written unless the entry's id is zero (a zero id puts no
condition on the lookup); and the variant of the row written when the entry names a variant (an
entry without a variant may describe the row of any variant). -/
def PairedUpToLookup (w : BalanceWrite) (e : InventoryTransaction) : Prop :=
  (e.ProductID ≠ 0 → e.ProductID = w.ProductID) ∧
    (∀ v, e.ProductVariantID = some v → w.ProductVariantID = some v) ∧
    e.LocationType = w.LocationType ∧ (e.LocationID ≠ 0 → e.LocationID = w.LocationID) ∧
    e.Quantity.natAbs = (w.New - w.Old).natAbs

/-- Between `db` and `db'` the balance writes performed and the ledger entries appended pair up
one to one, in order, each entry describing its write as far as the lookup goes. -/
def LedgerComplete (db db' : DB) : Prop :=
  ∃ ws es, db'.balance_writes = db.balance_writes ++ ws ∧
    db'.inventory_transactions = db.inventory_transactions ++ es ∧
    List.Forall₂ PairedUpToLookup ws es

def exReceive40 : List ReceiveItem := [{ ItemID := 1, QuantityReceived := 40 }]

def exReceive60 : List ReceiveItem := [{ ItemID := 1, QuantityReceived := 60 }]

def exReceiveSameItemTwice : List ReceiveItem :=
  [{ ItemID := 1, QuantityReceived := 40 }, { ItemID := 1, QuantityReceived := 60 }]

def exSaleNegativeLine : CreateSaleRequest :=
  { StoreID := 1,
    Items := [{ ProductID := 1, Quantity := -5, UnitPrice := 5, TotalPrice := -25 }],
    Payments := [] }

def exTransferToMissingStore : CreateStockTransferRequest :=
  { FromWarehouseID := some 1, ToStoreID := some 99,
    Items := [{ ProductID := 1, QuantityRequested := 30 }] }

/-- The status rule of `ReceivePurchaseOrder`, read off the states before (`db`) and after
(`db'`) for the order with id `id`: received with `received_date` set when every item of the
order is fully received; else partial when some item has received anything, `received_date`
as before; else status and `received_date` as before. -/
def StatusRecomputed (id : Nat) (db db' : DB) : Prop :=
  ∃ po po', db.purchase_orders.find? (fun p => p.ID == id) = some po ∧
    db'.purchase_orders.find? (fun p => p.ID == id) = some po' ∧
    ((∀ it ∈ db'.purchase_order_items.filter (fun it => it.PurchaseOrderID == po.ID),
        it.QuantityOrdered ≤ it.QuantityReceived) →
      po'.Status = "received" ∧ po'.ReceivedDateSet = true) ∧
    ((¬ ∀ it ∈ db'.purchase_order_items.filter (fun it => it.PurchaseOrderID == po.ID),
        it.QuantityOrdered ≤ it.QuantityReceived) →
      (∃ it ∈ db'.purchase_order_items.filter (fun it => it.PurchaseOrderID == po.ID),
        0 < it.QuantityReceived) →
      po'.Status = "partial" ∧ po'.ReceivedDateSet = po.ReceivedDateSet) ∧
    ((¬ ∀ it ∈ db'.purchase_order_items.filter (fun it => it.PurchaseOrderID == po.ID),
        it.QuantityOrdered ≤ it.QuantityReceived) →
      (¬ ∃ it ∈ db'.purchase_order_items.filter (fun it => it.PurchaseOrderID == po.ID),
        0 < it.QuantityReceived) →
      po'.Status = po.Status ∧ po'.ReceivedDateSet = po.ReceivedDateSet)

def exVariantDB : DB :=
  { inventories :=
      [{ ID := 1, ProductID := 1, ProductVariantID := some 7, WarehouseID := 1, Quantity := 100 }] }

def exAdjustToZero : AdjustInventoryRequest :=
  { ProductID := 1, WarehouseID := 1, Quantity := 0, Reason := "sold out" }

def exAdjustNoReason : AdjustInventoryRequest :=
  { ProductID := 1, WarehouseID := 1, Quantity := 80, Reason := "" }

def exAdjustStoreNoReason : AdjustStoreInventoryRequest :=
  { ProductID := 1, StoreID := 1, Quantity := 80, Reason := "" }

def exSaleWrongTotal : CreateSaleRequest :=
  { StoreID := 1,
    Items := [{ ProductID := 1, Quantity := 2, UnitPrice := 5, DiscountAmount := 0,
                TotalPrice := 1 }],
    Payments := [{ PaymentMethod := "cash", Amount := 1 }] }

def exDiscountDB : DB :=
  { exDB with
    discounts := [{ ID := 1, Code := "ONCE", DiscountType := "fixed", DiscountValue := 5,
                    UsageLimit := 1, UsageCount := 1, IsActive := true }] }

def exSaleWithDiscount : CreateSaleRequest :=
  { StoreID := 1, DiscountID := some 1, DiscountAmount := 5, Items := [exLine20],
    Payments := [{ PaymentMethod := "cash", Amount := 95 }] }

/-- Exactly one of two optional ids is set. -/
def exactlyOne (a b : Option Nat) : Prop :=
  (a ≠ none ∧ b = none) ∨ (a = none ∧ b ≠ none)

/-- Source location named by a transfer request: the warehouse when `from_warehouse_id` is set,
else the store. -/
def CreateStockTransferRequest.source (req : CreateStockTransferRequest) : Option Location :=
  match req.FromWarehouseID with
  | some w => some (Location.warehouse w)
  | none => req.FromStoreID.map Location.store

/-- Destination location named by a transfer request. -/
def CreateStockTransferRequest.dest (req : CreateStockTransferRequest) : Option Location :=
  match req.ToWarehouseID with
  | some w => some (Location.warehouse w)
  | none => req.ToStoreID.map Location.store

/-- Loyalty points a sale earns, in the words of the specification: `floor(total_amount /
min_purchase)` when `total_amount >= min_purchase`, else 0. -/
def loyaltyEarned (totalAmount minPurchase : Int) : Int :=
  if totalAmount ≥ minPurchase then ⌊(totalAmount : ℚ) / (minPurchase : ℚ)⌋ else 0

def exLoyaltyDB : DB :=
  { exDB with
    customers := [{ ID := 1, IsMember := true, LoyaltyPoints := 10 },
                  { ID := 2, IsMember := false, LoyaltyPoints := 4 }],
    settings := [{ ID := 1, Key := "loyalty_min_purchase", Value := some 40 }] }

def exSaleRedeeming : CreateSaleRequest :=
  { StoreID := 1, CustomerID := some 1, PointsRedeemed := 3, Items := [exLine20],
    Payments := [{ PaymentMethod := "cash", Amount := 120 }] }

/-- A sale of one unit priced 10^23 to the member customer 1, who redeems nothing. -/
def exSaleHugeTotal : CreateSaleRequest :=
  { StoreID := 1, CustomerID := some 1,
    Items := [{ ProductID := 1, Quantity := 1, UnitPrice := 10 ^ 23, TotalPrice := 10 ^ 23 }],
    Payments := [{ PaymentMethod := "cash", Amount := 10 ^ 23 }] }

/-- Discount amount before the cap: the `float64` product of `a` and the `float64` quotient
`discount_value / 100` for a percentage discount, and `discount_value` for a fixed one. -/
def uncappedDiscountAmount (discount : Discount) (a : F64) : F64 :=
  if discount.DiscountType = "percentage" then F64.mul a (F64.div discount.DiscountValue 100)
  else discount.DiscountValue

/-- A discount of 7 %, without a cap. -/
def exSevenPercent : Discount :=
  { ID := 1, Code := "SEVEN", DiscountType := "percentage", DiscountValue := 7,
    IsActive := true }

def exSevenPercentDB : DB := { exDB with discounts := [exSevenPercent] }

def exValidateSeven : ValidateDiscountQuery := { code := "SEVEN", amount := some 100 }

def exTenPercent : Discount :=
  { ID := 1, Code := "TEN", DiscountType := "percentage", DiscountValue := 10,
    MaxDiscount := 15, IsActive := true }

def exCappedDiscountDB : DB := { exDB with discounts := [exTenPercent] }

def exValidateTen : ValidateDiscountQuery := { code := "TEN", amount := some 200 }

/-- The warehouse balance record of the key (product, variant, warehouse): the first row that
carries exactly these three values (`variant = none` asks for a row without a variant). -/
def warehouseRecord (t : List Inventory) (productID : Nat) (variant : Option Nat)
    (warehouseID : Nat) : Option Inventory :=
  t.find? (fun r => r.ProductID == productID && r.ProductVariantID == variant &&
    r.WarehouseID == warehouseID)

/-- The store balance record of the key (product, variant, store). -/
def storeRecord (t : List StoreInventory) (productID : Nat) (variant : Option Nat)
    (storeID : Nat) : Option StoreInventory :=
  t.find? (fun r => r.ProductID == productID && r.ProductVariantID == variant &&
    r.StoreID == storeID)

/-- The balance of the key (product, variant) at a location: the quantity of the key's record,
0 when the key has no record. -/
def keyedBalance (db : DB) (loc : Location) (productID : Nat) (variant : Option Nat) : Int :=
  match loc with
  | Location.warehouse w =>
    match warehouseRecord db.inventories productID variant w with
    | some r => r.Quantity
    | none => 0
  | Location.store s =>
    match storeRecord db.store_inventories productID variant s with
    | some r => r.Quantity
    | none => 0

/-- On this table the key (product, variant, warehouse) cannot be mistaken by a lookup: its ids
are not zero and, when it names no variant, the first row of the product at the warehouse (if
there is one) carries no variant. -/
def warehouseKeyExact (t : List Inventory) (productID : Nat) (variant : Option Nat)
    (warehouseID : Nat) : Prop :=
  productID ≠ 0 ∧ warehouseID ≠ 0 ∧
    (variant = none →
      (t.find? (fun r => r.ProductID == productID && r.WarehouseID == warehouseID)).bind
        (fun r => r.ProductVariantID) = none)

instance (t : List Inventory) (p : Nat) (v : Option Nat) (w : Nat) :
    Decidable (warehouseKeyExact t p v w) := by
  unfold warehouseKeyExact; infer_instance

/-- On this table the key (product, variant, store) cannot be mistaken by a lookup: its ids are
not zero and, when it names no variant, the first row of the product at the store (if there is
one) carries no variant. -/
def storeKeyExact (t : List StoreInventory) (productID : Nat) (variant : Option Nat)
    (storeID : Nat) : Prop :=
  productID ≠ 0 ∧ storeID ≠ 0 ∧
    (variant = none →
      (t.find? (fun r => r.ProductID == productID && r.StoreID == storeID)).bind
        (fun r => r.ProductVariantID) = none)

instance (t : List StoreInventory) (p : Nat) (v : Option Nat) (s : Nat) :
    Decidable (storeKeyExact t p v s) := by
  unfold storeKeyExact; infer_instance

/-- Store 1 holds product 1 twice: 50 of its variant 7 and 50 without a variant. -/
def exTwoVariantStoreDB : DB :=
  { stores := [1],
    store_inventories :=
      [{ ID := 1, ProductID := 1, ProductVariantID := some 7, StoreID := 1, Quantity := 50 },
       { ID := 2, ProductID := 1, StoreID := 1, Quantity := 50 }] }

/-- Store 1 holds product 1 only as its variant 7. -/
def exVariantStoreDB : DB :=
  { stores := [1],
    store_inventories :=
      [{ ID := 1, ProductID := 1, ProductVariantID := some 7, StoreID := 1, Quantity := 50 }] }

def exLine60 : SaleItem := { ProductID := 1, Quantity := 60, UnitPrice := 5, TotalPrice := 300 }

/-- Order 1 is for product 2 without a variant; warehouse 1 holds product 2 only as its
variant 7. -/
def exVariantReceiveDB : DB :=
  { exDB with
    inventories :=
      [{ ID := 1, ProductID := 2, ProductVariantID := some 7, WarehouseID := 1,
         Quantity := 100 }] }

/-! ## Lemmas and theorems -/

theorem updateInventoryForSale_insufficient (tx : DB) (storeID : Nat) (item : SaleItem)
    (userID : Nat) (inv : StoreInventory)
    (hinv : firstStoreInventory tx.store_inventories
      { ProductID := item.ProductID, ProductVariantID := item.ProductVariantID,
        StoreID := storeID } = some inv)
    (hlt : inv.Quantity < item.Quantity) :
    updateInventoryForSale tx storeID item userID =
      (tx, some (InvError.insufficient item.ProductID inv.Quantity item.Quantity)) := by
  simp only [updateInventoryForSale, hinv, if_pos hlt]

theorem saleItemsLoop_append (storeID saleID userID : Nat) (pre rest : List SaleItem)
    (tx tx' : DB) (h : saleItemsLoop storeID saleID userID pre tx = (tx', none)) :
    saleItemsLoop storeID saleID userID (pre ++ rest) tx =
      saleItemsLoop storeID saleID userID rest tx' := by
  induction pre generalizing tx with
  | nil =>
    simp only [saleItemsLoop, Prod.mk.injEq, and_true] at h
    simp [h]
  | cons item pre ih =>
    simp only [saleItemsLoop, List.cons_append] at h ⊢
    split at h
    · simp at h
    · next tx1 heq =>
      exact ih tx1 h

theorem saveInventory_nonneg (t : List Inventory) (inv : Inventory)
    (ht : ∀ r ∈ t, 0 ≤ r.Quantity) (hinv : 0 ≤ inv.Quantity) :
    ∀ r ∈ saveInventory t inv, 0 ≤ r.Quantity := by
  intro r hr
  simp only [saveInventory, List.mem_map] at hr
  obtain ⟨a, ha, rfl⟩ := hr
  split_ifs
  · exact hinv
  · exact ht a ha

theorem saveStoreInventory_nonneg (t : List StoreInventory) (inv : StoreInventory)
    (ht : ∀ r ∈ t, 0 ≤ r.Quantity) (hinv : 0 ≤ inv.Quantity) :
    ∀ r ∈ saveStoreInventory t inv, 0 ≤ r.Quantity := by
  intro r hr
  simp only [saveStoreInventory, List.mem_map] at hr
  obtain ⟨a, ha, rfl⟩ := hr
  split_ifs
  · exact hinv
  · exact ht a ha

theorem firstOrCreateInventory_nonneg (t : List Inventory) (w : Inventory)
    (ht : ∀ r ∈ t, 0 ≤ r.Quantity) (hw : w.Quantity = 0) :
    0 ≤ (firstOrCreateInventory t w).1.Quantity ∧
      ∀ r ∈ (firstOrCreateInventory t w).2, 0 ≤ r.Quantity := by
  unfold firstOrCreateInventory
  cases h : firstInventory t w with
  | some inv =>
    exact ⟨ht inv (List.mem_of_find?_eq_some h), ht⟩
  | none =>
    refine ⟨by simp [hw], ?_⟩
    intro r hr
    simp only [List.mem_append, List.mem_singleton] at hr
    rcases hr with hr | rfl
    · exact ht r hr
    · simp [hw]

theorem firstOrCreateStoreInventory_nonneg (t : List StoreInventory) (w : StoreInventory)
    (ht : ∀ r ∈ t, 0 ≤ r.Quantity) (hw : w.Quantity = 0) :
    0 ≤ (firstOrCreateStoreInventory t w).1.Quantity ∧
      ∀ r ∈ (firstOrCreateStoreInventory t w).2, 0 ≤ r.Quantity := by
  unfold firstOrCreateStoreInventory
  cases h : firstStoreInventory t w with
  | some inv =>
    exact ⟨ht inv (List.mem_of_find?_eq_some h), ht⟩
  | none =>
    refine ⟨by simp [hw], ?_⟩
    intro r hr
    simp only [List.mem_append, List.mem_singleton] at hr
    rcases hr with hr | rfl
    · exact ht r hr
    · simp [hw]

theorem updateInventoryForSale_nonneg (tx : DB) (storeID : Nat) (item : SaleItem) (userID : Nat)
    (h : tx.nonneg) : (updateInventoryForSale tx storeID item userID).1.nonneg := by
  simp only [updateInventoryForSale]
  split
  · exact h
  · next inventory hfind =>
    split_ifs with hlt
    · exact h
    · refine ⟨h.1, ?_⟩
      simp only [createTransaction, DB.writeStoreInventory]
      apply saveStoreInventory_nonneg _ _ h.2
      simp only
      omega

theorem createSaleItem_nonneg (tx : DB) (item : SaleItem) (h : tx.nonneg) :
    (createSaleItem tx item).2.nonneg := h

theorem saleItemsLoop_nonneg (storeID saleID userID : Nat) (items : List SaleItem) (tx : DB)
    (h : tx.nonneg) : (saleItemsLoop storeID saleID userID items tx).1.nonneg := by
  induction items generalizing tx with
  | nil => exact h
  | cons item rest ih =>
    simp only [saleItemsLoop]
    have hstep := updateInventoryForSale_nonneg
      (createSaleItem tx { item with SaleID := saleID }).2 storeID
      (createSaleItem tx { item with SaleID := saleID }).1 userID
      (createSaleItem_nonneg tx _ h)
    split
    · next tx1 err heq =>
      rw [heq] at hstep
      exact hstep
    · next tx1 heq =>
      rw [heq] at hstep
      exact ih tx1 hstep

theorem salePaymentsLoop_balances (saleID : Nat) (payments : List SalePayment) (tx : DB) :
    (salePaymentsLoop saleID payments tx).inventories = tx.inventories ∧
      (salePaymentsLoop saleID payments tx).store_inventories = tx.store_inventories ∧
      (salePaymentsLoop saleID payments tx).inventory_transactions = tx.inventory_transactions ∧
      (salePaymentsLoop saleID payments tx).balance_writes = tx.balance_writes := by
  induction payments generalizing tx with
  | nil => exact ⟨rfl, rfl, rfl, rfl⟩
  | cons p rest ih =>
    simp only [salePaymentsLoop]
    exact ih _

theorem updateCustomerStats_balances (tx : DB) (req : CreateSaleRequest) (total : Int) :
    (updateCustomerStats tx req total).inventories = tx.inventories ∧
      (updateCustomerStats tx req total).store_inventories = tx.store_inventories ∧
      (updateCustomerStats tx req total).inventory_transactions = tx.inventory_transactions ∧
      (updateCustomerStats tx req total).balance_writes = tx.balance_writes := by
  unfold updateCustomerStats
  cases req.CustomerID <;> exact ⟨rfl, rfl, rfl, rfl⟩

theorem saleTxBeforeItems_balances (c : Ctx) (req : CreateSaleRequest) (db : DB) :
    (saleTxBeforeItems c req db).2.inventories = db.inventories ∧
      (saleTxBeforeItems c req db).2.store_inventories = db.store_inventories ∧
      (saleTxBeforeItems c req db).2.inventory_transactions = db.inventory_transactions ∧
      (saleTxBeforeItems c req db).2.balance_writes = db.balance_writes := by
  unfold saleTxBeforeItems trackDiscountUsage createSale
  cases req.DiscountID with
  | none => exact ⟨rfl, rfl, rfl, rfl⟩
  | some did =>
    simp only
    split_ifs <;> exact ⟨rfl, rfl, rfl, rfl⟩

theorem CreateSale_cases (c : Ctx) (req : CreateSaleRequest) (db : DB) :
    ((CreateSale c req db).status ≠ 201 ∧ (CreateSale c req db).db = db) ∨
    ∃ tx, saleItemsLoop req.StoreID (saleTxBeforeItems c req db).1.ID (userIDOf c) req.Items
        (saleTxBeforeItems c req db).2 = (tx, none) ∧
      CreateSale c req db = ⟨201, updateCustomerStats
        (salePaymentsLoop (saleTxBeforeItems c req db).1.ID req.Payments tx) req
        (saleTxBeforeItems c req db).1.TotalAmount⟩ := by
  unfold CreateSale
  by_cases h1 : req.StoreID = 0
  · left; simp [h1]
  by_cases h2 : req.StoreID ∈ db.stores
  swap
  · left; simp [h1, h2]
  by_cases h3 : pointsRedemptionOK db req = false
  · left; simp [h1, h2, h3]
  simp only [if_neg h1, not_not.mpr h2, if_neg h3, if_false]
  split
  · left; simp
  · next tx heq => right; exact ⟨tx, heq, rfl⟩

theorem CreateSale_nonneg (c : Ctx) (req : CreateSaleRequest) (db : DB) (h : db.nonneg) :
    (CreateSale c req db).db.nonneg := by
  rcases CreateSale_cases c req db with ⟨-, hdb⟩ | ⟨tx, hloop, heq⟩
  · rw [hdb]; exact h
  · have h0 : (saleTxBeforeItems c req db).2.nonneg := by
      obtain ⟨h1, h2, -, -⟩ := saleTxBeforeItems_balances c req db
      exact ⟨by rw [h1]; exact h.1, by rw [h2]; exact h.2⟩
    have hl := saleItemsLoop_nonneg req.StoreID (saleTxBeforeItems c req db).1.ID (userIDOf c)
      req.Items _ h0
    rw [hloop] at hl
    rw [heq]
    obtain ⟨a1, a2, -, -⟩ := updateCustomerStats_balances
      (salePaymentsLoop (saleTxBeforeItems c req db).1.ID req.Payments tx) req
      (saleTxBeforeItems c req db).1.TotalAmount
    obtain ⟨b1, b2, -, -⟩ := salePaymentsLoop_balances
      (saleTxBeforeItems c req db).1.ID req.Payments tx
    exact ⟨by rw [a1, b1]; exact hl.1, by rw [a2, b2]; exact hl.2⟩

/-! ### C1: sale atomicity -/

/-- C1. A sale request whose lines are `pre ++ line :: post`: when the lines of `pre` pass the
item loop (reaching transaction state `tx`) and `line` then fails the stock check of
`updateInventoryForSale` (the balance row found for it holds less than the line asks for),
`CreateSale` does not answer 201 and the database it leaves is the one the request started
from: no balance changed, no ledger entry, no sale, sale item or payment row. -/
theorem CreateSale_atomic (c : Ctx) (req : CreateSaleRequest) (db : DB)
    (pre post : List SaleItem) (line : SaleItem) (tx : DB) (inv : StoreInventory)
    (hitems : req.Items = pre ++ line :: post)
    (hpre : saleItemsLoop req.StoreID (saleTxBeforeItems c req db).1.ID (userIDOf c) pre
      (saleTxBeforeItems c req db).2 = (tx, none))
    (hinv : firstStoreInventory tx.store_inventories
      { ProductID := line.ProductID, ProductVariantID := line.ProductVariantID,
        StoreID := req.StoreID } = some inv)
    (hlt : inv.Quantity < line.Quantity) :
    (CreateSale c req db).status ≠ 201 ∧ (CreateSale c req db).db = db := by
  have hloop : ∃ t e, saleItemsLoop req.StoreID (saleTxBeforeItems c req db).1.ID (userIDOf c)
      req.Items (saleTxBeforeItems c req db).2 = (t, some e) := by
    rw [hitems, saleItemsLoop_append _ _ _ pre (line :: post) _ tx hpre]
    simp only [saleItemsLoop]
    have h := updateInventoryForSale_insufficient
      (createSaleItem tx { line with SaleID := (saleTxBeforeItems c req db).1.ID }).2
      req.StoreID
      (createSaleItem tx { line with SaleID := (saleTxBeforeItems c req db).1.ID }).1
      (userIDOf c) inv (by simpa [createSaleItem] using hinv) (by simpa [createSaleItem] using hlt)
    rw [h]
    exact ⟨_, _, rfl⟩
  obtain ⟨t, e, hte⟩ := hloop
  unfold CreateSale
  split_ifs <;> simp [hte]

/-- C1 at a two-line sale against a balance of 50: the first line (20) passes, the second (40)
fails the stock check, and the database is left as it was. -/
theorem CreateSale_atomic_witness :
    (CreateSale {} exSaleTwoLines exStoreDB).status ≠ 201 ∧
      (CreateSale {} exSaleTwoLines exStoreDB).db = exStoreDB :=
  CreateSale_atomic {} exSaleTwoLines exStoreDB [exLine20] [] exLine40
    (saleItemsLoop 1 1 1 [exLine20] (saleTxBeforeItems {} exSaleTwoLines exStoreDB).2).1
    { ID := 1, ProductID := 1, StoreID := 1, Quantity := 30 }
    rfl (by decide) (by decide) (by decide)

theorem writeInventory_nonneg (tx : DB) (loaded : Inventory) (qty : Int)
    (h : tx.nonneg) (hq : 0 ≤ qty) : (tx.writeInventory loaded qty).nonneg :=
  ⟨saveInventory_nonneg _ _ h.1 hq, h.2⟩

theorem writeStoreInventory_nonneg (tx : DB) (loaded : StoreInventory) (qty : Int)
    (h : tx.nonneg) (hq : 0 ≤ qty) : (tx.writeStoreInventory loaded qty).nonneg :=
  ⟨h.1, saveStoreInventory_nonneg _ _ h.2 hq⟩

theorem receiveLine_nonneg (po : PurchaseOrder) (poItem : PurchaseOrderItem)
    (itemReq : ReceiveItem) (userID : Nat) (tx : DB) (h : tx.nonneg)
    (hr : 0 ≤ itemReq.QuantityReceived) : (receiveLine po poItem itemReq userID tx).nonneg := by
  simp only [receiveLine, createTransaction]
  have hf := firstOrCreateInventory_nonneg tx.inventories
    { ProductID := poItem.ProductID, WarehouseID := po.WarehouseID,
      ProductVariantID := poItem.ProductVariantID } h.1 rfl
  refine ⟨saveInventory_nonneg _ _ hf.2 ?_, h.2⟩
  simp only
  omega

theorem receiveLoop_nonneg (po : PurchaseOrder) (items : List PurchaseOrderItem) (userID : Nat)
    (req : List ReceiveItem) (tx tx' : DB) (h : tx.nonneg)
    (hreq : ∀ l ∈ req, 0 ≤ l.QuantityReceived)
    (hloop : receiveLoop po items userID req tx = some tx') : tx'.nonneg := by
  induction req generalizing tx with
  | nil =>
    simp only [receiveLoop, Option.some.injEq] at hloop
    exact hloop ▸ h
  | cons l rest ih =>
    simp only [receiveLoop] at hloop
    split at hloop
    · simp at hloop
    · next poItem _ =>
      exact ih _ (receiveLine_nonneg po poItem l userID tx h (hreq l (List.mem_cons_self _ _)))
        (fun l' hl' => hreq l' (List.mem_cons_of_mem _ hl')) hloop

theorem ReceivePurchaseOrder_cases (c : Ctx) (id : Nat) (req : List ReceiveItem) (db : DB) :
    ((ReceivePurchaseOrder c id req db).status ≠ 200 ∧ (ReceivePurchaseOrder c id req db).db = db) ∨
    ∃ po tx, req.all ReceiveItem.bindOK = true ∧
      db.purchase_orders.find? (fun p => p.ID == id) = some po ∧
      (po.Status = "draft" ∨ po.Status = "pending") ∧
      receiveLoop po (db.purchase_order_items.filter (fun it => it.PurchaseOrderID == po.ID))
        (userIDOf c) req db = some tx ∧
      ReceivePurchaseOrder c id req db = ⟨200,
        { tx with
          purchase_orders := savePurchaseOrder tx.purchase_orders (receivedStatus po
            (tx.purchase_order_items.filter (fun it => it.PurchaseOrderID == po.ID))) }⟩ := by
  unfold ReceivePurchaseOrder
  by_cases h1 : req.all ReceiveItem.bindOK = false
  · left; simp [h1]
  simp only [if_neg h1]
  cases hpo : db.purchase_orders.find? (fun p => p.ID == id) with
  | none => left; simp
  | some po =>
    simp only
    by_cases h2 : po.Status ≠ "draft" ∧ po.Status ≠ "pending"
    · left; simp [h2]
    simp only [if_neg h2]
    cases hl : receiveLoop po
        (db.purchase_order_items.filter (fun it => it.PurchaseOrderID == po.ID))
        (userIDOf c) req db with
    | none => left; simp
    | some tx =>
      right
      refine ⟨po, tx, by simpa using h1, rfl, ?_, hl, rfl⟩
      by_contra hne
      exact h2 ⟨fun a => hne (Or.inl a), fun a => hne (Or.inr a)⟩

theorem receiveItem_bindOK_pos (l : ReceiveItem) (h : l.bindOK = true) :
    0 < l.QuantityReceived := by
  simp only [ReceiveItem.bindOK, Bool.and_eq_true, decide_eq_true_eq] at h
  exact h.2

theorem ReceivePurchaseOrder_nonneg (c : Ctx) (id : Nat) (req : List ReceiveItem) (db : DB)
    (h : db.nonneg) : (ReceivePurchaseOrder c id req db).db.nonneg := by
  rcases ReceivePurchaseOrder_cases c id req db with ⟨-, hdb⟩ | ⟨po, tx, hb, -, -, hl, heq⟩
  · rw [hdb]; exact h
  · rw [heq]
    have := receiveLoop_nonneg po _ (userIDOf c) req db tx h
      (fun l hl' => le_of_lt (receiveItem_bindOK_pos l (List.all_eq_true.mp hb l hl'))) hl
    exact this

theorem AdjustInventory_nonneg (c : Ctx) (req : AdjustInventoryRequest) (db : DB)
    (h : db.nonneg) (ht : 0 ≤ req.Quantity) : (AdjustInventory c req db).db.nonneg := by
  unfold AdjustInventory
  split_ifs
  · exact h
  · simp only [createTransaction]
    have hf := firstOrCreateInventory_nonneg db.inventories req.cond h.1 rfl
    exact ⟨saveInventory_nonneg _ _ hf.2 ht, h.2⟩

theorem AdjustStoreInventory_nonneg (c : Ctx) (req : AdjustStoreInventoryRequest) (db : DB)
    (h : db.nonneg) (ht : 0 ≤ req.Quantity) : (AdjustStoreInventory c req db).db.nonneg := by
  unfold AdjustStoreInventory
  split_ifs
  · exact h
  · simp only [createTransaction]
    have hf := firstOrCreateStoreInventory_nonneg db.store_inventories req.cond h.2 rfl
    exact ⟨h.1, saveStoreInventory_nonneg _ _ hf.2 ht⟩

/-! ### C2: non-negative balances -/

/-- C2, the code at the failing input. On a database whose balances are all non-negative,
`AdjustInventory` accepts the target quantity -5, commits (status 200), and leaves a balance
below 0: the adjust handlers never look at the sign of the target. -/
theorem nonneg_invariant_broken_by_adjustment :
    exDB.nonneg ∧ (AdjustInventory {} exAdjustNegative exDB).status = 200 ∧
      ¬ (AdjustInventory {} exAdjustNegative exDB).db.nonneg := by
  decide

/-- Where the invariant does hold: from a state in which every warehouse and store balance is at
least 0, the state left by `CreateSale` and by `ReceivePurchaseOrder` has every balance at
least 0, and so has the state left by `AdjustInventory` and `AdjustStoreInventory` when the
requested target quantity is at least 0. -/
theorem nonneg_balances_preserved (db : DB) (c : Ctx) (sale : CreateSaleRequest) (poID : Nat)
    (recv : List ReceiveItem) (adj : AdjustInventoryRequest) (adjS : AdjustStoreInventoryRequest)
    (h : db.nonneg) (hadj : 0 ≤ adj.Quantity) (hadjS : 0 ≤ adjS.Quantity) :
    (CreateSale c sale db).db.nonneg ∧ (ReceivePurchaseOrder c poID recv db).db.nonneg ∧
      (AdjustInventory c adj db).db.nonneg ∧ (AdjustStoreInventory c adjS db).db.nonneg :=
  ⟨CreateSale_nonneg c sale db h, ReceivePurchaseOrder_nonneg c poID recv db h,
    AdjustInventory_nonneg c adj db h hadj, AdjustStoreInventory_nonneg c adjS db h hadjS⟩

/-- The same at a committed sale of 20, a receipt of 100 and two adjustments to 80. -/
theorem nonneg_balances_preserved_witness :
    ((CreateSale {} exSaleOneLine exDB).status = 201 ∧
      (ReceivePurchaseOrder {} 1 exReceive100 exDB).status = 200 ∧
      (AdjustInventory {} exAdjustTo80 exDB).status = 200 ∧
      (AdjustStoreInventory {} exAdjustStoreTo80 exDB).status = 200) ∧
    ((CreateSale {} exSaleOneLine exDB).db.nonneg ∧
      (ReceivePurchaseOrder {} 1 exReceive100 exDB).db.nonneg ∧
      (AdjustInventory {} exAdjustTo80 exDB).db.nonneg ∧
      (AdjustStoreInventory {} exAdjustStoreTo80 exDB).db.nonneg) :=
  ⟨by decide, nonneg_balances_preserved exDB {} exSaleOneLine 1 exReceive100 exAdjustTo80
    exAdjustStoreTo80 (by decide) (by decide) (by decide)⟩

theorem map_update_eq_set {α : Type} (key : α → Nat) (t : List α) (x x' : α) (i : Nat)
    (hnd : (t.map key).Nodup) (hi : t[i]? = some x) :
    t.map (fun r => if key r = key x then x' else r) = t.set i x' := by
  induction t generalizing i with
  | nil => simp at hi
  | cons a rest ih =>
    simp only [List.map_cons, List.nodup_cons, List.mem_map, not_exists, not_and] at hnd
    cases i with
    | zero =>
      simp only [List.getElem?_cons_zero, Option.some.injEq] at hi
      subst hi
      simp only [List.map_cons, if_true, List.set_cons_zero, List.cons.injEq, true_and]
      calc rest.map (fun r => if key r = key a then x' else r)
          = rest.map id := by
            apply List.map_congr_left
            intro r hr
            have : key r ≠ key a := hnd.1 r hr
            simp [this]
        _ = rest := List.map_id _
    | succ k =>
      simp only [List.getElem?_cons_succ] at hi
      have hx : x ∈ rest := List.getElem?_mem hi
      have hne : key a ≠ key x := fun h => hnd.1 x hx h.symm
      simp only [List.map_cons, if_neg hne, List.set_cons_succ, List.cons.injEq, true_and]
      exact ih k hnd.2 hi

theorem find?_getElem? {α : Type} (p : α → Bool) (t : List α) (x : α)
    (h : t.find? p = some x) : ∃ i : Nat, t[i]? = some x :=
  List.getElem?_of_mem (List.mem_of_find?_eq_some h)

/-! ### The row a sale line is deducted from -/

/-- For a sale line asking `q` and the store balance row `inv` that the lookup of the line
returns, with `q ≤ inv.Quantity`: `updateInventoryForSale` returns no error, the store balances
afterwards are the former ones with that one row set to `inv.Quantity - q`, and the warehouse
balances are untouched. Primary keys are distinct. -/
theorem updateInventoryForSale_deducts (tx : DB) (storeID : Nat) (item : SaleItem)
    (userID : Nat) (inv : StoreInventory)
    (hnd : (tx.store_inventories.map (fun r => r.ID)).Nodup)
    (hfind : firstStoreInventory tx.store_inventories
      { ProductID := item.ProductID, ProductVariantID := item.ProductVariantID,
        StoreID := storeID } = some inv)
    (hq : item.Quantity ≤ inv.Quantity) :
    (updateInventoryForSale tx storeID item userID).2 = none ∧
      (∃ i : Nat, tx.store_inventories[i]? = some inv ∧
        (updateInventoryForSale tx storeID item userID).1.store_inventories =
          tx.store_inventories.set i { inv with Quantity := inv.Quantity - item.Quantity }) ∧
      (updateInventoryForSale tx storeID item userID).1.inventories = tx.inventories := by
  obtain ⟨i, hi⟩ := find?_getElem? _ _ _ hfind
  have hnlt : ¬ inv.Quantity < item.Quantity := not_lt.mpr hq
  refine ⟨?_, ⟨i, hi, ?_⟩, ?_⟩
  · simp only [updateInventoryForSale, hfind, if_neg hnlt]
  · simp only [updateInventoryForSale, hfind, if_neg hnlt, createTransaction,
      DB.writeStoreInventory, saveStoreInventory]
    exact map_update_eq_set (fun r : StoreInventory => r.ID) _ inv _ i hnd hi
  · simp only [updateInventoryForSale, hfind, if_neg hnlt, createTransaction,
      DB.writeStoreInventory]

/-- `updateInventoryForSale` returns an error exactly when the lookup of the line finds no
balance row or the row found holds less than the line asks for; the error is the
insufficient-stock one exactly in the second case; and whenever an error is returned the
transaction state is the one the call started from (balance as before, ledger as before). -/
theorem updateInventoryForSale_error_iff (tx : DB) (storeID : Nat) (item : SaleItem)
    (userID : Nat) :
    ((updateInventoryForSale tx storeID item userID).2 ≠ none ↔
      (firstStoreInventory tx.store_inventories
          { ProductID := item.ProductID, ProductVariantID := item.ProductVariantID,
            StoreID := storeID } = none ∨
        ∃ inv, firstStoreInventory tx.store_inventories
          { ProductID := item.ProductID, ProductVariantID := item.ProductVariantID,
            StoreID := storeID } = some inv ∧ inv.Quantity < item.Quantity)) ∧
    ((∃ p a r, (updateInventoryForSale tx storeID item userID).2 =
        some (InvError.insufficient p a r)) ↔
      ∃ inv, firstStoreInventory tx.store_inventories
        { ProductID := item.ProductID, ProductVariantID := item.ProductVariantID,
          StoreID := storeID } = some inv ∧ inv.Quantity < item.Quantity) ∧
    ((updateInventoryForSale tx storeID item userID).2 ≠ none →
      (updateInventoryForSale tx storeID item userID).1 = tx) := by
  simp only [updateInventoryForSale]
  cases hfind : firstStoreInventory tx.store_inventories
      { ProductID := item.ProductID, ProductVariantID := item.ProductVariantID,
        StoreID := storeID } with
  | none => simp
  | some inv =>
    by_cases hlt : inv.Quantity < item.Quantity
    · simp [hlt]
    · simp [hlt]

/-! ### C5: content of the sale ledger entry -/

/-- C5 as stated fails: a sale line of 20 against a balance of 50 succeeds and appends one
ledger entry, whose quantity is -20 and not the unsigned magnitude 20. -/
theorem sale_ledger_quantity_is_negated :
    (updateInventoryForSale exDB 1 exLine20 1).2 = none ∧
      (updateInventoryForSale exDB 1 exLine20 1).1.inventory_transactions.map
        (fun e => (e.TransactionType, e.Quantity)) = [("out", -20)] := by
  decide

/-- C5 amended. When `updateInventoryForSale` succeeds for a line of quantity `q` at store `S`
carrying sale id `sid`, exactly one ledger entry is appended; it has location kind store,
location id `S`, movement kind out, reference kind sale with reference id `sid`, and its
quantity is the negated magnitude `-q`. -/
theorem updateInventoryForSale_ledger_entry (tx : DB) (storeID : Nat) (item : SaleItem)
    (userID : Nat) (hok : (updateInventoryForSale tx storeID item userID).2 = none) :
    ∃ e, (updateInventoryForSale tx storeID item userID).1.inventory_transactions =
        tx.inventory_transactions ++ [e] ∧
      e.ProductID = item.ProductID ∧ e.ProductVariantID = item.ProductVariantID ∧
      e.LocationType = "store" ∧ e.LocationID = storeID ∧ e.StoreID = some storeID ∧
      e.TransactionType = "out" ∧ e.ReferenceType = "sale" ∧
      e.ReferenceID = some item.SaleID ∧ e.Quantity = -item.Quantity := by
  simp only [updateInventoryForSale] at hok ⊢
  cases hfind : firstStoreInventory tx.store_inventories
      { ProductID := item.ProductID, ProductVariantID := item.ProductVariantID,
        StoreID := storeID } with
  | none => simp [hfind] at hok
  | some inv =>
    by_cases hlt : inv.Quantity < item.Quantity
    · simp [hfind, hlt] at hok
    · simp only [hfind, if_neg hlt, createTransaction, DB.writeStoreInventory]
      exact ⟨_, rfl, rfl, rfl, rfl, rfl, rfl, rfl, rfl, rfl, rfl⟩

/-- C5 amended, at the sale line of 20 against the balance of 50. -/
theorem updateInventoryForSale_ledger_entry_witness :
    ∃ e, (updateInventoryForSale exDB 1 exLine20 1).1.inventory_transactions =
        exDB.inventory_transactions ++ [e] ∧
      e.ProductID = exLine20.ProductID ∧ e.ProductVariantID = exLine20.ProductVariantID ∧
      e.LocationType = "store" ∧ e.LocationID = 1 ∧ e.StoreID = some 1 ∧
      e.TransactionType = "out" ∧ e.ReferenceType = "sale" ∧
      e.ReferenceID = some exLine20.SaleID ∧ e.Quantity = -exLine20.Quantity :=
  updateInventoryForSale_ledger_entry exDB 1 exLine20 1 (by decide)

theorem find?_map_of_congr {α : Type} (p : α → Bool) (f : α → α) (t : List α)
    (h : ∀ r ∈ t, p (f r) = p r) : (t.map f).find? p = (t.find? p).map f := by
  induction t with
  | nil => rfl
  | cons a rest ih =>
    have ha := h a (List.mem_cons_self _ _)
    have hrest := ih (fun r hr => h r (List.mem_cons_of_mem _ hr))
    simp only [List.map_cons, List.find?_cons, ha]
    cases p a with
    | true => rfl
    | false => exact hrest

theorem eq_of_key_eq {α : Type} (key : α → Nat) (t : List α) (a b : α)
    (hnd : (t.map key).Nodup) (ha : a ∈ t) (hb : b ∈ t) (h : key a = key b) : a = b :=
  List.inj_on_of_nodup_map hnd ha hb h

theorem nextID_not_mem (ids : List Nat) : nextID ids ∉ ids := by
  have hle : ∀ l : List Nat, ∀ x ∈ l, x ≤ l.foldr max 0 := by
    intro l
    induction l with
    | nil => intro x hx; simp at hx
    | cons a rest ih =>
      intro x hx
      simp only [List.foldr_cons]
      rcases List.mem_cons.mp hx with rfl | hx
      · exact le_max_left _ _
      · exact le_trans (ih x hx) (le_max_right _ _)
  intro hmem
  have := hle ids _ hmem
  unfold nextID at this
  omega

theorem inventory_matchesWhere_qty (w r : Inventory) (n : Int) (hw : w.Quantity = 0) :
    w.matchesWhere { r with Quantity := n } = w.matchesWhere r := by
  simp [Inventory.matchesWhere, condNum, hw]

theorem inventory_matchesWhere_self (w : Inventory) (n : Nat) (hid : w.ID = 0) :
    w.matchesWhere { w with ID := n } = true := by
  simp only [Inventory.matchesWhere, condUint, condNum, condPtr, hid]
  cases w.ProductVariantID <;> simp

theorem inventory_warehouse_of_matches (w r : Inventory) (hw : w.WarehouseID ≠ 0)
    (h : w.matchesWhere r = true) : r.WarehouseID = w.WarehouseID := by
  simp only [Inventory.matchesWhere, condUint, Bool.and_eq_true, Bool.or_eq_true,
    beq_iff_eq] at h
  rcases h.1.2 with h0 | h0
  · exact absurd h0 hw
  · exact h0

theorem firstInventory_save (t : List Inventory) (a : Inventory) (n : Int) (c : Inventory)
    (hnd : (t.map (fun r => r.ID)).Nodup) (ha : a ∈ t) (hc : c.Quantity = 0) :
    firstInventory (saveInventory t { a with Quantity := n }) c =
      (firstInventory t c).map (fun r => if r.ID = a.ID then { a with Quantity := n } else r) := by
  unfold firstInventory saveInventory
  apply find?_map_of_congr
  intro r hr
  by_cases hid : r.ID = a.ID
  · have : r = a := eq_of_key_eq (fun r : Inventory => r.ID) t r a hnd hr ha hid
    subst this
    simp [inventory_matchesWhere_qty _ _ _ hc]
  · simp [hid]

theorem saveInventory_nodup (t : List Inventory) (a : Inventory)
    (hnd : (t.map (fun r => r.ID)).Nodup) :
    ((saveInventory t a).map (fun r => r.ID)).Nodup := by
  have : (saveInventory t a).map (fun r => r.ID) = t.map (fun r => r.ID) := by
    simp only [saveInventory, List.map_map]
    apply List.map_congr_left
    intro r _
    simp only [Function.comp]
    split_ifs with h
    · exact h.symm
    · rfl
  rw [this]; exact hnd

theorem firstOrCreateInventory_spec (t : List Inventory) (c : Inventory)
    (hnd : (t.map (fun r => r.ID)).Nodup) (hid : c.ID = 0) (hq : c.Quantity = 0) :
    firstInventory (firstOrCreateInventory t c).2 c = some (firstOrCreateInventory t c).1 ∧
      (firstOrCreateInventory t c).1 ∈ (firstOrCreateInventory t c).2 ∧
      ((firstOrCreateInventory t c).2.map (fun r => r.ID)).Nodup ∧
      (firstOrCreateInventory t c).1.Quantity = warehouseBalance t c := by
  unfold firstOrCreateInventory warehouseBalance
  cases h : firstInventory t c with
  | some inv =>
    exact ⟨h, List.mem_of_find?_eq_some h, hnd, rfl⟩
  | none =>
    refine ⟨?_, by simp, ?_, by simp [hq]⟩
    · unfold firstInventory at h ⊢
      rw [List.find?_append, h]
      simp [inventory_matchesWhere_self c _ hid]
    · simp only [List.map_append, List.map_cons, List.map_nil]
      rw [List.nodup_append]
      refine ⟨hnd, by simp, ?_⟩
      intro x hx hx'
      simp only [List.mem_singleton] at hx'
      subst hx'
      exact nextID_not_mem _ hx

theorem firstOrCreateInventory_other (t : List Inventory) (c c' : Inventory)
    (hc' : c'.WarehouseID ≠ 0) (hne : c'.WarehouseID ≠ c.WarehouseID) :
    firstInventory (firstOrCreateInventory t c).2 c' = firstInventory t c' := by
  unfold firstOrCreateInventory
  cases h : firstInventory t c with
  | some inv => rfl
  | none =>
    simp only
    unfold firstInventory
    rw [List.find?_append]
    cases h' : List.find? (fun r => c'.matchesWhere r) t with
    | some r => rfl
    | none =>
      simp only [Option.none_or, List.find?_cons, List.find?_nil]
      have : c'.matchesWhere { c with ID := nextID (t.map (fun r => r.ID)) } = false := by
        by_contra hm
        have := inventory_warehouse_of_matches c' _ hc' (by simpa using hm)
        exact hne this.symm
      simp [this]

theorem storeInventory_matchesWhere_qty (w r : StoreInventory) (n : Int) (hw : w.Quantity = 0) :
    w.matchesWhere { r with Quantity := n } = w.matchesWhere r := by
  simp [StoreInventory.matchesWhere, condNum, hw]

theorem storeInventory_matchesWhere_self (w : StoreInventory) (n : Nat) (hid : w.ID = 0) :
    w.matchesWhere { w with ID := n } = true := by
  simp only [StoreInventory.matchesWhere, condUint, condNum, condPtr, hid]
  cases w.ProductVariantID <;> simp

theorem storeInventory_store_of_matches (w r : StoreInventory) (hw : w.StoreID ≠ 0)
    (h : w.matchesWhere r = true) : r.StoreID = w.StoreID := by
  simp only [StoreInventory.matchesWhere, condUint, Bool.and_eq_true, Bool.or_eq_true,
    beq_iff_eq] at h
  rcases h.1.2 with h0 | h0
  · exact absurd h0 hw
  · exact h0

theorem firstStoreInventory_save (t : List StoreInventory) (a : StoreInventory) (n : Int) (c : StoreInventory)
    (hnd : (t.map (fun r => r.ID)).Nodup) (ha : a ∈ t) (hc : c.Quantity = 0) :
    firstStoreInventory (saveStoreInventory t { a with Quantity := n }) c =
      (firstStoreInventory t c).map (fun r => if r.ID = a.ID then { a with Quantity := n } else r) := by
  unfold firstStoreInventory saveStoreInventory
  apply find?_map_of_congr
  intro r hr
  by_cases hid : r.ID = a.ID
  · have : r = a := eq_of_key_eq (fun r : StoreInventory => r.ID) t r a hnd hr ha hid
    subst this
    simp [storeInventory_matchesWhere_qty _ _ _ hc]
  · simp [hid]

theorem saveStoreInventory_nodup (t : List StoreInventory) (a : StoreInventory)
    (hnd : (t.map (fun r => r.ID)).Nodup) :
    ((saveStoreInventory t a).map (fun r => r.ID)).Nodup := by
  have : (saveStoreInventory t a).map (fun r => r.ID) = t.map (fun r => r.ID) := by
    simp only [saveStoreInventory, List.map_map]
    apply List.map_congr_left
    intro r _
    simp only [Function.comp]
    split_ifs with h
    · exact h.symm
    · rfl
  rw [this]; exact hnd

theorem firstOrCreateStoreInventory_spec (t : List StoreInventory) (c : StoreInventory)
    (hnd : (t.map (fun r => r.ID)).Nodup) (hid : c.ID = 0) (hq : c.Quantity = 0) :
    firstStoreInventory (firstOrCreateStoreInventory t c).2 c = some (firstOrCreateStoreInventory t c).1 ∧
      (firstOrCreateStoreInventory t c).1 ∈ (firstOrCreateStoreInventory t c).2 ∧
      ((firstOrCreateStoreInventory t c).2.map (fun r => r.ID)).Nodup ∧
      (firstOrCreateStoreInventory t c).1.Quantity = storeBalance t c := by
  unfold firstOrCreateStoreInventory storeBalance
  cases h : firstStoreInventory t c with
  | some inv =>
    exact ⟨h, List.mem_of_find?_eq_some h, hnd, rfl⟩
  | none =>
    refine ⟨?_, by simp, ?_, by simp [hq]⟩
    · unfold firstStoreInventory at h ⊢
      rw [List.find?_append, h]
      simp [storeInventory_matchesWhere_self c _ hid]
    · simp only [List.map_append, List.map_cons, List.map_nil]
      rw [List.nodup_append]
      refine ⟨hnd, by simp, ?_⟩
      intro x hx hx'
      simp only [List.mem_singleton] at hx'
      subst hx'
      exact nextID_not_mem _ hx

theorem firstOrCreateStoreInventory_other (t : List StoreInventory) (c c' : StoreInventory)
    (hc' : c'.StoreID ≠ 0) (hne : c'.StoreID ≠ c.StoreID) :
    firstStoreInventory (firstOrCreateStoreInventory t c).2 c' = firstStoreInventory t c' := by
  unfold firstOrCreateStoreInventory
  cases h : firstStoreInventory t c with
  | some inv => rfl
  | none =>
    simp only
    unfold firstStoreInventory
    rw [List.find?_append]
    cases h' : List.find? (fun r => c'.matchesWhere r) t with
    | some r => rfl
    | none =>
      simp only [Option.none_or, List.find?_cons, List.find?_nil]
      have : c'.matchesWhere { c with ID := nextID (t.map (fun r => r.ID)) } = false := by
        by_contra hm
        have := storeInventory_store_of_matches c' _ hc' (by simpa using hm)
        exact hne this.symm
      simp [this]

theorem warehouseBalance_save_same (t : List Inventory) (a : Inventory) (n : Int)
    (c : Inventory) (hnd : (t.map (fun r => r.ID)).Nodup) (hc : c.Quantity = 0)
    (hfind : firstInventory t c = some a) :
    warehouseBalance (saveInventory t { a with Quantity := n }) c = n := by
  unfold warehouseBalance
  rw [firstInventory_save t a n c hnd (List.mem_of_find?_eq_some hfind) hc, hfind]
  simp

theorem warehouseBalance_save_other (t : List Inventory) (a : Inventory) (n : Int)
    (c' : Inventory) (hnd : (t.map (fun r => r.ID)).Nodup) (ha : a ∈ t)
    (hc : c'.Quantity = 0) (hc' : c'.WarehouseID ≠ 0) (hne : a.WarehouseID ≠ c'.WarehouseID) :
    warehouseBalance (saveInventory t { a with Quantity := n }) c' = warehouseBalance t c' := by
  unfold warehouseBalance
  rw [firstInventory_save t a n c' hnd ha hc]
  cases h : firstInventory t c' with
  | none => rfl
  | some r =>
    have hr : r ∈ t := List.mem_of_find?_eq_some h
    have hm : c'.matchesWhere r = true := by
      have := List.find?_some h
      simpa using this
    have hw := inventory_warehouse_of_matches c' r hc' hm
    have hid : r.ID ≠ a.ID := by
      intro hid
      have : r = a := eq_of_key_eq (fun r : Inventory => r.ID) t r a hnd hr ha hid
      subst this
      exact hne hw
    simp [hid]

theorem storeBalance_save_same (t : List StoreInventory) (a : StoreInventory) (n : Int)
    (c : StoreInventory) (hnd : (t.map (fun r => r.ID)).Nodup) (hc : c.Quantity = 0)
    (hfind : firstStoreInventory t c = some a) :
    storeBalance (saveStoreInventory t { a with Quantity := n }) c = n := by
  unfold storeBalance
  rw [firstStoreInventory_save t a n c hnd (List.mem_of_find?_eq_some hfind) hc, hfind]
  simp

theorem storeBalance_save_other (t : List StoreInventory) (a : StoreInventory) (n : Int)
    (c' : StoreInventory) (hnd : (t.map (fun r => r.ID)).Nodup) (ha : a ∈ t)
    (hc : c'.Quantity = 0) (hc' : c'.StoreID ≠ 0) (hne : a.StoreID ≠ c'.StoreID) :
    storeBalance (saveStoreInventory t { a with Quantity := n }) c' = storeBalance t c' := by
  unfold storeBalance
  rw [firstStoreInventory_save t a n c' hnd ha hc]
  cases h : firstStoreInventory t c' with
  | none => rfl
  | some r =>
    have hr : r ∈ t := List.mem_of_find?_eq_some h
    have hm : c'.matchesWhere r = true := by
      have := List.find?_some h
      simpa using this
    have hw := storeInventory_store_of_matches c' r hc' hm
    have hid : r.ID ≠ a.ID := by
      intro hid
      have : r = a := eq_of_key_eq (fun r : StoreInventory => r.ID) t r a hnd hr ha hid
      subst this
      exact hne hw
    simp [hid]

theorem transferOut_effect (transfer : StockTransfer) (item : StockTransferItem) (userID : Nat)
    (tx tx1 : DB) (A : Location) (hsrc : transfer.source = some A) (hA : A.id ≠ 0)
    (hk : tx.uniqueKeys) (h : transferOut transfer item userID tx = some tx1) :
    balanceAt tx1 A item.ProductID item.ProductVariantID =
        balanceAt tx A item.ProductID item.ProductVariantID - item.QuantityRequested ∧
      (∀ L, L ≠ A → L.id ≠ 0 → balanceAt tx1 L item.ProductID item.ProductVariantID =
        balanceAt tx L item.ProductID item.ProductVariantID) ∧
      tx1.uniqueKeys ∧
      ∃ e, tx1.inventory_transactions = tx.inventory_transactions ++ [e] ∧
        e.TransactionType = "out" ∧ e.LocationType = A.kind ∧ e.LocationID = A.id ∧
        e.ReferenceType = "transfer" ∧ e.ReferenceID = some transfer.ID ∧
        e.Quantity = item.QuantityRequested ∧ e.ProductID = item.ProductID ∧
        e.ProductVariantID = item.ProductVariantID := by
  simp only [transferOut] at h
  cases hw : transfer.FromWarehouseID with
  | some wid =>
    have hAeq : A = Location.warehouse wid := by
      simp only [StockTransfer.source, hw, Option.some.injEq] at hsrc
      exact hsrc.symm
    subst hAeq
    simp only [hw] at h
    cases hfind : firstInventory tx.inventories
        { ProductID := item.ProductID, WarehouseID := wid,
          ProductVariantID := item.ProductVariantID } with
    | none => simp [hfind] at h
    | some inv =>
      simp only [hfind, Option.some.injEq] at h
      subst h
      have hmem := List.mem_of_find?_eq_some hfind
      have hinvW : inv.WarehouseID = wid :=
        inventory_warehouse_of_matches _ inv hA (by simpa using List.find?_some hfind)
      refine ⟨?_, ?_, ?_, ⟨_, rfl, rfl, rfl, rfl, rfl, rfl, rfl, rfl, rfl⟩⟩
      · simp only [balanceAt, createTransaction, DB.writeInventory]
        rw [warehouseBalance_save_same _ inv _ _ hk.1 rfl hfind]
        simp [warehouseBalance, hfind]
      · intro L hL hL0
        cases L with
        | store s => rfl
        | warehouse w =>
          simp only [balanceAt, createTransaction, DB.writeInventory]
          apply warehouseBalance_save_other _ inv _ _ hk.1 hmem rfl hL0
          rw [hinvW]
          intro hEq
          exact hL (by rw [hEq])
      · exact ⟨saveInventory_nodup _ _ hk.1, hk.2⟩
  | none =>
    simp only [hw] at h
    cases hs : transfer.FromStoreID with
    | none => simp [hs] at h
    | some sid =>
      have hAeq : A = Location.store sid := by
        simp only [StockTransfer.source, hw, hs, Option.map_some', Option.some.injEq] at hsrc
        exact hsrc.symm
      subst hAeq
      simp only [hs] at h
      cases hfind : firstStoreInventory tx.store_inventories
          { ProductID := item.ProductID, StoreID := sid,
            ProductVariantID := item.ProductVariantID } with
      | none => simp [hfind] at h
      | some inv =>
        simp only [hfind, Option.some.injEq] at h
        subst h
        have hmem := List.mem_of_find?_eq_some hfind
        have hinvW : inv.StoreID = sid :=
          storeInventory_store_of_matches _ inv hA (by simpa using List.find?_some hfind)
        refine ⟨?_, ?_, ?_, ⟨_, rfl, rfl, rfl, rfl, rfl, rfl, rfl, rfl, rfl⟩⟩
        · simp only [balanceAt, createTransaction, DB.writeStoreInventory]
          rw [storeBalance_save_same _ inv _ _ hk.2 rfl hfind]
          simp [storeBalance, hfind]
        · intro L hL hL0
          cases L with
          | warehouse w => rfl
          | store s =>
            simp only [balanceAt, createTransaction, DB.writeStoreInventory]
            apply storeBalance_save_other _ inv _ _ hk.2 hmem rfl hL0
            rw [hinvW]
            intro hEq
            exact hL (by rw [hEq])
        · exact ⟨hk.1, saveStoreInventory_nodup _ _ hk.2⟩

theorem transferIn_effect (transfer : StockTransfer) (item : StockTransferItem) (userID : Nat)
    (tx tx1 : DB) (B : Location) (hdst : transfer.dest = some B) (hB : B.id ≠ 0)
    (hk : tx.uniqueKeys) (h : transferIn transfer item userID tx = some tx1) :
    balanceAt tx1 B item.ProductID item.ProductVariantID =
        balanceAt tx B item.ProductID item.ProductVariantID + item.QuantityRequested ∧
      (∀ L, L ≠ B → L.id ≠ 0 → balanceAt tx1 L item.ProductID item.ProductVariantID =
        balanceAt tx L item.ProductID item.ProductVariantID) ∧
      tx1.uniqueKeys ∧
      ∃ e, tx1.inventory_transactions = tx.inventory_transactions ++ [e] ∧
        e.TransactionType = "in" ∧ e.LocationType = B.kind ∧ e.LocationID = B.id ∧
        e.ReferenceType = "transfer" ∧ e.ReferenceID = some transfer.ID ∧
        e.Quantity = item.QuantityRequested ∧ e.ProductID = item.ProductID ∧
        e.ProductVariantID = item.ProductVariantID := by
  simp only [transferIn] at h
  cases hw : transfer.ToWarehouseID with
  | some wid =>
    have hBeq : B = Location.warehouse wid := by
      simp only [StockTransfer.dest, hw, Option.some.injEq] at hdst
      exact hdst.symm
    subst hBeq
    simp only [hw, Option.some.injEq] at h
    subst h
    obtain ⟨hfind, hmem, hnd, hqty⟩ := firstOrCreateInventory_spec tx.inventories
      { ProductID := item.ProductID, WarehouseID := wid,
        ProductVariantID := item.ProductVariantID } hk.1 rfl rfl
    have hinvW := inventory_warehouse_of_matches _ _ hB
      (by simpa using List.find?_some hfind)
    refine ⟨?_, ?_, ?_, ⟨_, rfl, rfl, rfl, rfl, rfl, rfl, rfl, rfl, rfl⟩⟩
    · simp only [balanceAt, createTransaction, DB.writeInventory]
      rw [warehouseBalance_save_same _ _ _ _ hnd rfl hfind, hqty]
    · intro L hL hL0
      cases L with
      | store s => rfl
      | warehouse w =>
        have hne : w ≠ wid := fun hEq => hL (by rw [hEq])
        simp only [balanceAt, createTransaction, DB.writeInventory]
        rw [warehouseBalance_save_other _ _ _ _ hnd hmem rfl hL0
          (by rw [hinvW]; exact fun hEq => hne hEq.symm)]
        unfold warehouseBalance
        rw [firstOrCreateInventory_other _ _ _ hL0 hne]
    · exact ⟨saveInventory_nodup _ _ hnd, hk.2⟩
  | none =>
    simp only [hw] at h
    cases hs : transfer.ToStoreID with
    | none => simp [hs] at h
    | some sid =>
      have hBeq : B = Location.store sid := by
        simp only [StockTransfer.dest, hw, hs, Option.map_some', Option.some.injEq] at hdst
        exact hdst.symm
      subst hBeq
      simp only [hs, Option.some.injEq] at h
      subst h
      obtain ⟨hfind, hmem, hnd, hqty⟩ := firstOrCreateStoreInventory_spec tx.store_inventories
        { ProductID := item.ProductID, StoreID := sid,
          ProductVariantID := item.ProductVariantID } hk.2 rfl rfl
      have hinvW := storeInventory_store_of_matches _ _ hB
        (by simpa using List.find?_some hfind)
      refine ⟨?_, ?_, ?_, ⟨_, rfl, rfl, rfl, rfl, rfl, rfl, rfl, rfl, rfl⟩⟩
      · simp only [balanceAt, createTransaction, DB.writeStoreInventory]
        rw [storeBalance_save_same _ _ _ _ hnd rfl hfind, hqty]
      · intro L hL hL0
        cases L with
        | warehouse w => rfl
        | store s =>
          have hne : s ≠ sid := fun hEq => hL (by rw [hEq])
          simp only [balanceAt, createTransaction, DB.writeStoreInventory]
          rw [storeBalance_save_other _ _ _ _ hnd hmem rfl hL0
            (by rw [hinvW]; exact fun hEq => hne hEq.symm)]
          unfold storeBalance
          rw [firstOrCreateStoreInventory_other _ _ _ hL0 hne]
      · exact ⟨hk.1, saveStoreInventory_nodup _ _ hnd⟩

theorem ExecuteStockTransfer_cases (c : Ctx) (id : Nat) (db : DB) :
    ((ExecuteStockTransfer c id db).status ≠ 200 ∧ (ExecuteStockTransfer c id db).db = db) ∨
    ∃ transfer tx, db.stock_transfers.find? (fun t => t.ID == id) = some transfer ∧
      transfer.Status = "pending" ∧
      executeLoop transfer (userIDOf c)
        (db.stock_transfer_items.filter (fun it => it.TransferID == transfer.ID)) db = some tx ∧
      ExecuteStockTransfer c id db = ⟨200,
        { tx with
          stock_transfers := tx.stock_transfers.map (fun r =>
            if r.ID = transfer.ID then
              { transfer with Status := "completed", Shipped := true, Received := true }
            else r) }⟩ := by
  unfold ExecuteStockTransfer
  cases hfind : db.stock_transfers.find? (fun t => t.ID == id) with
  | none => left; simp
  | some transfer =>
    simp only
    by_cases hst : transfer.Status ≠ "pending"
    · left; simp [hst]
    simp only [if_neg hst]
    cases hl : executeLoop transfer (userIDOf c)
        (db.stock_transfer_items.filter (fun it => it.TransferID == transfer.ID)) db with
    | none => left; simp
    | some tx => right; exact ⟨transfer, tx, rfl, not_not.mp hst, hl, rfl⟩

theorem balanceAt_congr (db db' : DB) (h1 : db'.inventories = db.inventories)
    (h2 : db'.store_inventories = db.store_inventories) (L : Location) (p : Nat)
    (v : Option Nat) : balanceAt db' L p v = balanceAt db L p v := by
  cases L <;> simp only [balanceAt, h1, h2]

/-! ### C6: transfer symmetry -/

/-- C6. A pending transfer with the single item `item` (requested quantity `Q`) from location
`A` to a different location `B`, executed with status 200: the balance seen at `A` for the
item's product drops by exactly `Q`, the balance seen at `B` rises by exactly `Q`, and exactly
two ledger entries are appended, the first of kind out at `A`, the second of kind in at `B`,
both with reference kind transfer and the transfer's id. Location ids are non-zero and the
primary keys of the balance rows distinct. -/
theorem ExecuteStockTransfer_symmetric (c : Ctx) (id : Nat) (db : DB) (transfer : StockTransfer)
    (item : StockTransferItem) (A B : Location)
    (hfind : db.stock_transfers.find? (fun t => t.ID == id) = some transfer)
    (hitems : db.stock_transfer_items.filter (fun it => it.TransferID == transfer.ID) = [item])
    (hsrc : transfer.source = some A) (hdst : transfer.dest = some B) (hAB : A ≠ B)
    (hA : A.id ≠ 0) (hB : B.id ≠ 0) (hk : db.uniqueKeys)
    (hok : (ExecuteStockTransfer c id db).status = 200) :
    balanceAt (ExecuteStockTransfer c id db).db A item.ProductID item.ProductVariantID =
        balanceAt db A item.ProductID item.ProductVariantID - item.QuantityRequested ∧
      balanceAt (ExecuteStockTransfer c id db).db B item.ProductID item.ProductVariantID =
        balanceAt db B item.ProductID item.ProductVariantID + item.QuantityRequested ∧
      ∃ e1 e2, (ExecuteStockTransfer c id db).db.inventory_transactions =
          db.inventory_transactions ++ [e1, e2] ∧
        (e1.TransactionType = "out" ∧ e1.LocationType = A.kind ∧ e1.LocationID = A.id ∧
          e1.ReferenceType = "transfer" ∧ e1.ReferenceID = some transfer.ID ∧
          e1.Quantity = item.QuantityRequested) ∧
        (e2.TransactionType = "in" ∧ e2.LocationType = B.kind ∧ e2.LocationID = B.id ∧
          e2.ReferenceType = "transfer" ∧ e2.ReferenceID = some transfer.ID ∧
          e2.Quantity = item.QuantityRequested) := by
  rcases ExecuteStockTransfer_cases c id db with ⟨hne, -⟩ | ⟨t', tx, hfind', -, hloop, heq⟩
  · exact absurd hok hne
  rw [hfind, Option.some.injEq] at hfind'
  subst hfind'
  rw [hitems] at hloop
  simp only [executeLoop] at hloop
  cases hout : transferOut transfer item (userIDOf c) db with
  | none => simp [hout] at hloop
  | some tx1 =>
    simp only [hout] at hloop
    cases hin : transferIn transfer item (userIDOf c) tx1 with
    | none => simp [hin] at hloop
    | some tx2 =>
      simp only [hin, Option.some.injEq] at hloop
      subst hloop
      obtain ⟨hA1, hoth1, hk1, e1, hl1, he1⟩ := transferOut_effect transfer item (userIDOf c)
        db tx1 A hsrc hA hk hout
      obtain ⟨hB2, hoth2, -, e2, hl2, he2⟩ := transferIn_effect transfer item (userIDOf c)
        tx1 tx2 B hdst hB hk1 hin
      rw [heq]
      have hbal : ∀ L, balanceAt (Outcome.db ⟨200,
          { tx2 with
            stock_transfer_items := saveTransferItem tx2.stock_transfer_items
              { item with QuantityShipped := item.QuantityRequested,
                          QuantityReceived := item.QuantityRequested },
            stock_transfers := tx2.stock_transfers.map (fun r =>
              if r.ID = transfer.ID then
                { transfer with Status := "completed", Shipped := true, Received := true }
              else r) }⟩) L item.ProductID item.ProductVariantID =
          balanceAt tx2 L item.ProductID item.ProductVariantID :=
        fun L => balanceAt_congr tx2 _ rfl rfl L _ _
      refine ⟨?_, ?_, e1, e2, ?_, ?_, ?_⟩
      · rw [hbal A, hoth2 A hAB hA, hA1]
      · rw [hbal B, hB2, hoth1 B (Ne.symm hAB) hB]
      · show tx2.inventory_transactions = _
        rw [hl2, hl1, List.append_assoc]
        rfl
      · exact ⟨he1.1, he1.2.1, he1.2.2.1, he1.2.2.2.1, he1.2.2.2.2.1, he1.2.2.2.2.2.1⟩
      · exact ⟨he2.1, he2.2.1, he2.2.2.1, he2.2.2.2.1, he2.2.2.2.2.1, he2.2.2.2.2.2.1⟩

/-- C6 at a transfer of 30 from warehouse 1 (balance 100) to store 1 (balance 50). -/
theorem ExecuteStockTransfer_symmetric_witness :
    (balanceAt exTransferDB (Location.warehouse 1) 1 none = 100 ∧
      balanceAt exTransferDB (Location.store 1) 1 none = 50) ∧
    (balanceAt (ExecuteStockTransfer {} 1 exTransferDB).db (Location.warehouse 1) 1 none =
        balanceAt exTransferDB (Location.warehouse 1) 1 none - 30 ∧
      balanceAt (ExecuteStockTransfer {} 1 exTransferDB).db (Location.store 1) 1 none =
        balanceAt exTransferDB (Location.store 1) 1 none + 30 ∧
      ∃ e1 e2, (ExecuteStockTransfer {} 1 exTransferDB).db.inventory_transactions =
          exTransferDB.inventory_transactions ++ [e1, e2] ∧
        (e1.TransactionType = "out" ∧ e1.LocationType = "warehouse" ∧ e1.LocationID = 1 ∧
          e1.ReferenceType = "transfer" ∧ e1.ReferenceID = some 1 ∧ e1.Quantity = 30) ∧
        (e2.TransactionType = "in" ∧ e2.LocationType = "store" ∧ e2.LocationID = 1 ∧
          e2.ReferenceType = "transfer" ∧ e2.ReferenceID = some 1 ∧ e2.Quantity = 30)) :=
  ⟨by decide,
    ExecuteStockTransfer_symmetric {} 1 exTransferDB
      { ID := 1, FromWarehouseID := some 1, ToStoreID := some 1, Status := "pending",
        RequestedBy := 1 }
      { ID := 1, TransferID := 1, ProductID := 1, QuantityRequested := 30 }
      (Location.warehouse 1) (Location.store 1)
      (by decide) (by decide) (by decide) (by decide) (by decide) (by decide) (by decide)
      (by decide) (by decide)⟩

/-! ### C7: source sufficiency when a transfer is executed -/

/-- C7, the code at the failing input. Warehouse 1 holds 100 of product 1. A transfer to
warehouse 2 with two items of that product, 60 each, is accepted by `CreateStockTransfer` (each
line alone is covered). `ExecuteStockTransfer` then answers 200, marks the transfer completed
and leaves the source balance at -20: the second item exceeded the balance of 40 seen when it
was processed, and nothing rejected it. -/
theorem ExecuteStockTransfer_overdraws_source :
    (CreateStockTransfer {} exTransferTwoItems exDB).status = 201 ∧
      (ExecuteStockTransfer {} 1 (CreateStockTransfer {} exTransferTwoItems exDB).db).status
        = 200 ∧
      balanceAt (ExecuteStockTransfer {} 1 (CreateStockTransfer {} exTransferTwoItems exDB).db).db
        (Location.warehouse 1) 1 none = -20 ∧
      (ExecuteStockTransfer {} 1
        (CreateStockTransfer {} exTransferTwoItems exDB).db).db.stock_transfers.map
          (fun t => t.Status) = ["completed"] := by
  decide

theorem inventory_lookup_key (w r : Inventory) (h : w.matchesWhere r = true) :
    (w.ProductID ≠ 0 → w.ProductID = r.ProductID) ∧
      (∀ v, w.ProductVariantID = some v → r.ProductVariantID = some v) ∧
      (w.WarehouseID ≠ 0 → w.WarehouseID = r.WarehouseID) := by
  simp only [Inventory.matchesWhere, condUint, condPtr, condNum, Bool.and_eq_true,
    Bool.or_eq_true, beq_iff_eq] at h
  obtain ⟨⟨⟨⟨-, h1⟩, h2⟩, h3⟩, -⟩ := h
  refine ⟨fun hp => (h1.resolve_left hp).symm, ?_, fun hl => (h3.resolve_left hl).symm⟩
  intro v hv
  rw [hv] at h2
  simpa using h2

theorem storeInventory_lookup_key (w r : StoreInventory) (h : w.matchesWhere r = true) :
    (w.ProductID ≠ 0 → w.ProductID = r.ProductID) ∧
      (∀ v, w.ProductVariantID = some v → r.ProductVariantID = some v) ∧
      (w.StoreID ≠ 0 → w.StoreID = r.StoreID) := by
  simp only [StoreInventory.matchesWhere, condUint, condPtr, condNum, Bool.and_eq_true,
    Bool.or_eq_true, beq_iff_eq] at h
  obtain ⟨⟨⟨⟨-, h1⟩, h2⟩, h3⟩, -⟩ := h
  refine ⟨fun hp => (h1.resolve_left hp).symm, ?_, fun hl => (h3.resolve_left hl).symm⟩
  intro v hv
  rw [hv] at h2
  simpa using h2

theorem firstInventory_lookup_key (t : List Inventory) (w r : Inventory)
    (h : firstInventory t w = some r) :
    (w.ProductID ≠ 0 → w.ProductID = r.ProductID) ∧
      (∀ v, w.ProductVariantID = some v → r.ProductVariantID = some v) ∧
      (w.WarehouseID ≠ 0 → w.WarehouseID = r.WarehouseID) :=
  inventory_lookup_key w r (by simpa using List.find?_some h)

theorem firstStoreInventory_lookup_key (t : List StoreInventory) (w r : StoreInventory)
    (h : firstStoreInventory t w = some r) :
    (w.ProductID ≠ 0 → w.ProductID = r.ProductID) ∧
      (∀ v, w.ProductVariantID = some v → r.ProductVariantID = some v) ∧
      (w.StoreID ≠ 0 → w.StoreID = r.StoreID) :=
  storeInventory_lookup_key w r (by simpa using List.find?_some h)

theorem firstOrCreateInventory_lookup_key (t : List Inventory) (w : Inventory) :
    (w.ProductID ≠ 0 → w.ProductID = (firstOrCreateInventory t w).1.ProductID) ∧
      (∀ v, w.ProductVariantID = some v →
        (firstOrCreateInventory t w).1.ProductVariantID = some v) ∧
      (w.WarehouseID ≠ 0 → w.WarehouseID = (firstOrCreateInventory t w).1.WarehouseID) := by
  unfold firstOrCreateInventory
  cases h : firstInventory t w with
  | some r => exact firstInventory_lookup_key t w r h
  | none => exact ⟨fun _ => rfl, fun v hv => hv, fun _ => rfl⟩

theorem firstOrCreateStoreInventory_lookup_key (t : List StoreInventory) (w : StoreInventory) :
    (w.ProductID ≠ 0 → w.ProductID = (firstOrCreateStoreInventory t w).1.ProductID) ∧
      (∀ v, w.ProductVariantID = some v →
        (firstOrCreateStoreInventory t w).1.ProductVariantID = some v) ∧
      (w.StoreID ≠ 0 → w.StoreID = (firstOrCreateStoreInventory t w).1.StoreID) := by
  unfold firstOrCreateStoreInventory
  cases h : firstStoreInventory t w with
  | some r => exact firstStoreInventory_lookup_key t w r h
  | none => exact ⟨fun _ => rfl, fun v hv => hv, fun _ => rfl⟩

theorem LedgerComplete.refl (db : DB) : LedgerComplete db db :=
  ⟨[], [], by simp, by simp, List.Forall₂.nil⟩

theorem LedgerComplete.of_eq (db db' : DB) (hw : db'.balance_writes = db.balance_writes)
    (hl : db'.inventory_transactions = db.inventory_transactions) : LedgerComplete db db' :=
  ⟨[], [], by simp [hw], by simp [hl], List.Forall₂.nil⟩

theorem LedgerComplete.trans {a b c : DB} (h1 : LedgerComplete a b) (h2 : LedgerComplete b c) :
    LedgerComplete a c := by
  obtain ⟨ws1, es1, hw1, hl1, hp1⟩ := h1
  obtain ⟨ws2, es2, hw2, hl2, hp2⟩ := h2
  refine ⟨ws1 ++ ws2, es1 ++ es2, ?_, ?_, List.rel_append hp1 hp2⟩
  · rw [hw2, hw1, List.append_assoc]
  · rw [hl2, hl1, List.append_assoc]

theorem LedgerComplete.step (db db' : DB) (w : BalanceWrite) (e : InventoryTransaction)
    (hw : db'.balance_writes = db.balance_writes ++ [w])
    (hl : db'.inventory_transactions = db.inventory_transactions ++ [e])
    (hp : PairedUpToLookup w e) : LedgerComplete db db' :=
  ⟨[w], [e], hw, hl, List.Forall₂.cons hp List.Forall₂.nil⟩

theorem updateInventoryForSale_complete (tx : DB) (storeID : Nat) (item : SaleItem)
    (userID : Nat) : LedgerComplete tx (updateInventoryForSale tx storeID item userID).1 := by
  simp only [updateInventoryForSale]
  split
  · exact LedgerComplete.refl tx
  · next inv hfind =>
    have hk := firstStoreInventory_lookup_key _ _ _ hfind
    split_ifs
    · exact LedgerComplete.refl tx
    · refine LedgerComplete.step _ _ _ _ rfl rfl ⟨hk.1, hk.2.1, rfl, hk.2.2, ?_⟩
      simp only
      have hd : inv.Quantity - item.Quantity - inv.Quantity = -item.Quantity := by omega
      rw [hd]

theorem saleItemsLoop_complete (storeID saleID userID : Nat) (items : List SaleItem) (tx : DB) :
    LedgerComplete tx (saleItemsLoop storeID saleID userID items tx).1 := by
  induction items generalizing tx with
  | nil => exact LedgerComplete.refl tx
  | cons item rest ih =>
    simp only [saleItemsLoop]
    have hstep := updateInventoryForSale_complete
      (createSaleItem tx { item with SaleID := saleID }).2 storeID
      (createSaleItem tx { item with SaleID := saleID }).1 userID
    have h0 : LedgerComplete tx (createSaleItem tx { item with SaleID := saleID }).2 :=
      LedgerComplete.of_eq _ _ rfl rfl
    split
    · next tx1 err heq =>
      rw [heq] at hstep
      exact h0.trans hstep
    · next tx1 heq =>
      rw [heq] at hstep
      exact (h0.trans hstep).trans (ih tx1)

theorem CreateSale_complete (c : Ctx) (req : CreateSaleRequest) (db : DB) :
    LedgerComplete db (CreateSale c req db).db := by
  rcases CreateSale_cases c req db with ⟨-, hdb⟩ | ⟨tx, hloop, heq⟩
  · rw [hdb]; exact LedgerComplete.refl db
  · rw [heq]
    obtain ⟨-, -, s3, s4⟩ := saleTxBeforeItems_balances c req db
    have h0 : LedgerComplete db (saleTxBeforeItems c req db).2 := LedgerComplete.of_eq _ _ s4 s3
    have hl := saleItemsLoop_complete req.StoreID (saleTxBeforeItems c req db).1.ID (userIDOf c)
      req.Items (saleTxBeforeItems c req db).2
    rw [hloop] at hl
    obtain ⟨-, -, a3, a4⟩ := updateCustomerStats_balances
      (salePaymentsLoop (saleTxBeforeItems c req db).1.ID req.Payments tx) req
      (saleTxBeforeItems c req db).1.TotalAmount
    obtain ⟨-, -, b3, b4⟩ := salePaymentsLoop_balances
      (saleTxBeforeItems c req db).1.ID req.Payments tx
    exact (h0.trans hl).trans (LedgerComplete.of_eq _ _ (by rw [a4, b4]) (by rw [a3, b3]))

theorem receiveLine_complete (po : PurchaseOrder) (poItem : PurchaseOrderItem)
    (itemReq : ReceiveItem) (userID : Nat) (tx : DB) :
    LedgerComplete tx (receiveLine po poItem itemReq userID tx) := by
  have hk := firstOrCreateInventory_lookup_key tx.inventories
    { ProductID := poItem.ProductID, WarehouseID := po.WarehouseID,
      ProductVariantID := poItem.ProductVariantID }
  refine LedgerComplete.step _ _ _ _ rfl rfl ⟨hk.1, hk.2.1, rfl, hk.2.2, ?_⟩
  simp only
  congr 1
  omega

theorem receiveLoop_complete (po : PurchaseOrder) (items : List PurchaseOrderItem) (userID : Nat)
    (req : List ReceiveItem) (tx tx' : DB)
    (hloop : receiveLoop po items userID req tx = some tx') : LedgerComplete tx tx' := by
  induction req generalizing tx with
  | nil =>
    simp only [receiveLoop, Option.some.injEq] at hloop
    exact hloop ▸ LedgerComplete.refl tx
  | cons l rest ih =>
    simp only [receiveLoop] at hloop
    split at hloop
    · simp at hloop
    · next poItem _ =>
      exact (receiveLine_complete po poItem l userID tx).trans (ih _ hloop)

theorem ReceivePurchaseOrder_complete (c : Ctx) (id : Nat) (req : List ReceiveItem) (db : DB) :
    LedgerComplete db (ReceivePurchaseOrder c id req db).db := by
  rcases ReceivePurchaseOrder_cases c id req db with ⟨-, hdb⟩ | ⟨po, tx, -, -, -, hl, heq⟩
  · rw [hdb]; exact LedgerComplete.refl db
  · rw [heq]
    exact (receiveLoop_complete po _ (userIDOf c) req db tx hl).trans
      (LedgerComplete.of_eq _ _ rfl rfl)

theorem transferOut_complete (transfer : StockTransfer) (item : StockTransferItem)
    (userID : Nat) (tx tx1 : DB) (h : transferOut transfer item userID tx = some tx1) :
    LedgerComplete tx tx1 := by
  simp only [transferOut] at h
  split at h
  · split at h
    · simp at h
    · next inv hfind =>
      have hk := firstInventory_lookup_key _ _ _ hfind
      simp only [Option.some.injEq] at h
      subst h
      refine LedgerComplete.step _ _ _ _ rfl rfl ⟨hk.1, hk.2.1, rfl, hk.2.2, ?_⟩
      simp only
      have hd : inv.Quantity - item.QuantityRequested - inv.Quantity =
          -item.QuantityRequested := by omega
      rw [hd, Int.natAbs_neg]
  · split at h
    · simp at h
    · split at h
      · simp at h
      · next inv hfind =>
        have hk := firstStoreInventory_lookup_key _ _ _ hfind
        simp only [Option.some.injEq] at h
        subst h
        refine LedgerComplete.step _ _ _ _ rfl rfl ⟨hk.1, hk.2.1, rfl, hk.2.2, ?_⟩
        simp only
        have hd : inv.Quantity - item.QuantityRequested - inv.Quantity =
            -item.QuantityRequested := by omega
        rw [hd, Int.natAbs_neg]

theorem transferIn_complete (transfer : StockTransfer) (item : StockTransferItem)
    (userID : Nat) (tx tx1 : DB) (h : transferIn transfer item userID tx = some tx1) :
    LedgerComplete tx tx1 := by
  simp only [transferIn] at h
  split at h
  · next wid _ =>
    have hk := firstOrCreateInventory_lookup_key tx.inventories
      { ProductID := item.ProductID, WarehouseID := wid,
        ProductVariantID := item.ProductVariantID }
    simp only [Option.some.injEq] at h
    subst h
    refine LedgerComplete.step _ _ _ _ rfl rfl ⟨hk.1, hk.2.1, rfl, hk.2.2, ?_⟩
    simp only
    congr 1
    omega
  · split at h
    · simp at h
    · next sid _ =>
      have hk := firstOrCreateStoreInventory_lookup_key tx.store_inventories
        { ProductID := item.ProductID, StoreID := sid,
          ProductVariantID := item.ProductVariantID }
      simp only [Option.some.injEq] at h
      subst h
      refine LedgerComplete.step _ _ _ _ rfl rfl ⟨hk.1, hk.2.1, rfl, hk.2.2, ?_⟩
      simp only
      congr 1
      omega

theorem executeLoop_complete (transfer : StockTransfer) (userID : Nat)
    (items : List StockTransferItem) (tx tx' : DB)
    (hloop : executeLoop transfer userID items tx = some tx') : LedgerComplete tx tx' := by
  induction items generalizing tx with
  | nil =>
    simp only [executeLoop, Option.some.injEq] at hloop
    exact hloop ▸ LedgerComplete.refl tx
  | cons item rest ih =>
    simp only [executeLoop] at hloop
    cases hout : transferOut transfer item userID tx with
    | none => simp [hout] at hloop
    | some tx1 =>
      simp only [hout] at hloop
      cases hin : transferIn transfer item userID tx1 with
      | none => simp [hin] at hloop
      | some tx2 =>
        simp only [hin] at hloop
        have h3 := ih _ hloop
        exact ((transferOut_complete _ _ _ _ _ hout).trans
          (transferIn_complete _ _ _ _ _ hin)).trans
          ((LedgerComplete.of_eq tx2 _ rfl rfl).trans h3)

theorem ExecuteStockTransfer_complete (c : Ctx) (id : Nat) (db : DB) :
    LedgerComplete db (ExecuteStockTransfer c id db).db := by
  rcases ExecuteStockTransfer_cases c id db with ⟨-, hdb⟩ | ⟨t, tx, -, -, hl, heq⟩
  · rw [hdb]; exact LedgerComplete.refl db
  · rw [heq]
    exact (executeLoop_complete t (userIDOf c) _ db tx hl).trans
      (LedgerComplete.of_eq _ _ rfl rfl)

theorem AdjustInventory_complete (c : Ctx) (req : AdjustInventoryRequest) (db : DB) :
    LedgerComplete db (AdjustInventory c req db).db := by
  have hk := firstOrCreateInventory_lookup_key db.inventories req.cond
  unfold AdjustInventory
  split_ifs
  · exact LedgerComplete.refl db
  · exact LedgerComplete.step _ _ _ _ rfl rfl ⟨hk.1, hk.2.1, rfl, hk.2.2, rfl⟩

theorem AdjustStoreInventory_complete (c : Ctx) (req : AdjustStoreInventoryRequest) (db : DB) :
    LedgerComplete db (AdjustStoreInventory c req db).db := by
  have hk := firstOrCreateStoreInventory_lookup_key db.store_inventories req.cond
  unfold AdjustStoreInventory
  split_ifs
  · exact LedgerComplete.refl db
  · exact LedgerComplete.step _ _ _ _ rfl rfl ⟨hk.1, hk.2.1, rfl, hk.2.2, rfl⟩

/-! ### C8: ledger completeness -/

/-- C8 as stated fails: warehouse 1 holds product 1 only as variant 7 (100). An adjustment of
product 1 without a variant to 80 is answered 200 and performs one balance write, of the row
(product 1, variant 7, warehouse 1) from 100 to 80; the one ledger entry appended carries
(product 1, no variant, warehouse 1). The write and the entry do not carry the same variant. -/
theorem ledger_entry_names_another_variant :
    exAdjustTo80.ProductVariantID = none ∧
      (AdjustInventory {} exAdjustTo80 exVariantDB).status = 200 ∧
      (AdjustInventory {} exAdjustTo80 exVariantDB).db.balance_writes =
        [{ LocationType := "warehouse", LocationID := 1, ProductID := 1,
           ProductVariantID := some 7, RowID := 1, Old := 100, New := 80 }] ∧
      (AdjustInventory {} exAdjustTo80 exVariantDB).db.inventory_transactions.map
        (fun e => (e.ProductID, e.ProductVariantID, e.LocationType, e.LocationID, e.Quantity))
        = [(1, none, "warehouse", 1, -20)] ∧
      ¬ LedgerExact exVariantDB (AdjustInventory {} exAdjustTo80 exVariantDB).db := by
  refine ⟨by decide, by decide, by decide, by decide, ?_⟩
  rintro ⟨ws, es, hw, hl, hp⟩
  have h1 : (AdjustInventory {} exAdjustTo80 exVariantDB).db.balance_writes =
      [{ LocationType := "warehouse", LocationID := 1, ProductID := 1,
         ProductVariantID := some 7, RowID := 1, Old := 100, New := 80 }] := by decide
  have h2 : (AdjustInventory {} exAdjustTo80 exVariantDB).db.inventory_transactions =
      [{ ID := 1, ProductID := 1, LocationType := "warehouse", LocationID := 1,
         WarehouseID := some 1, TransactionType := "adjustment", Quantity := -20,
         ReferenceType := "adjustment", Notes := "damage", CreatedBy := 1 }] := by decide
  have h3 : exVariantDB.balance_writes = [] := rfl
  have h4 : exVariantDB.inventory_transactions = [] := rfl
  rw [h1, h3, List.nil_append] at hw
  rw [h2, h4, List.nil_append] at hl
  subst hw
  subst hl
  cases hp with
  | cons h _ => exact absurd h (by decide)

/-- C8 amended. For every run of `CreateSale`, `ReceivePurchaseOrder`, `ExecuteStockTransfer`,
`AdjustInventory` and `AdjustStoreInventory`, the balance writes performed and the ledger
entries appended between the state before and the state left are equally many and pair up in
order: each write of a balance row from `Old` to `New` comes with one entry of the same
location kind whose quantity has absolute value `|New - Old|`; the entry carries the product
and the location id of the row written (unless the id the request gave is zero) and, when the
entry names a variant, the variant of the row written. An entry without a variant may describe
a write to the row of any variant of the product. (A rejected run leaves both lists as they
were.) -/
theorem ledger_complete (db : DB) (c : Ctx) (sale : CreateSaleRequest) (poID : Nat)
    (recv : List ReceiveItem) (transferID : Nat) (adj : AdjustInventoryRequest)
    (adjS : AdjustStoreInventoryRequest) :
    LedgerComplete db (CreateSale c sale db).db ∧
      LedgerComplete db (ReceivePurchaseOrder c poID recv db).db ∧
      LedgerComplete db (ExecuteStockTransfer c transferID db).db ∧
      LedgerComplete db (AdjustInventory c adj db).db ∧
      LedgerComplete db (AdjustStoreInventory c adjS db).db :=
  ⟨CreateSale_complete c sale db, ReceivePurchaseOrder_complete c poID recv db,
    ExecuteStockTransfer_complete c transferID db, AdjustInventory_complete c adj db,
    AdjustStoreInventory_complete c adjS db⟩

theorem find?_save_same {α : Type} (key : α → Nat) (p : α → Bool) (t : List α) (x x' : α)
    (hfind : t.find? p = some x) (hp : p x' = true) :
    (t.map (fun r => if key r = key x then x' else r)).find? p = some x' := by
  induction t with
  | nil => simp at hfind
  | cons a rest ih =>
    simp only [List.map_cons, List.find?_cons] at hfind ⊢
    cases hpa : p a with
    | true =>
      simp only [hpa, Option.some.injEq] at hfind
      subst hfind
      simp [hp]
    | false =>
      simp only [hpa] at hfind
      by_cases hk : key a = key x
      · simp [hk, hp]
      · simp only [if_neg hk, hpa]
        exact ih hfind

theorem firstOrCreateInventory_found (t : List Inventory) (c : Inventory) (hid : c.ID = 0)
    (hq : c.Quantity = 0) :
    firstInventory (firstOrCreateInventory t c).2 c = some (firstOrCreateInventory t c).1 ∧
      (firstOrCreateInventory t c).1.Quantity = warehouseBalance t c := by
  unfold firstOrCreateInventory warehouseBalance
  cases h : firstInventory t c with
  | some inv => exact ⟨h, rfl⟩
  | none =>
    refine ⟨?_, by simp [hq]⟩
    unfold firstInventory at h ⊢
    rw [List.find?_append, h]
    simp [inventory_matchesWhere_self c _ hid]

theorem warehouseBalance_write (t : List Inventory) (a : Inventory) (n : Int) (c : Inventory)
    (hc : c.Quantity = 0) (hfind : firstInventory t c = some a) :
    warehouseBalance (saveInventory t { a with Quantity := n }) c = n := by
  have hm : c.matchesWhere a = true := by simpa using List.find?_some hfind
  have := find?_save_same (fun r : Inventory => r.ID) (fun r => c.matchesWhere r) t a
    { a with Quantity := n } hfind ((inventory_matchesWhere_qty c a n hc).trans hm)
  unfold warehouseBalance firstInventory saveInventory
  rw [this]

theorem firstOrCreateStoreInventory_found (t : List StoreInventory) (c : StoreInventory) (hid : c.ID = 0)
    (hq : c.Quantity = 0) :
    firstStoreInventory (firstOrCreateStoreInventory t c).2 c = some (firstOrCreateStoreInventory t c).1 ∧
      (firstOrCreateStoreInventory t c).1.Quantity = storeBalance t c := by
  unfold firstOrCreateStoreInventory storeBalance
  cases h : firstStoreInventory t c with
  | some inv => exact ⟨h, rfl⟩
  | none =>
    refine ⟨?_, by simp [hq]⟩
    unfold firstStoreInventory at h ⊢
    rw [List.find?_append, h]
    simp [storeInventory_matchesWhere_self c _ hid]

theorem storeBalance_write (t : List StoreInventory) (a : StoreInventory) (n : Int) (c : StoreInventory)
    (hc : c.Quantity = 0) (hfind : firstStoreInventory t c = some a) :
    storeBalance (saveStoreInventory t { a with Quantity := n }) c = n := by
  have hm : c.matchesWhere a = true := by simpa using List.find?_some hfind
  have := find?_save_same (fun r : StoreInventory => r.ID) (fun r => c.matchesWhere r) t a
    { a with Quantity := n } hfind ((storeInventory_matchesWhere_qty c a n hc).trans hm)
  unfold storeBalance firstStoreInventory saveStoreInventory
  rw [this]

theorem receiveLine_effect (po : PurchaseOrder) (poItem : PurchaseOrderItem)
    (line : ReceiveItem) (userID : Nat) (tx : DB) :
    balanceAt (receiveLine po poItem line userID tx) (Location.warehouse po.WarehouseID)
        poItem.ProductID poItem.ProductVariantID =
      balanceAt tx (Location.warehouse po.WarehouseID) poItem.ProductID
        poItem.ProductVariantID + line.QuantityReceived ∧
    ∃ e, (receiveLine po poItem line userID tx).inventory_transactions =
        tx.inventory_transactions ++ [e] ∧
      e.ProductID = poItem.ProductID ∧ e.ProductVariantID = poItem.ProductVariantID ∧
      e.LocationType = "warehouse" ∧ e.LocationID = po.WarehouseID ∧
      e.TransactionType = "in" ∧ e.Quantity = line.QuantityReceived ∧
      e.UnitCost = poItem.UnitCost ∧ e.ReferenceType = "purchase" ∧
      e.ReferenceID = some po.ID := by
  obtain ⟨hfind, hqty⟩ := firstOrCreateInventory_found tx.inventories
    { ProductID := poItem.ProductID, WarehouseID := po.WarehouseID,
      ProductVariantID := poItem.ProductVariantID } rfl rfl
  refine ⟨?_, ⟨_, rfl, rfl, rfl, rfl, rfl, rfl, rfl, rfl, rfl, rfl⟩⟩
  simp only [balanceAt, receiveLine, createTransaction, DB.writeInventory]
  rw [warehouseBalance_write _ _ _ _ rfl hfind, hqty]

/-! ### The row an adjustment and a receipt write -/

/-- For a valid adjustment request with target quantity `t`, `AdjustInventory` answers 200, the
balance its lookup sees for the request afterwards is exactly `t`, and exactly one ledger entry
is appended: of kind adjustment, with quantity `t - old` where `old` is the balance the lookup
saw before the call (0 when no row matched), and with the supplied reason as its notes.
`AdjustStoreInventory` does the same on the store balances. -/
theorem adjust_sets_target (c : Ctx) (db : DB) (req : AdjustInventoryRequest)
    (reqS : AdjustStoreInventoryRequest) (hreq : req.bindOK = true)
    (hreqS : reqS.bindOK = true) :
    ((AdjustInventory c req db).status = 200 ∧
      balanceAt (AdjustInventory c req db).db (Location.warehouse req.WarehouseID)
        req.ProductID req.ProductVariantID = req.Quantity ∧
      ∃ e, (AdjustInventory c req db).db.inventory_transactions =
          db.inventory_transactions ++ [e] ∧
        e.TransactionType = "adjustment" ∧ e.Notes = req.Reason ∧
        e.Quantity = req.Quantity - balanceAt db (Location.warehouse req.WarehouseID)
          req.ProductID req.ProductVariantID) ∧
    ((AdjustStoreInventory c reqS db).status = 200 ∧
      balanceAt (AdjustStoreInventory c reqS db).db (Location.store reqS.StoreID)
        reqS.ProductID reqS.ProductVariantID = reqS.Quantity ∧
      ∃ e, (AdjustStoreInventory c reqS db).db.inventory_transactions =
          db.inventory_transactions ++ [e] ∧
        e.TransactionType = "adjustment" ∧ e.Notes = reqS.Reason ∧
        e.Quantity = reqS.Quantity - balanceAt db (Location.store reqS.StoreID)
          reqS.ProductID reqS.ProductVariantID) := by
  constructor
  · obtain ⟨hfind, hqty⟩ := firstOrCreateInventory_found db.inventories req.cond rfl rfl
    have hb : (req.bindOK = false) = False := by simp [hreq]
    simp only [AdjustInventory, hb, if_false, createTransaction, DB.writeInventory, balanceAt]
    refine ⟨trivial, ?_, ⟨_, rfl, rfl, rfl, ?_⟩⟩
    · exact warehouseBalance_write _ _ _ req.cond rfl hfind
    · show req.Quantity - _ = req.Quantity - warehouseBalance db.inventories req.cond
      rw [hqty]
  · obtain ⟨hfind, hqty⟩ := firstOrCreateStoreInventory_found db.store_inventories reqS.cond
      rfl rfl
    have hb : (reqS.bindOK = false) = False := by simp [hreqS]
    simp only [AdjustStoreInventory, hb, if_false, createTransaction, DB.writeStoreInventory,
      balanceAt]
    refine ⟨trivial, ?_, ⟨_, rfl, rfl, rfl, ?_⟩⟩
    · exact storeBalance_write _ _ _ reqS.cond rfl hfind
    · show reqS.Quantity - _ = reqS.Quantity - storeBalance db.store_inventories reqS.cond
      rw [hqty]

/-- For a purchase order `po` in a receivable status (draft or pending) at warehouse `W` and a
request line receiving `r > 0` of the order's item `poItem`: a request made of that line is
answered 200, the balance the lookup sees at `W` for the item rises by exactly `r` (from 0 when
no row matched, the row being created first), and exactly one ledger entry is appended, of kind
in, with quantity `r`, the item's unit cost, and reference kind purchase with the order's id.
The same holds for the line's pass through the item loop from any transaction state, which is
how each line of a longer request is processed. -/
theorem receive_line_effect (c : Ctx) (id : Nat) (db : DB) (po : PurchaseOrder)
    (poItem : PurchaseOrderItem) (line : ReceiveItem)
    (hpo : db.purchase_orders.find? (fun p => p.ID == id) = some po)
    (hst : po.Status = "draft" ∨ po.Status = "pending")
    (hitem : (db.purchase_order_items.filter (fun it => it.PurchaseOrderID == po.ID)).find?
      (fun item => item.ID == line.ItemID) = some poItem)
    (hid : line.ItemID ≠ 0) (hr : 0 < line.QuantityReceived) :
    ((ReceivePurchaseOrder c id [line] db).status = 200 ∧
      balanceAt (ReceivePurchaseOrder c id [line] db).db (Location.warehouse po.WarehouseID)
          poItem.ProductID poItem.ProductVariantID =
        balanceAt db (Location.warehouse po.WarehouseID) poItem.ProductID
          poItem.ProductVariantID + line.QuantityReceived ∧
      ∃ e, (ReceivePurchaseOrder c id [line] db).db.inventory_transactions =
          db.inventory_transactions ++ [e] ∧
        e.ProductID = poItem.ProductID ∧ e.ProductVariantID = poItem.ProductVariantID ∧
        e.LocationType = "warehouse" ∧ e.LocationID = po.WarehouseID ∧
        e.TransactionType = "in" ∧ e.Quantity = line.QuantityReceived ∧
        e.UnitCost = poItem.UnitCost ∧ e.ReferenceType = "purchase" ∧
        e.ReferenceID = some po.ID) ∧
    ∀ tx rest,
      receiveLoop po (db.purchase_order_items.filter (fun it => it.PurchaseOrderID == po.ID))
          (userIDOf c) (line :: rest) tx =
        receiveLoop po (db.purchase_order_items.filter (fun it => it.PurchaseOrderID == po.ID))
          (userIDOf c) rest (receiveLine po poItem line (userIDOf c) tx) ∧
      balanceAt (receiveLine po poItem line (userIDOf c) tx) (Location.warehouse po.WarehouseID)
          poItem.ProductID poItem.ProductVariantID =
        balanceAt tx (Location.warehouse po.WarehouseID) poItem.ProductID
          poItem.ProductVariantID + line.QuantityReceived ∧
      ∃ e, (receiveLine po poItem line (userIDOf c) tx).inventory_transactions =
          tx.inventory_transactions ++ [e] ∧
        e.ProductID = poItem.ProductID ∧ e.ProductVariantID = poItem.ProductVariantID ∧
        e.LocationType = "warehouse" ∧ e.LocationID = po.WarehouseID ∧
        e.TransactionType = "in" ∧ e.Quantity = line.QuantityReceived ∧
        e.UnitCost = poItem.UnitCost ∧ e.ReferenceType = "purchase" ∧
        e.ReferenceID = some po.ID := by
  have hbind : ([line].all ReceiveItem.bindOK = false) = False := by
    simp [ReceiveItem.bindOK, hid, hr]
  have hstat : (po.Status ≠ "draft" ∧ po.Status ≠ "pending") = False := by
    simp only [eq_iff_iff, iff_false, not_and, not_not]
    intro h
    rcases hst with h' | h'
    · exact absurd h' h
    · exact h'
  have hout : ReceivePurchaseOrder c id [line] db = ⟨200,
      { receiveLine po poItem line (userIDOf c) db with
        purchase_orders := savePurchaseOrder
          (receiveLine po poItem line (userIDOf c) db).purchase_orders
          (receivedStatus po ((receiveLine po poItem line (userIDOf c) db).purchase_order_items.filter
            (fun it => it.PurchaseOrderID == po.ID))) }⟩ := by
    simp only [ReceivePurchaseOrder, hbind, if_false, hpo, hstat, receiveLoop, hitem]
  obtain ⟨hbal, hled⟩ := receiveLine_effect po poItem line (userIDOf c) db
  refine ⟨⟨?_, ?_, ?_⟩, ?_⟩
  · rw [hout]
  · rw [hout]
    exact (balanceAt_congr (receiveLine po poItem line (userIDOf c) db) _ rfl rfl _ _ _).trans hbal
  · rw [hout]
    exact hled
  · intro tx rest
    refine ⟨?_, receiveLine_effect po poItem line (userIDOf c) tx⟩
    simp only [receiveLoop, hitem]

/-! ### C11: repeated partial receipts -/

/-- C11, the code at the failing input. Order 1 is in status draft with one item ordered at
100. A first receipt of 40 is answered 200 and leaves the order in status partial. The second
receipt, of the remaining 60, is answered 400 and changes nothing: the status guard of
`ReceivePurchaseOrder` lets only draft and pending through. -/
theorem ReceivePurchaseOrder_rejects_partial_order :
    (ReceivePurchaseOrder {} 1 exReceive40 exDB).status = 200 ∧
      (ReceivePurchaseOrder {} 1 exReceive40 exDB).db.purchase_orders.map (fun p => p.Status)
        = ["partial"] ∧
      (ReceivePurchaseOrder {} 1 exReceive60
        (ReceivePurchaseOrder {} 1 exReceive40 exDB).db).status = 400 ∧
      (ReceivePurchaseOrder {} 1 exReceive60 (ReceivePurchaseOrder {} 1 exReceive40 exDB).db).db
        = (ReceivePurchaseOrder {} 1 exReceive40 exDB).db := by
  decide

/-! ### C12: cumulative quantity received -/

/-- C12, the code at the failing input. A request naming item 1 in two lines, 40 and 60, is
answered 200; the warehouse balance rises by 100 and two ledger entries are logged, but the
item's `quantity_received` ends at 60, not 100: the second line starts again from the item as
preloaded before the first line was saved. -/
theorem ReceivePurchaseOrder_loses_repeated_line :
    (ReceivePurchaseOrder {} 1 exReceiveSameItemTwice exDB).status = 200 ∧
      exDB.purchase_order_items.map (fun it => it.QuantityReceived) = [0] ∧
      (ReceivePurchaseOrder {} 1 exReceiveSameItemTwice exDB).db.purchase_order_items.map
        (fun it => it.QuantityReceived) = [60] ∧
      balanceAt exDB (Location.warehouse 1) 2 none = 0 ∧
      balanceAt (ReceivePurchaseOrder {} 1 exReceiveSameItemTwice exDB).db
        (Location.warehouse 1) 2 none = 100 ∧
      (ReceivePurchaseOrder {} 1 exReceiveSameItemTwice exDB).db.inventory_transactions.map
        (fun e => e.Quantity) = [40, 60] := by
  decide

/-! ### C18: sale quantities -/

/-- C18, the code at the failing input. A sale with one line of quantity -5 against a store
balance of 50 is committed (201): the balance rises to 55 and the ledger gets an entry of kind
out with quantity 5. Nothing in `CreateSale` or `updateInventoryForSale` looks at the sign of a
line's quantity. -/
theorem CreateSale_negative_line_raises_stock :
    (CreateSale {} exSaleNegativeLine exDB).status = 201 ∧
      balanceAt exDB (Location.store 1) 1 none = 50 ∧
      balanceAt (CreateSale {} exSaleNegativeLine exDB).db (Location.store 1) 1 none = 55 ∧
      (CreateSale {} exSaleNegativeLine exDB).db.inventory_transactions.map
        (fun e => (e.TransactionType, e.Quantity)) = [("out", 5)] := by
  decide

/-! ### C19: transfer endpoints that do not exist -/

/-- C19, the code at the failing input. Store 99 is not in the store master data. A transfer
from warehouse 1 to store 99 passes every check `CreateStockTransfer` makes (binding, endpoint
count, same-location, source stock): no validation looks the endpoints up. The request is
refused only when the insert of the transfer row fails on the foreign key of `to_store_id`:
the handler rolls back and answers 500, where a validation would have answered 400. Nothing is
stored, so `ExecuteStockTransfer` finds no transfer and answers 404. -/
theorem transfer_to_missing_store_fails_at_insert :
    (99 ∉ exDB.stores) ∧
      exTransferToMissingStore.Items.all StockTransferItemCreate.bindOK = true ∧
      transferLocationsOK exTransferToMissingStore = true ∧
      transferStockAvailable exTransferToMissingStore exDB = true ∧
      CreateStockTransfer {} exTransferToMissingStore exDB = ⟨500, exDB⟩ ∧
      ExecuteStockTransfer {} 1 (CreateStockTransfer {} exTransferToMissingStore exDB).db =
        ⟨404, exDB⟩ := by
  decide

theorem receiveLoop_purchase_orders (po : PurchaseOrder) (items : List PurchaseOrderItem)
    (userID : Nat) (req : List ReceiveItem) (tx tx' : DB)
    (hloop : receiveLoop po items userID req tx = some tx') :
    tx'.purchase_orders = tx.purchase_orders := by
  induction req generalizing tx with
  | nil =>
    simp only [receiveLoop, Option.some.injEq] at hloop
    rw [← hloop]
  | cons l rest ih =>
    simp only [receiveLoop] at hloop
    split at hloop
    · simp at hloop
    · exact (ih _ hloop).trans rfl

theorem receivedStatus_ID (po : PurchaseOrder) (items : List PurchaseOrderItem) :
    (receivedStatus po items).ID = po.ID := by
  unfold receivedStatus
  simp only
  split_ifs <;> rfl

theorem receivedStatus_all (po : PurchaseOrder) (items : List PurchaseOrderItem)
    (h : ∀ it ∈ items, it.QuantityOrdered ≤ it.QuantityReceived) :
    receivedStatus po items = { po with Status := "received", ReceivedDateSet := true } := by
  have hall : items.all (fun item => !decide (item.QuantityReceived < item.QuantityOrdered))
      = true := by
    rw [List.all_eq_true]
    intro it hit
    simp only [Bool.not_eq_true', decide_eq_false_iff_not, not_lt]
    exact h it hit
  simp only [receivedStatus, hall, if_true]

theorem receivedStatus_some (po : PurchaseOrder) (items : List PurchaseOrderItem)
    (h : ¬ ∀ it ∈ items, it.QuantityOrdered ≤ it.QuantityReceived)
    (hany : ∃ it ∈ items, 0 < it.QuantityReceived) :
    receivedStatus po items = { po with Status := "partial" } := by
  have hall : ¬ items.all (fun item => !decide (item.QuantityReceived < item.QuantityOrdered))
      = true := by
    rw [List.all_eq_true]
    intro hc
    apply h
    intro it hit
    have := hc it hit
    simp only [Bool.not_eq_true', decide_eq_false_iff_not, not_lt] at this
    exact this
  have hany' : items.any (fun item => decide (item.QuantityReceived > 0)) = true := by
    rw [List.any_eq_true]
    obtain ⟨it, hit, hpos⟩ := hany
    exact ⟨it, hit, by simpa using hpos⟩
  simp only [receivedStatus, if_neg hall, hany', if_true]

theorem receivedStatus_none (po : PurchaseOrder) (items : List PurchaseOrderItem)
    (h : ¬ ∀ it ∈ items, it.QuantityOrdered ≤ it.QuantityReceived)
    (hany : ¬ ∃ it ∈ items, 0 < it.QuantityReceived) :
    receivedStatus po items = po := by
  have hall : ¬ items.all (fun item => !decide (item.QuantityReceived < item.QuantityOrdered))
      = true := by
    rw [List.all_eq_true]
    intro hc
    apply h
    intro it hit
    have := hc it hit
    simp only [Bool.not_eq_true', decide_eq_false_iff_not, not_lt] at this
    exact this
  have hany' : ¬ items.any (fun item => decide (item.QuantityReceived > 0)) = true := by
    rw [List.any_eq_true]
    rintro ⟨it, hit, hpos⟩
    exact hany ⟨it, hit, by simpa using hpos⟩
  simp only [receivedStatus, if_neg hall, if_neg hany']

/-! ### C13: recomputation of the order status -/

/-- C13 as stated fails: order 1 has a single item, ordered at 100. After a successful receipt
of 40 no item of the order is fully received, so by the claim the status would stay draft; the
handler sets it to partial. -/
theorem partial_status_without_full_item :
    exDB.purchase_orders.map (fun p => p.Status) = ["draft"] ∧
      (ReceivePurchaseOrder {} 1 exReceive40 exDB).status = 200 ∧
      ((ReceivePurchaseOrder {} 1 exReceive40 exDB).db.purchase_order_items.filter
        (fun it => it.PurchaseOrderID == 1)).all
          (fun it => decide (it.QuantityReceived < it.QuantityOrdered)) = true ∧
      (ReceivePurchaseOrder {} 1 exReceive40 exDB).db.purchase_orders.map (fun p => p.Status)
        = ["partial"] := by
  decide

/-- C13 amended. After a successful `ReceivePurchaseOrder` on the order `po`, with `po'` the
order afterwards and the order's items as they are afterwards: if every item has
`quantity_received >= quantity_ordered` the status is received and `received_date` is set;
otherwise, if at least one item has `quantity_received > 0`, the status is partial and
`received_date` is as before; otherwise status and `received_date` are as before. -/
theorem receive_status_recomputed (c : Ctx) (id : Nat) (req : List ReceiveItem) (db : DB)
    (hok : (ReceivePurchaseOrder c id req db).status = 200) :
    StatusRecomputed id db (ReceivePurchaseOrder c id req db).db := by
  unfold StatusRecomputed
  rcases ReceivePurchaseOrder_cases c id req db with ⟨hne, -⟩ | ⟨po, tx, -, hpo, -, hl, heq⟩
  · exact absurd hok hne
  have hpos := receiveLoop_purchase_orders po _ (userIDOf c) req db tx hl
  have hfind : (savePurchaseOrder tx.purchase_orders (receivedStatus po
      (tx.purchase_order_items.filter (fun it => it.PurchaseOrderID == po.ID)))).find?
      (fun p => p.ID == id) = some (receivedStatus po
        (tx.purchase_order_items.filter (fun it => it.PurchaseOrderID == po.ID))) := by
    have hp : (po.ID == id) = true := by simpa using List.find?_some hpo
    have := find?_save_same (fun r : PurchaseOrder => r.ID) (fun p => p.ID == id)
      tx.purchase_orders po (receivedStatus po
        (tx.purchase_order_items.filter (fun it => it.PurchaseOrderID == po.ID)))
      (by rw [hpos]; exact hpo) (by simpa [receivedStatus_ID] using hp)
    unfold savePurchaseOrder
    rw [receivedStatus_ID]
    exact this
  refine ⟨po, receivedStatus po
    (tx.purchase_order_items.filter (fun it => it.PurchaseOrderID == po.ID)),
    hpo, ?_, ?_, ?_, ?_⟩
  · rw [heq]; exact hfind
  · rw [heq]
    intro h
    rw [receivedStatus_all po _ h]
    exact ⟨rfl, rfl⟩
  · rw [heq]
    intro h hany
    rw [receivedStatus_some po _ h hany]
    exact ⟨rfl, rfl⟩
  · rw [heq]
    intro h hany
    rw [receivedStatus_none po _ h hany]
    exact ⟨rfl, rfl⟩

/-- C13 amended, at the receipts of 100 (all of the order) and of 40 (part of it). -/
theorem receive_status_recomputed_witness :
    ((ReceivePurchaseOrder {} 1 exReceive100 exDB).status = 200 ∧
      (ReceivePurchaseOrder {} 1 exReceive100 exDB).db.purchase_orders.map
        (fun p => (p.Status, p.ReceivedDateSet)) = [("received", true)]) ∧
    StatusRecomputed 1 exDB (ReceivePurchaseOrder {} 1 exReceive100 exDB).db ∧
    StatusRecomputed 1 exDB (ReceivePurchaseOrder {} 1 exReceive40 exDB).db :=
  ⟨by decide, receive_status_recomputed {} 1 exReceive100 exDB (by decide),
    receive_status_recomputed {} 1 exReceive40 exDB (by decide)⟩

theorem firstOrCreateInventory_of_found (t : List Inventory) (c r : Inventory)
    (h : firstInventory t c = some r) : firstOrCreateInventory t c = (r, t) := by
  simp only [firstOrCreateInventory, h]

theorem firstOrCreateStoreInventory_of_found (t : List StoreInventory) (c r : StoreInventory)
    (h : firstStoreInventory t c = some r) : firstOrCreateStoreInventory t c = (r, t) := by
  simp only [firstOrCreateStoreInventory, h]

theorem firstOrCreateInventory_length (t : List Inventory) (c : Inventory) :
    (firstOrCreateInventory t c).2.length ≤ t.length + 1 := by
  unfold firstOrCreateInventory
  cases firstInventory t c <;> simp

theorem firstOrCreateStoreInventory_length (t : List StoreInventory) (c : StoreInventory) :
    (firstOrCreateStoreInventory t c).2.length ≤ t.length + 1 := by
  unfold firstOrCreateStoreInventory
  cases firstStoreInventory t c <;> simp

theorem firstInventory_write (t : List Inventory) (a : Inventory) (n : Int) (c : Inventory)
    (hc : c.Quantity = 0) (hfind : firstInventory t c = some a) :
    firstInventory (saveInventory t { a with Quantity := n }) c =
      some { a with Quantity := n } := by
  have hm : c.matchesWhere a = true := by simpa using List.find?_some hfind
  exact find?_save_same (fun r : Inventory => r.ID) (fun r => c.matchesWhere r) t a
    { a with Quantity := n } hfind ((inventory_matchesWhere_qty c a n hc).trans hm)

theorem firstStoreInventory_write (t : List StoreInventory) (a : StoreInventory) (n : Int)
    (c : StoreInventory) (hc : c.Quantity = 0) (hfind : firstStoreInventory t c = some a) :
    firstStoreInventory (saveStoreInventory t { a with Quantity := n }) c =
      some { a with Quantity := n } := by
  have hm : c.matchesWhere a = true := by simpa using List.find?_some hfind
  exact find?_save_same (fun r : StoreInventory => r.ID) (fun r => c.matchesWhere r) t a
    { a with Quantity := n } hfind ((storeInventory_matchesWhere_qty c a n hc).trans hm)

/-! ### C14: idempotent lazy creation -/

/-- C14. For every key (product `p`, variant `v` or none, location `l`) and every state of the
balance tables, the find-or-create lookup of `AdjustInventory`, `ReceivePurchaseOrder` and the
destination side of `ExecuteStockTransfer` (warehouse table) and of `AdjustStoreInventory` and
the store destination (store table), done twice in sequence, returns the same record and the
same table the second time as the first, the table having grown by at most one row; and it
still returns a record of the same id after the quantity write the handlers do in between. -/
theorem find_or_create_idempotent (t : List Inventory) (s : List StoreInventory) (p l : Nat)
    (v : Option Nat) (n : Int) :
    (firstOrCreateInventory (firstOrCreateInventory t
          { ProductID := p, WarehouseID := l, ProductVariantID := v }).2
          { ProductID := p, WarehouseID := l, ProductVariantID := v } =
        firstOrCreateInventory t { ProductID := p, WarehouseID := l, ProductVariantID := v } ∧
      (firstOrCreateInventory t
        { ProductID := p, WarehouseID := l, ProductVariantID := v }).2.length ≤ t.length + 1 ∧
      (firstOrCreateInventory (saveInventory (firstOrCreateInventory t
          { ProductID := p, WarehouseID := l, ProductVariantID := v }).2
          { (firstOrCreateInventory t
              { ProductID := p, WarehouseID := l, ProductVariantID := v }).1 with
            Quantity := n })
          { ProductID := p, WarehouseID := l, ProductVariantID := v }).1.ID =
        (firstOrCreateInventory t
          { ProductID := p, WarehouseID := l, ProductVariantID := v }).1.ID) ∧
    (firstOrCreateStoreInventory (firstOrCreateStoreInventory s
          { ProductID := p, StoreID := l, ProductVariantID := v }).2
          { ProductID := p, StoreID := l, ProductVariantID := v } =
        firstOrCreateStoreInventory s { ProductID := p, StoreID := l, ProductVariantID := v } ∧
      (firstOrCreateStoreInventory s
        { ProductID := p, StoreID := l, ProductVariantID := v }).2.length ≤ s.length + 1 ∧
      (firstOrCreateStoreInventory (saveStoreInventory (firstOrCreateStoreInventory s
          { ProductID := p, StoreID := l, ProductVariantID := v }).2
          { (firstOrCreateStoreInventory s
              { ProductID := p, StoreID := l, ProductVariantID := v }).1 with
            Quantity := n })
          { ProductID := p, StoreID := l, ProductVariantID := v }).1.ID =
        (firstOrCreateStoreInventory s
          { ProductID := p, StoreID := l, ProductVariantID := v }).1.ID) := by
  constructor
  · obtain ⟨hfind, -⟩ := firstOrCreateInventory_found t
      { ProductID := p, WarehouseID := l, ProductVariantID := v } rfl rfl
    refine ⟨?_, firstOrCreateInventory_length _ _, ?_⟩
    · exact firstOrCreateInventory_of_found _ _ _ hfind
    · rw [firstOrCreateInventory_of_found _ _ _ (firstInventory_write _ _ n _ rfl hfind)]
  · obtain ⟨hfind, -⟩ := firstOrCreateStoreInventory_found s
      { ProductID := p, StoreID := l, ProductVariantID := v } rfl rfl
    refine ⟨?_, firstOrCreateStoreInventory_length _ _, ?_⟩
    · exact firstOrCreateStoreInventory_of_found _ _ _ hfind
    · rw [firstOrCreateStoreInventory_of_found _ _ _
        (firstStoreInventory_write _ _ n _ rfl hfind)]

theorem inventory_key_of_matches (p l : Nat) (v : Option Nat) (r : Inventory) (hp : p ≠ 0)
    (hl : l ≠ 0)
    (h : Inventory.matchesWhere { ProductID := p, WarehouseID := l, ProductVariantID := v } r
      = true) :
    r.ProductID = p ∧ r.WarehouseID = l ∧ ∀ x, v = some x → r.ProductVariantID = some x := by
  simp only [Inventory.matchesWhere, condUint, condPtr, condNum, Bool.and_eq_true,
    Bool.or_eq_true, beq_iff_eq] at h
  obtain ⟨⟨⟨⟨-, h1⟩, h2⟩, h3⟩, -⟩ := h
  refine ⟨h1.resolve_left hp, h3.resolve_left hl, ?_⟩
  intro x hx
  subst hx
  simpa using h2

theorem firstOrCreateInventory_key (t : List Inventory) (p l : Nat) (v : Option Nat)
    (hp : p ≠ 0) (hl : l ≠ 0) :
    (∀ r, firstInventory t { ProductID := p, WarehouseID := l, ProductVariantID := v } = some r →
        r.ProductID = p ∧ r.WarehouseID = l ∧ ∀ x, v = some x → r.ProductVariantID = some x) ∧
      ((firstOrCreateInventory t
          { ProductID := p, WarehouseID := l, ProductVariantID := v }).1.ProductID = p ∧
        (firstOrCreateInventory t
          { ProductID := p, WarehouseID := l, ProductVariantID := v }).1.WarehouseID = l ∧
        ∀ x, v = some x → (firstOrCreateInventory t
          { ProductID := p, WarehouseID := l, ProductVariantID := v }).1.ProductVariantID
            = some x) ∧
      (firstInventory t { ProductID := p, WarehouseID := l, ProductVariantID := v } = none →
        (firstOrCreateInventory t
          { ProductID := p, WarehouseID := l, ProductVariantID := v }).1.ProductVariantID = v ∧
        (firstOrCreateInventory t
          { ProductID := p, WarehouseID := l, ProductVariantID := v }).1.Quantity = 0) := by
  have hfirst : ∀ r, firstInventory t
      { ProductID := p, WarehouseID := l, ProductVariantID := v } = some r →
      r.ProductID = p ∧ r.WarehouseID = l ∧ ∀ x, v = some x → r.ProductVariantID = some x := by
    intro r hr
    exact inventory_key_of_matches p l v r hp hl (by simpa using List.find?_some hr)
  refine ⟨hfirst, ?_, ?_⟩
  · cases h : firstInventory t { ProductID := p, WarehouseID := l, ProductVariantID := v } with
    | some r =>
      rw [firstOrCreateInventory_of_found _ _ _ h]
      exact hfirst r h
    | none =>
      simp [firstOrCreateInventory, h]
  · intro h
    simp [firstOrCreateInventory, h]

theorem storeInventory_key_of_matches (p l : Nat) (v : Option Nat) (r : StoreInventory) (hp : p ≠ 0)
    (hl : l ≠ 0)
    (h : StoreInventory.matchesWhere { ProductID := p, StoreID := l, ProductVariantID := v } r
      = true) :
    r.ProductID = p ∧ r.StoreID = l ∧ ∀ x, v = some x → r.ProductVariantID = some x := by
  simp only [StoreInventory.matchesWhere, condUint, condPtr, condNum, Bool.and_eq_true,
    Bool.or_eq_true, beq_iff_eq] at h
  obtain ⟨⟨⟨⟨-, h1⟩, h2⟩, h3⟩, -⟩ := h
  refine ⟨h1.resolve_left hp, h3.resolve_left hl, ?_⟩
  intro x hx
  subst hx
  simpa using h2

theorem firstOrCreateStoreInventory_key (t : List StoreInventory) (p l : Nat) (v : Option Nat)
    (hp : p ≠ 0) (hl : l ≠ 0) :
    (∀ r, firstStoreInventory t { ProductID := p, StoreID := l, ProductVariantID := v } = some r →
        r.ProductID = p ∧ r.StoreID = l ∧ ∀ x, v = some x → r.ProductVariantID = some x) ∧
      ((firstOrCreateStoreInventory t
          { ProductID := p, StoreID := l, ProductVariantID := v }).1.ProductID = p ∧
        (firstOrCreateStoreInventory t
          { ProductID := p, StoreID := l, ProductVariantID := v }).1.StoreID = l ∧
        ∀ x, v = some x → (firstOrCreateStoreInventory t
          { ProductID := p, StoreID := l, ProductVariantID := v }).1.ProductVariantID
            = some x) ∧
      (firstStoreInventory t { ProductID := p, StoreID := l, ProductVariantID := v } = none →
        (firstOrCreateStoreInventory t
          { ProductID := p, StoreID := l, ProductVariantID := v }).1.ProductVariantID = v ∧
        (firstOrCreateStoreInventory t
          { ProductID := p, StoreID := l, ProductVariantID := v }).1.Quantity = 0) := by
  have hfirst : ∀ r, firstStoreInventory t
      { ProductID := p, StoreID := l, ProductVariantID := v } = some r →
      r.ProductID = p ∧ r.StoreID = l ∧ ∀ x, v = some x → r.ProductVariantID = some x := by
    intro r hr
    exact storeInventory_key_of_matches p l v r hp hl (by simpa using List.find?_some hr)
  refine ⟨hfirst, ?_, ?_⟩
  · cases h : firstStoreInventory t { ProductID := p, StoreID := l, ProductVariantID := v } with
    | some r =>
      rw [firstOrCreateStoreInventory_of_found _ _ _ h]
      exact hfirst r h
    | none =>
      simp [firstOrCreateStoreInventory, h]
  · intro h
    simp [firstOrCreateStoreInventory, h]

/-! ### C15: matching on the composite key -/

/-- C15 as stated fails: the only warehouse balance of product 1 in warehouse 1 belongs to
variant 7. An adjustment request for product 1 in warehouse 1 without a variant is answered
200 and rewrites that variant's row from 100 to 80; no row without a variant is created. -/
theorem variantless_request_hits_variant_row :
    exAdjustTo80.ProductVariantID = none ∧
      exVariantDB.inventories =
        [{ ID := 1, ProductID := 1, ProductVariantID := some 7, WarehouseID := 1,
           Quantity := 100 }] ∧
      (AdjustInventory {} exAdjustTo80 exVariantDB).status = 200 ∧
      (AdjustInventory {} exAdjustTo80 exVariantDB).db.inventories =
        [{ ID := 1, ProductID := 1, ProductVariantID := some 7, WarehouseID := 1,
           Quantity := 80 }] := by
  decide

/-- C15 amended. For a lookup key with product `p` and location `l` (both non-zero ids) and
variant `v` or none, the balance record that the lookup of `updateInventoryForSale` and of the
transfer source (`First`) loads, and the one that the lookup of `AdjustInventory`,
`AdjustStoreInventory`, `ReceivePurchaseOrder` and the transfer destination (`FirstOrCreate`)
loads or creates, has product `p` and location `l`, and has variant `v` when the key names a
variant; a key without a variant loads the first record of the product at the location whatever
its variant. A record is created only when no record matches, and then has the key's variant
(none when the key has none) and quantity 0. -/
theorem lookup_matches_key (t : List Inventory) (s : List StoreInventory) (p l : Nat)
    (v : Option Nat) (hp : p ≠ 0) (hl : l ≠ 0) :
    ((∀ r, firstInventory t { ProductID := p, WarehouseID := l, ProductVariantID := v } = some r →
        r.ProductID = p ∧ r.WarehouseID = l ∧ ∀ x, v = some x → r.ProductVariantID = some x) ∧
      ((firstOrCreateInventory t
          { ProductID := p, WarehouseID := l, ProductVariantID := v }).1.ProductID = p ∧
        (firstOrCreateInventory t
          { ProductID := p, WarehouseID := l, ProductVariantID := v }).1.WarehouseID = l ∧
        ∀ x, v = some x → (firstOrCreateInventory t
          { ProductID := p, WarehouseID := l, ProductVariantID := v }).1.ProductVariantID
            = some x) ∧
      (firstInventory t { ProductID := p, WarehouseID := l, ProductVariantID := v } = none →
        (firstOrCreateInventory t
          { ProductID := p, WarehouseID := l, ProductVariantID := v }).1.ProductVariantID = v ∧
        (firstOrCreateInventory t
          { ProductID := p, WarehouseID := l, ProductVariantID := v }).1.Quantity = 0)) ∧
    ((∀ r, firstStoreInventory s { ProductID := p, StoreID := l, ProductVariantID := v } = some r →
        r.ProductID = p ∧ r.StoreID = l ∧ ∀ x, v = some x → r.ProductVariantID = some x) ∧
      ((firstOrCreateStoreInventory s
          { ProductID := p, StoreID := l, ProductVariantID := v }).1.ProductID = p ∧
        (firstOrCreateStoreInventory s
          { ProductID := p, StoreID := l, ProductVariantID := v }).1.StoreID = l ∧
        ∀ x, v = some x → (firstOrCreateStoreInventory s
          { ProductID := p, StoreID := l, ProductVariantID := v }).1.ProductVariantID
            = some x) ∧
      (firstStoreInventory s { ProductID := p, StoreID := l, ProductVariantID := v } = none →
        (firstOrCreateStoreInventory s
          { ProductID := p, StoreID := l, ProductVariantID := v }).1.ProductVariantID = v ∧
        (firstOrCreateStoreInventory s
          { ProductID := p, StoreID := l, ProductVariantID := v }).1.Quantity = 0)) :=
  ⟨firstOrCreateInventory_key t p l v hp hl, firstOrCreateStoreInventory_key s p l v hp hl⟩

/-- C15 amended, at the key (product 2, variant 7, location 1) on the example tables, where no
record matches and one is created. -/
theorem lookup_matches_key_witness :
    (firstInventory exDB.inventories
        { ProductID := 2, WarehouseID := 1, ProductVariantID := some 7 } = none ∧
      (firstOrCreateInventory exDB.inventories
        { ProductID := 2, WarehouseID := 1, ProductVariantID := some 7 }).1 =
        { ID := 2, ProductID := 2, ProductVariantID := some 7, WarehouseID := 1 } ∧
      (firstOrCreateInventory exDB.inventories
        { ProductID := 2, WarehouseID := 1, ProductVariantID := some 7 }).2.length = 2) ∧
    (firstOrCreateInventory exDB.inventories
        { ProductID := 2, WarehouseID := 1, ProductVariantID := some 7 }).1.ProductVariantID
      = some 7 ∧
    (firstOrCreateStoreInventory exDB.store_inventories
        { ProductID := 2, StoreID := 1, ProductVariantID := some 7 }).1.Quantity = 0 :=
  have h := lookup_matches_key exDB.inventories exDB.store_inventories 2 1 (some 7)
    (by decide) (by decide)
  ⟨by decide, (h.1.2.2 (by decide)).1, (h.2.2.2 (by decide)).2⟩

theorem LedgerComplete.ledger_extends {db db' : DB} (h : LedgerComplete db db') :
    ∃ es, db'.inventory_transactions = db.inventory_transactions ++ es := by
  obtain ⟨_, es, -, hl, -⟩ := h
  exact ⟨es, hl⟩

theorem AdjustInventory_rejected (c : Ctx) (req : AdjustInventoryRequest) (db : DB)
    (h : (AdjustInventory c req db).status ≠ 200) : (AdjustInventory c req db).db = db := by
  unfold AdjustInventory at h ⊢
  split_ifs at h ⊢
  · rfl
  · exact absurd rfl h

theorem AdjustStoreInventory_rejected (c : Ctx) (req : AdjustStoreInventoryRequest) (db : DB)
    (h : (AdjustStoreInventory c req db).status ≠ 200) :
    (AdjustStoreInventory c req db).db = db := by
  unfold AdjustStoreInventory at h ⊢
  split_ifs at h ⊢
  · rfl
  · exact absurd rfl h

theorem CreateSale_rejected (c : Ctx) (req : CreateSaleRequest) (db : DB)
    (h : (CreateSale c req db).status ≠ 201) : (CreateSale c req db).db = db := by
  rcases CreateSale_cases c req db with ⟨-, hdb⟩ | ⟨tx, -, heq⟩
  · exact hdb
  · rw [heq] at h
    exact absurd rfl h

theorem ReceivePurchaseOrder_rejected (c : Ctx) (id : Nat) (req : List ReceiveItem) (db : DB)
    (h : (ReceivePurchaseOrder c id req db).status ≠ 200) :
    (ReceivePurchaseOrder c id req db).db = db := by
  rcases ReceivePurchaseOrder_cases c id req db with ⟨-, hdb⟩ | ⟨po, tx, -, -, -, -, heq⟩
  · exact hdb
  · rw [heq] at h
    exact absurd rfl h

theorem ExecuteStockTransfer_rejected (c : Ctx) (id : Nat) (db : DB)
    (h : (ExecuteStockTransfer c id db).status ≠ 200) :
    (ExecuteStockTransfer c id db).db = db := by
  rcases ExecuteStockTransfer_cases c id db with ⟨-, hdb⟩ | ⟨t, tx, -, -, -, heq⟩
  · exact hdb
  · rw [heq] at h
    exact absurd rfl h

/-! ### C16: the ledger is append-only -/

/-- C16. For `CreateSale`, `ReceivePurchaseOrder`, `ExecuteStockTransfer`, `AdjustInventory`
and `AdjustStoreInventory` and every prior state, the ledger afterwards is the ledger before
with entries appended at its end (no entry changed or removed), and when the operation is
rejected (a status other than its success status) the ledger is the ledger before. -/
theorem ledger_append_only (db : DB) (c : Ctx) (sale : CreateSaleRequest) (poID : Nat)
    (recv : List ReceiveItem) (transferID : Nat) (adj : AdjustInventoryRequest)
    (adjS : AdjustStoreInventoryRequest) :
    ((∃ es, (CreateSale c sale db).db.inventory_transactions =
          db.inventory_transactions ++ es) ∧
      ((CreateSale c sale db).status ≠ 201 →
        (CreateSale c sale db).db.inventory_transactions = db.inventory_transactions)) ∧
    ((∃ es, (ReceivePurchaseOrder c poID recv db).db.inventory_transactions =
          db.inventory_transactions ++ es) ∧
      ((ReceivePurchaseOrder c poID recv db).status ≠ 200 →
        (ReceivePurchaseOrder c poID recv db).db.inventory_transactions =
          db.inventory_transactions)) ∧
    ((∃ es, (ExecuteStockTransfer c transferID db).db.inventory_transactions =
          db.inventory_transactions ++ es) ∧
      ((ExecuteStockTransfer c transferID db).status ≠ 200 →
        (ExecuteStockTransfer c transferID db).db.inventory_transactions =
          db.inventory_transactions)) ∧
    ((∃ es, (AdjustInventory c adj db).db.inventory_transactions =
          db.inventory_transactions ++ es) ∧
      ((AdjustInventory c adj db).status ≠ 200 →
        (AdjustInventory c adj db).db.inventory_transactions = db.inventory_transactions)) ∧
    ((∃ es, (AdjustStoreInventory c adjS db).db.inventory_transactions =
          db.inventory_transactions ++ es) ∧
      ((AdjustStoreInventory c adjS db).status ≠ 200 →
        (AdjustStoreInventory c adjS db).db.inventory_transactions =
          db.inventory_transactions)) :=
  ⟨⟨(CreateSale_complete c sale db).ledger_extends,
      fun h => by rw [CreateSale_rejected c sale db h]⟩,
    ⟨(ReceivePurchaseOrder_complete c poID recv db).ledger_extends,
      fun h => by rw [ReceivePurchaseOrder_rejected c poID recv db h]⟩,
    ⟨(ExecuteStockTransfer_complete c transferID db).ledger_extends,
      fun h => by rw [ExecuteStockTransfer_rejected c transferID db h]⟩,
    ⟨(AdjustInventory_complete c adj db).ledger_extends,
      fun h => by rw [AdjustInventory_rejected c adj db h]⟩,
    ⟨(AdjustStoreInventory_complete c adjS db).ledger_extends,
      fun h => by rw [AdjustStoreInventory_rejected c adjS db h]⟩⟩

theorem AdjustInventory_accepted (c : Ctx) (req : AdjustInventoryRequest) (db : DB)
    (hreq : req.bindOK = true) :
    (AdjustInventory c req db).status = 200 ∧
      balanceAt (AdjustInventory c req db).db (Location.warehouse req.WarehouseID)
        req.ProductID req.ProductVariantID = req.Quantity := by
  obtain ⟨hfind, -⟩ := firstOrCreateInventory_found db.inventories req.cond rfl rfl
  have hb : (req.bindOK = false) = False := by simp [hreq]
  simp only [AdjustInventory, hb, if_false, createTransaction, DB.writeInventory, balanceAt]
  exact ⟨trivial, warehouseBalance_write _ _ _ req.cond rfl hfind⟩

theorem AdjustStoreInventory_accepted (c : Ctx) (req : AdjustStoreInventoryRequest) (db : DB)
    (hreq : req.bindOK = true) :
    (AdjustStoreInventory c req db).status = 200 ∧
      balanceAt (AdjustStoreInventory c req db).db (Location.store req.StoreID)
        req.ProductID req.ProductVariantID = req.Quantity := by
  obtain ⟨hfind, -⟩ := firstOrCreateStoreInventory_found db.store_inventories req.cond rfl rfl
  have hb : (req.bindOK = false) = False := by simp [hreq]
  simp only [AdjustStoreInventory, hb, if_false, createTransaction, DB.writeStoreInventory,
    balanceAt]
  exact ⟨trivial, storeBalance_write _ _ _ req.cond rfl hfind⟩

/-! ### C17: which targets an adjustment accepts -/

/-- C17 as stated fails at the target 0: an adjustment of product 1 in warehouse 1 to quantity
0 with a non-empty reason is answered 400 and the balance stays at 100. -/
theorem adjustment_to_zero_is_rejected :
    exAdjustToZero.Quantity = 0 ∧ exAdjustToZero.Reason ≠ "" ∧
      (AdjustInventory {} exAdjustToZero exDB).status = 400 ∧
      balanceAt (AdjustInventory {} exAdjustToZero exDB).db (Location.warehouse 1) 1 none
        = 100 := by
  decide

/-- C17 amended. For a request with product and location ids given and a non-empty reason:
every target quantity `t > 0` is accepted by `AdjustInventory` and `AdjustStoreInventory`
(status 200) and the balance seen for the request's key is `t` afterwards; the target 0 does not
pass the binding of the `required` quantity field: the answer is 400 and the database is left
as it was. -/
theorem adjustment_target_validation (c : Ctx) (db : DB) (req : AdjustInventoryRequest)
    (reqS : AdjustStoreInventoryRequest)
    (hp : req.ProductID ≠ 0) (hw : req.WarehouseID ≠ 0) (hr : req.Reason ≠ "")
    (hpS : reqS.ProductID ≠ 0) (hwS : reqS.StoreID ≠ 0) (hrS : reqS.Reason ≠ "") :
    ((0 < req.Quantity → (AdjustInventory c req db).status = 200 ∧
        balanceAt (AdjustInventory c req db).db (Location.warehouse req.WarehouseID)
          req.ProductID req.ProductVariantID = req.Quantity) ∧
      (req.Quantity = 0 → AdjustInventory c req db = ⟨400, db⟩)) ∧
    ((0 < reqS.Quantity → (AdjustStoreInventory c reqS db).status = 200 ∧
        balanceAt (AdjustStoreInventory c reqS db).db (Location.store reqS.StoreID)
          reqS.ProductID reqS.ProductVariantID = reqS.Quantity) ∧
      (reqS.Quantity = 0 → AdjustStoreInventory c reqS db = ⟨400, db⟩)) := by
  refine ⟨⟨?_, ?_⟩, ⟨?_, ?_⟩⟩
  · intro hq
    apply AdjustInventory_accepted
    have : req.Quantity ≠ 0 := ne_of_gt hq
    simp [AdjustInventoryRequest.bindOK, hp, hw, hr, this]
  · intro hq
    simp [AdjustInventory, AdjustInventoryRequest.bindOK, hq]
  · intro hq
    apply AdjustStoreInventory_accepted
    have : reqS.Quantity ≠ 0 := ne_of_gt hq
    simp [AdjustStoreInventoryRequest.bindOK, hpS, hwS, hrS, this]
  · intro hq
    simp [AdjustStoreInventory, AdjustStoreInventoryRequest.bindOK, hq]

/-- C17 amended, at the adjustments of the warehouse and the store balance to 80. -/
theorem adjustment_target_validation_witness :
    ((0 < exAdjustTo80.Quantity → (AdjustInventory {} exAdjustTo80 exDB).status = 200 ∧
        balanceAt (AdjustInventory {} exAdjustTo80 exDB).db (Location.warehouse 1) 1 none
          = 80) ∧
      (exAdjustTo80.Quantity = 0 → AdjustInventory {} exAdjustTo80 exDB = ⟨400, exDB⟩)) ∧
    ((0 < exAdjustStoreTo80.Quantity →
        (AdjustStoreInventory {} exAdjustStoreTo80 exDB).status = 200 ∧
        balanceAt (AdjustStoreInventory {} exAdjustStoreTo80 exDB).db (Location.store 1) 1 none
          = 80) ∧
      (exAdjustStoreTo80.Quantity = 0 →
        AdjustStoreInventory {} exAdjustStoreTo80 exDB = ⟨400, exDB⟩)) :=
  adjustment_target_validation {} exDB exAdjustTo80 exAdjustStoreTo80
    (by decide) (by decide) (by decide) (by decide) (by decide) (by decide)

/-! ### C20: an adjustment needs a reason -/

/-- C20. An adjustment request whose reason is missing (decoded as the empty string) or empty
is answered 400 by `AdjustInventory` and by `AdjustStoreInventory` before any transaction is
begun: the database, with every balance and the ledger, is left as it was. -/
theorem adjustment_requires_reason (c : Ctx) (db : DB) (req : AdjustInventoryRequest)
    (reqS : AdjustStoreInventoryRequest) (hr : req.Reason = "") (hrS : reqS.Reason = "") :
    AdjustInventory c req db = ⟨400, db⟩ ∧ AdjustStoreInventory c reqS db = ⟨400, db⟩ := by
  constructor
  · simp [AdjustInventory, AdjustInventoryRequest.bindOK, hr]
  · simp [AdjustStoreInventory, AdjustStoreInventoryRequest.bindOK, hrS]

/-- C20 at two requests with an empty reason against the example database. -/
theorem adjustment_requires_reason_witness :
    AdjustInventory {} exAdjustNoReason exDB = ⟨400, exDB⟩ ∧
      AdjustStoreInventory {} exAdjustStoreNoReason exDB = ⟨400, exDB⟩ :=
  adjustment_requires_reason {} exDB exAdjustNoReason exAdjustStoreNoReason rfl rfl

/-! ### C21: sign of the ledger quantity -/

/-- C21, the code at the failing input. Executing the transfer of 30 from warehouse 1 to store
1 appends two ledger entries for the moved amount 30: the entry of kind in stores +30 and the
entry of kind out stores +30 as well, not -30. (The sale path stores the negated quantity for
its out entry.) -/
theorem transfer_out_entry_is_positive :
    (ExecuteStockTransfer {} 1 exTransferDB).status = 200 ∧
      ((ExecuteStockTransfer {} 1 exTransferDB).db.inventory_transactions.drop
        exTransferDB.inventory_transactions.length).map
          (fun e => (e.ReferenceType, e.TransactionType, e.Quantity)) =
        [("transfer", "out", 30), ("transfer", "in", 30)] := by
  decide

/-! ### C23: total price of a sale item -/

/-- C23, the code at the failing input. A sale line with quantity 2, unit price 5, no discount
and `total_price` 1 is committed (201); the item is persisted with `total_price` 1, not
2 * 5 - 0 = 10, and the sale's subtotal is 1. `CreateSale` stores the line as the request
gives it. -/
theorem CreateSale_persists_supplied_total_price :
    (CreateSale {} exSaleWrongTotal exDB).status = 201 ∧
      (CreateSale {} exSaleWrongTotal exDB).db.sale_items.map
        (fun it => (it.Quantity, it.UnitPrice, it.DiscountAmount, it.TotalPrice)) =
        [(2, 5, 0, 1)] ∧
      (CreateSale {} exSaleWrongTotal exDB).db.sales.map (fun s => s.Subtotal) = [1] := by
  decide

/-! ### C27: pagination arithmetic -/

/-- C27, the code at the failing input. With `limit=0`, and likewise with a `limit` that is not
a number (which parses to 0), the expression `(total + limit - 1) / limit` divides by zero: the
list handler panics and the request is answered 500 by the recovery middleware. -/
theorem pagination_divides_by_zero :
    pagination 25 QueryParam.absent (QueryParam.number 0) = none ∧
      pagination 25 QueryParam.absent QueryParam.text = none ∧
      listStatus 25 QueryParam.absent (QueryParam.number 0) = 500 ∧
      (pagination 25 QueryParam.absent QueryParam.absent).map (fun p => p.total_pages)
        = some 3 := by
  decide

/-! ### C30: usage limit of a discount -/

/-- C30, the code at the failing input. Discount 1 has `usage_limit` 1 and `usage_count` 1
(`ValidateDiscount` refuses it with 400). A sale applying it with a discount amount of 5 is
committed (201) and raises `usage_count` to 2: `CreateSale` increments the count without
looking at the limit. -/
theorem CreateSale_exceeds_usage_limit :
    exDiscountDB.discounts.map (fun d => (d.UsageLimit, d.UsageCount)) = [(1, 1)] ∧
      (ValidateDiscount {} { code := "ONCE" } exDiscountDB).status = 400 ∧
      (CreateSale {} exSaleWithDiscount exDiscountDB).status = 201 ∧
      (CreateSale {} exSaleWithDiscount exDiscountDB).db.discounts.map
        (fun d => (d.UsageLimit, d.UsageCount)) = [(1, 2)] := by
  decide

theorem CreateStockTransfer_rejected (c : Ctx) (req : CreateStockTransferRequest) (db : DB)
    (h : (CreateStockTransfer c req db).status ≠ 201) :
    (CreateStockTransfer c req db).db = db := by
  simp only [CreateStockTransfer] at h ⊢
  split_ifs at h ⊢
  · rfl
  · rfl
  · rfl
  · rfl
  · exact absurd rfl h

/-! ### C22: validation of the transfer endpoints -/

/-- C22. The location validation of `CreateStockTransfer` accepts a request exactly when
exactly one of `from_warehouse_id` / `from_store_id` is set, exactly one of `to_warehouse_id` /
`to_store_id` is set, and the source and the destination are not the same location (same kind,
equal id). A request it rejects is answered 400, and every request not answered 201 leaves the
database as it was: no transfer, no transfer items. -/
theorem transfer_location_validation (c : Ctx) (req : CreateStockTransferRequest) (db : DB) :
    (transferLocationsOK req = true ↔
      exactlyOne req.FromWarehouseID req.FromStoreID ∧
        exactlyOne req.ToWarehouseID req.ToStoreID ∧ req.source ≠ req.dest) ∧
    (transferLocationsOK req = false →
      (CreateStockTransfer c req db).status = 400 ∧ (CreateStockTransfer c req db).db = db) ∧
    ((CreateStockTransfer c req db).status ≠ 201 →
      (CreateStockTransfer c req db).db.stock_transfers = db.stock_transfers ∧
        (CreateStockTransfer c req db).db.stock_transfer_items = db.stock_transfer_items) := by
  refine ⟨?_, ?_, ?_⟩
  · rcases hfw : req.FromWarehouseID with _ | fw <;> rcases hfs : req.FromStoreID with _ | fs <;>
      rcases htw : req.ToWarehouseID with _ | tw <;> rcases hts : req.ToStoreID with _ | ts <;>
      simp [transferLocationsOK, exactlyOne, CreateStockTransferRequest.source,
        CreateStockTransferRequest.dest, hfw, hfs, htw, hts]
  · intro h
    unfold CreateStockTransfer
    rw [if_pos h]
    split_ifs
    · exact ⟨rfl, rfl⟩
    · exact ⟨rfl, rfl⟩
  · intro h
    rw [CreateStockTransfer_rejected c req db h]
    exact ⟨rfl, rfl⟩

theorem transferOut_frame (transfer : StockTransfer) (item : StockTransferItem) (userID : Nat)
    (tx tx1 : DB) (h : transferOut transfer item userID tx = some tx1) :
    tx1.stock_transfer_items = tx.stock_transfer_items ∧
      tx1.stock_transfers = tx.stock_transfers := by
  simp only [transferOut] at h
  split at h
  · split at h
    · simp at h
    · simp only [Option.some.injEq] at h
      subst h
      exact ⟨rfl, rfl⟩
  · split at h
    · simp at h
    · split at h
      · simp at h
      · simp only [Option.some.injEq] at h
        subst h
        exact ⟨rfl, rfl⟩

theorem transferIn_frame (transfer : StockTransfer) (item : StockTransferItem) (userID : Nat)
    (tx tx1 : DB) (h : transferIn transfer item userID tx = some tx1) :
    tx1.stock_transfer_items = tx.stock_transfer_items ∧
      tx1.stock_transfers = tx.stock_transfers := by
  simp only [transferIn] at h
  split at h
  · simp only [Option.some.injEq] at h
    subst h
    exact ⟨rfl, rfl⟩
  · split at h
    · simp at h
    · simp only [Option.some.injEq] at h
      subst h
      exact ⟨rfl, rfl⟩

theorem executeLoop_items (transfer : StockTransfer) (userID : Nat)
    (items : List StockTransferItem) (tx tx' : DB)
    (hloop : executeLoop transfer userID items tx = some tx') :
    tx'.stock_transfers = tx.stock_transfers ∧
      ∀ r ∈ tx'.stock_transfer_items,
        (r.QuantityShipped = r.QuantityRequested ∧ r.QuantityReceived = r.QuantityRequested) ∨
          (r ∈ tx.stock_transfer_items ∧ ∀ it ∈ items, it.ID ≠ r.ID) := by
  induction items generalizing tx with
  | nil =>
    simp only [executeLoop, Option.some.injEq] at hloop
    subst hloop
    exact ⟨rfl, fun r hr => Or.inr ⟨hr, fun it hit => absurd hit (List.not_mem_nil it)⟩⟩
  | cons item rest ih =>
    simp only [executeLoop] at hloop
    cases hout : transferOut transfer item userID tx with
    | none => simp [hout] at hloop
    | some tx1 =>
      simp only [hout] at hloop
      cases hin : transferIn transfer item userID tx1 with
      | none => simp [hin] at hloop
      | some tx2 =>
        simp only [hin] at hloop
        obtain ⟨ho1, ho2⟩ := transferOut_frame _ _ _ _ _ hout
        obtain ⟨hi1, hi2⟩ := transferIn_frame _ _ _ _ _ hin
        obtain ⟨hst, hrows⟩ := ih _ hloop
        refine ⟨?_, ?_⟩
        · rw [hst]
          show tx2.stock_transfers = _
          rw [hi2, ho2]
        · intro r hr
          rcases hrows r hr with hdone | ⟨hmem, hids⟩
          · exact Or.inl hdone
          · simp only [saveTransferItem, List.mem_map] at hmem
            obtain ⟨a, ha, hra⟩ := hmem
            by_cases hid : a.ID = item.ID
            · rw [if_pos hid] at hra
              subst hra
              exact Or.inl ⟨rfl, rfl⟩
            · rw [if_neg hid] at hra
              subst hra
              refine Or.inr ⟨?_, ?_⟩
              · rw [← ho1, ← hi1]; exact ha
              · intro it hit
                rcases List.mem_cons.mp hit with rfl | hit'
                · exact fun h => hid h.symm
                · exact hids it hit'

/-! ### C26: a transfer is executed at most once -/

/-- C26. When `ExecuteStockTransfer` answers 200 for the transfer with id `id`: the transfer
was in status pending; afterwards it is in status completed and every item of it has
`quantity_shipped` and `quantity_received` equal to `quantity_requested`; and a further
`ExecuteStockTransfer` for the same id is answered 400 and leaves the database (balances,
ledger, transfer) as it is. -/
theorem transfer_executed_once (c c' : Ctx) (id : Nat) (db : DB)
    (hok : (ExecuteStockTransfer c id db).status = 200) :
    (∃ transfer, db.stock_transfers.find? (fun t => t.ID == id) = some transfer ∧
        transfer.Status = "pending") ∧
      (∃ done, (ExecuteStockTransfer c id db).db.stock_transfers.find? (fun t => t.ID == id)
          = some done ∧ done.Status = "completed") ∧
      (∀ r ∈ (ExecuteStockTransfer c id db).db.stock_transfer_items, r.TransferID = id →
        r.QuantityShipped = r.QuantityRequested ∧ r.QuantityReceived = r.QuantityRequested) ∧
      ExecuteStockTransfer c' id (ExecuteStockTransfer c id db).db =
        ⟨400, (ExecuteStockTransfer c id db).db⟩ := by
  rcases ExecuteStockTransfer_cases c id db with ⟨hne, -⟩ | ⟨t, tx, hfind, hpend, hloop, heq⟩
  · exact absurd hok hne
  have hid : t.ID = id := by
    have := List.find?_some hfind
    simpa using this
  obtain ⟨hst, hrows⟩ := executeLoop_items t (userIDOf c) _ db tx hloop
  have hdone : (tx.stock_transfers.map (fun r =>
      if r.ID = t.ID then
        { t with Status := "completed", Shipped := true, Received := true }
      else r)).find? (fun r => r.ID == id) =
      some { t with Status := "completed", Shipped := true, Received := true } := by
    apply find?_save_same (fun r : StockTransfer => r.ID) (fun r => r.ID == id)
      tx.stock_transfers t { t with Status := "completed", Shipped := true, Received := true }
    · rw [hst]; exact hfind
    · simpa using hid
  refine ⟨⟨t, hfind, hpend⟩,
    ⟨{ t with Status := "completed", Shipped := true, Received := true }, ?_, rfl⟩, ?_, ?_⟩
  · rw [heq]; exact hdone
  · rw [heq]
    intro r hr htid
    rcases hrows r hr with hd | ⟨hmem, hids⟩
    · exact hd
    · exfalso
      have : r ∈ db.stock_transfer_items.filter (fun it => it.TransferID == t.ID) := by
        rw [List.mem_filter]
        exact ⟨hmem, by simpa [hid] using htid⟩
      exact hids r this rfl
  · rw [heq]
    simp only [ExecuteStockTransfer, hdone]
    simp

/-- C26 at the transfer of 30 from warehouse 1 to store 1: the first execution succeeds, the
second is answered 400 and changes nothing. -/
theorem transfer_executed_once_witness :
    (ExecuteStockTransfer {} 1 exTransferDB).status = 200 ∧
    ((∃ transfer, exTransferDB.stock_transfers.find? (fun t => t.ID == 1) = some transfer ∧
        transfer.Status = "pending") ∧
      (∃ done, (ExecuteStockTransfer {} 1 exTransferDB).db.stock_transfers.find?
          (fun t => t.ID == 1) = some done ∧ done.Status = "completed") ∧
      (∀ r ∈ (ExecuteStockTransfer {} 1 exTransferDB).db.stock_transfer_items,
        r.TransferID = 1 →
        r.QuantityShipped = r.QuantityRequested ∧ r.QuantityReceived = r.QuantityRequested) ∧
      ExecuteStockTransfer {} 1 (ExecuteStockTransfer {} 1 exTransferDB).db =
        ⟨400, (ExecuteStockTransfer {} 1 exTransferDB).db⟩) :=
  ⟨by decide, transfer_executed_once {} {} 1 exTransferDB (by decide)⟩

theorem foldl_add_eq_sum {α : Type} (f : α → Int) (l : List α) (a : Int) :
    l.foldl (fun acc x => acc + f x) a = a + (l.map f).sum := by
  induction l generalizing a with
  | nil => simp
  | cons x rest ih =>
    simp only [List.foldl_cons, List.map_cons, List.sum_cons]
    rw [ih]
    omega

theorem saleTxBeforeItems_frame (c : Ctx) (req : CreateSaleRequest) (db : DB) :
    (saleTxBeforeItems c req db).1 =
        { buildSale c req with ID := nextID (db.sales.map (fun r => r.ID)) } ∧
      (saleTxBeforeItems c req db).2.sales = db.sales ++ [(saleTxBeforeItems c req db).1] ∧
      (saleTxBeforeItems c req db).2.customers = db.customers ∧
      (saleTxBeforeItems c req db).2.settings = db.settings := by
  unfold saleTxBeforeItems trackDiscountUsage createSale
  cases req.DiscountID with
  | none => exact ⟨rfl, rfl, rfl, rfl⟩
  | some did =>
    dsimp only
    split_ifs <;> simp

theorem updateInventoryForSale_frame (tx : DB) (storeID : Nat) (item : SaleItem)
    (userID : Nat) :
    (updateInventoryForSale tx storeID item userID).1.sales = tx.sales ∧
      (updateInventoryForSale tx storeID item userID).1.customers = tx.customers ∧
      (updateInventoryForSale tx storeID item userID).1.settings = tx.settings := by
  simp only [updateInventoryForSale]
  split
  · exact ⟨rfl, rfl, rfl⟩
  · split_ifs <;> exact ⟨rfl, rfl, rfl⟩

theorem saleItemsLoop_frame (storeID saleID userID : Nat) (items : List SaleItem) (tx : DB) :
    (saleItemsLoop storeID saleID userID items tx).1.sales = tx.sales ∧
      (saleItemsLoop storeID saleID userID items tx).1.customers = tx.customers ∧
      (saleItemsLoop storeID saleID userID items tx).1.settings = tx.settings := by
  induction items generalizing tx with
  | nil => exact ⟨rfl, rfl, rfl⟩
  | cons item rest ih =>
    simp only [saleItemsLoop]
    have hstep := updateInventoryForSale_frame
      (createSaleItem tx { item with SaleID := saleID }).2 storeID
      (createSaleItem tx { item with SaleID := saleID }).1 userID
    split
    · next tx1 err heq =>
      rw [heq] at hstep
      exact hstep
    · next tx1 heq =>
      rw [heq] at hstep
      obtain ⟨h1, h2, h3⟩ := ih tx1
      exact ⟨h1.trans hstep.1, h2.trans hstep.2.1, h3.trans hstep.2.2⟩

theorem salePaymentsLoop_frame (saleID : Nat) (payments : List SalePayment) (tx : DB) :
    (salePaymentsLoop saleID payments tx).sales = tx.sales ∧
      (salePaymentsLoop saleID payments tx).customers = tx.customers ∧
      (salePaymentsLoop saleID payments tx).settings = tx.settings := by
  induction payments generalizing tx with
  | nil => exact ⟨rfl, rfl, rfl⟩
  | cons p rest ih =>
    simp only [salePaymentsLoop]
    exact ih _

theorem updateCustomerStats_sales (tx : DB) (req : CreateSaleRequest) (total : Int) :
    (updateCustomerStats tx req total).sales = tx.sales := by
  unfold updateCustomerStats
  cases req.CustomerID <;> rfl

/-! ### C28: the totals of a sale -/

/-- C28. A committed `CreateSale` appends one sale row; its subtotal is the sum of the
request items' `total_price`, its total amount is subtotal + tax amount - discount amount, its
paid amount is the sum of the payments' amounts and its change amount is
max(0, paid amount - total amount): never negative, and paid amount - total amount whenever the
paid amount covers the total. -/
theorem sale_totals (c : Ctx) (req : CreateSaleRequest) (db : DB)
    (hok : (CreateSale c req db).status = 201) :
    ∃ sale, (CreateSale c req db).db.sales = db.sales ++ [sale] ∧
      sale.Subtotal = (req.Items.map (fun it => it.TotalPrice)).sum ∧
      sale.TaxAmount = req.TaxAmount ∧ sale.DiscountAmount = req.DiscountAmount ∧
      sale.TotalAmount = sale.Subtotal + req.TaxAmount - req.DiscountAmount ∧
      sale.PaidAmount = (req.Payments.map (fun p => p.Amount)).sum ∧
      sale.ChangeAmount = max 0 (sale.PaidAmount - sale.TotalAmount) ∧
      0 ≤ sale.ChangeAmount ∧
      (sale.TotalAmount ≤ sale.PaidAmount →
        sale.ChangeAmount = sale.PaidAmount - sale.TotalAmount) := by
  rcases CreateSale_cases c req db with ⟨hne, -⟩ | ⟨tx, hloop, heq⟩
  · exact absurd hok hne
  obtain ⟨hsale, hsales, -, -⟩ := saleTxBeforeItems_frame c req db
  have hl := (saleItemsLoop_frame req.StoreID (saleTxBeforeItems c req db).1.ID (userIDOf c)
    req.Items (saleTxBeforeItems c req db).2).1
  rw [hloop] at hl
  have hp := (salePaymentsLoop_frame (saleTxBeforeItems c req db).1.ID req.Payments tx).1
  have hsub : saleSubtotal req.Items = (req.Items.map (fun it => it.TotalPrice)).sum := by
    unfold saleSubtotal
    rw [foldl_add_eq_sum]
    exact zero_add _
  have hpaid : salePaidAmount req.Payments = (req.Payments.map (fun p => p.Amount)).sum := by
    unfold salePaidAmount
    rw [foldl_add_eq_sum]
    exact zero_add _
  refine ⟨(saleTxBeforeItems c req db).1, ?_, ?_⟩
  · rw [heq]
    show (updateCustomerStats _ req _).sales = _
    rw [updateCustomerStats_sales, hp, hl, hsales]
  · rw [hsale]
    simp only [buildSale, hsub, hpaid]
    refine ⟨trivial, trivial, trivial, trivial, trivial, ?_, ?_, ?_⟩
    · split_ifs with h
      · rw [max_eq_left (le_of_lt h)]
      · rw [max_eq_right (not_lt.mp h)]
    · split_ifs with h
      · exact le_refl 0
      · exact not_lt.mp h
    · intro hle
      split_ifs with h
      · omega
      · rfl

/-- C28 at the committed sale of one line with total price 100, paid with 100. -/
theorem sale_totals_witness :
    ∃ sale, (CreateSale {} exSaleOneLine exDB).db.sales = exDB.sales ++ [sale] ∧
      sale.Subtotal = (exSaleOneLine.Items.map (fun it => it.TotalPrice)).sum ∧
      sale.TaxAmount = exSaleOneLine.TaxAmount ∧
      sale.DiscountAmount = exSaleOneLine.DiscountAmount ∧
      sale.TotalAmount = sale.Subtotal + exSaleOneLine.TaxAmount -
        exSaleOneLine.DiscountAmount ∧
      sale.PaidAmount = (exSaleOneLine.Payments.map (fun p => p.Amount)).sum ∧
      sale.ChangeAmount = max 0 (sale.PaidAmount - sale.TotalAmount) ∧
      0 ≤ sale.ChangeAmount ∧
      (sale.TotalAmount ≤ sale.PaidAmount →
        sale.ChangeAmount = sale.PaidAmount - sale.TotalAmount) :=
  sale_totals {} exSaleOneLine exDB (by decide)

theorem CreateSale_accepted_points (c : Ctx) (req : CreateSaleRequest) (db : DB)
    (hok : (CreateSale c req db).status = 201) : pointsRedemptionOK db req = true := by
  by_contra hne
  have hfalse : pointsRedemptionOK db req = false := by simpa using hne
  unfold CreateSale at hok
  by_cases h1 : req.StoreID = 0
  · simp [h1] at hok
  by_cases h2 : req.StoreID ∈ db.stores
  · simp [h1, h2, hfalse] at hok
  · simp [h1, h2] at hok

theorem minPurchaseForPoints_pos (tx : DB) : 0 < minPurchaseForPoints tx := by
  unfold minPurchaseForPoints
  split
  · split
    · split_ifs with h
      · exact h
      · decide
    · decide
  · decide

theorem minPurchaseForPoints_congr (tx db : DB) (h : tx.settings = db.settings) :
    minPurchaseForPoints tx = minPurchaseForPoints db := by
  unfold minPurchaseForPoints
  rw [h]

theorem earned_eq_loyaltyEarned (total minPurchase : Int) (hpos : 0 < minPurchase) :
    (if total ≥ minPurchase then Int.tdiv total minPurchase else 0) =
        loyaltyEarned total minPurchase ∧
      0 ≤ loyaltyEarned total minPurchase := by
  unfold loyaltyEarned
  have hfloor : ⌊(total : ℚ) / (minPurchase : ℚ)⌋ = total / minPurchase := by
    have hcast : minPurchase = ((minPurchase.toNat : ℕ) : ℤ) :=
      (Int.toNat_of_nonneg (le_of_lt hpos)).symm
    have hq : (minPurchase : ℚ) = ((minPurchase.toNat : ℕ) : ℚ) := by
      exact_mod_cast hcast
    rw [hq, Rat.floor_intCast_div_natCast, ← hcast]
  by_cases h : total ≥ minPurchase
  · have h0 : 0 ≤ total := by omega
    rw [if_pos h, if_pos h, hfloor, Int.tdiv_eq_ediv h0 (le_of_lt hpos)]
    exact ⟨rfl, Int.ediv_nonneg h0 (le_of_lt hpos)⟩
  · rw [if_neg h, if_neg h]
    exact ⟨rfl, le_refl 0⟩

theorem loyaltyEarned_le (total minPurchase : Int) (hpos : 0 < minPurchase) :
    loyaltyEarned total minPurchase ≤ max total 0 := by
  obtain ⟨hearn, -⟩ := earned_eq_loyaltyEarned total minPurchase hpos
  rw [← hearn]
  by_cases h : total ≥ minPurchase
  · have h0 : 0 ≤ total := by omega
    rw [if_pos h, Int.tdiv_eq_ediv h0 (le_of_lt hpos)]
    exact le_trans (Int.ediv_le_self _ h0) (le_max_left _ _)
  · rw [if_neg h]
    exact le_max_right _ _

theorem goIntOfFloat_of_range (x : Int) (h1 : -(2 ^ 63) ≤ x) (h2 : x < 2 ^ 63) :
    goIntOfFloat x = x := by
  unfold goIntOfFloat
  rw [if_pos ⟨h1, h2⟩]

theorem wrapInt64_of_range (x : Int) (h1 : -(2 ^ 63) ≤ x) (h2 : x < 2 ^ 63) :
    wrapInt64 x = x := by
  unfold wrapInt64
  rw [Int.emod_eq_of_lt (by omega) (by omega)]
  omega

theorem updateCustomerStats_find (tx : DB) (req : CreateSaleRequest) (total : Int) (cid : Nat)
    (cust : Customer) (hfind : tx.customers.find? (fun r => r.ID == cid) = some cust) :
    ∃ after, (updateCustomerStats tx req total).customers.find? (fun r => r.ID == cid) =
        some after ∧
      (cust.IsMember = false → after.LoyaltyPoints = cust.LoyaltyPoints) ∧
      (cust.IsMember = true → req.CustomerID = some cid →
        after.LoyaltyPoints = cust.LoyaltyPoints +
          wrapInt64 ((if total ≥ minPurchaseForPoints tx then
            goIntOfFloat (Int.tdiv total (minPurchaseForPoints tx)) else 0) -
              req.PointsRedeemed)) := by
  have hid : cust.ID = cid := by
    have := List.find?_some hfind
    simpa using this
  unfold updateCustomerStats
  cases hc : req.CustomerID with
  | none =>
    refine ⟨cust, hfind, fun _ => rfl, fun _ h => ?_⟩
    exact absurd h (by simp)
  | some rc =>
    dsimp only
    rw [find?_map_of_congr]
    · rw [hfind]
      refine ⟨_, rfl, ?_, ?_⟩
      · intro hmem
        by_cases hrc : cust.ID = rc
        · have hf : tx.customers.find? (fun (r : Customer) => r.ID == rc) = some cust := by
            rw [← hrc, hid]; exact hfind
          simp [hrc, hf, hmem]
        · simp [hrc]
      · intro hmem hsome
        have hrc : rc = cid := by simpa using hsome
        subst hrc
        simp only [hid, hfind, hmem, if_true, Bool.true_and]
        by_cases hnet : wrapInt64 ((if total ≥ minPurchaseForPoints tx then
            goIntOfFloat (Int.tdiv total (minPurchaseForPoints tx)) else 0) -
              req.PointsRedeemed) = 0
        · simp [hnet]
        · simp [hnet]
    · intro r _
      by_cases hr : r.ID = rc
      · simp [hr]
      · simp [hr]

/-! ### C29: loyalty points -/

/-- C29 as stated fails: customer 1 is a member holding 10 points and a point is earned per 40
of purchase. A sale of total 10^23 to this customer, redeeming nothing, passes the
points-redemption validation and is committed (201). The quotient 10^23 / 40 is beyond the
range of Go's `int`, the conversion yields the smallest `int`, and the customer is left with
10 - 2^63 points: a negative number, and not 10 + floor(10^23 / 40). -/
theorem loyalty_points_overflow :
    pointsRedemptionOK exLoyaltyDB exSaleHugeTotal = true ∧
      (CreateSale {} exSaleHugeTotal exLoyaltyDB).status = 201 ∧
      (buildSale {} exSaleHugeTotal).TotalAmount = 10 ^ 23 ∧
      minPurchaseForPoints exLoyaltyDB = 40 ∧
      (CreateSale {} exSaleHugeTotal exLoyaltyDB).db.customers.map
        (fun r => (r.ID, r.IsMember, r.LoyaltyPoints)) =
        [(1, true, 10 - 2 ^ 63), (2, false, 4)] ∧
      (10 : Int) - 2 ^ 63 < 0 ∧
      loyaltyEarned (10 ^ 23) 40 = 25 * 10 ^ 20 := by
  refine ⟨by decide, by decide, by decide, by decide, by decide, by decide, ?_⟩
  unfold loyaltyEarned
  norm_num

/-- C29 amended. For a customer found under `cid`: a non-member's loyalty points are the same
after any `CreateSale`; for a member with non-negative points who is the customer of a
committed sale (which therefore passed the points-redemption validation), provided the total
amount is below 2^53 (up to there a `float64` holds every whole amount exactly) and the points
earned (`floor(total_amount / min_purchase)` when `total_amount >= min_purchase`, else 0)
minus the points redeemed are within the range of Go's 64-bit `int`, the points afterwards are
the previous value plus the points earned minus the points redeemed, and are not negative. -/
theorem loyalty_points_nonnegative (c : Ctx) (req : CreateSaleRequest) (db : DB) (cid : Nat)
    (cust : Customer) (hfind : db.customers.find? (fun r => r.ID == cid) = some cust) :
    ∃ after, (CreateSale c req db).db.customers.find? (fun r => r.ID == cid) = some after ∧
      (cust.IsMember = false → after.LoyaltyPoints = cust.LoyaltyPoints) ∧
      (cust.IsMember = true → 0 ≤ cust.LoyaltyPoints → req.CustomerID = some cid →
        (CreateSale c req db).status = 201 →
        (buildSale c req).TotalAmount < 2 ^ 53 →
        -(2 ^ 63) ≤ loyaltyEarned (buildSale c req).TotalAmount (minPurchaseForPoints db) -
          req.PointsRedeemed →
        loyaltyEarned (buildSale c req).TotalAmount (minPurchaseForPoints db) -
          req.PointsRedeemed < 2 ^ 63 →
        pointsRedemptionOK db req = true ∧
        after.LoyaltyPoints = cust.LoyaltyPoints +
          loyaltyEarned (buildSale c req).TotalAmount (minPurchaseForPoints db) -
          req.PointsRedeemed ∧
        0 ≤ after.LoyaltyPoints) := by
  rcases CreateSale_cases c req db with ⟨hne, hdb⟩ | ⟨tx, hloop, heq⟩
  · rw [hdb]
    exact ⟨cust, hfind, fun _ => rfl, fun _ _ _ hok => absurd hok hne⟩
  obtain ⟨hsale, -, hcust0, hset0⟩ := saleTxBeforeItems_frame c req db
  have hl := saleItemsLoop_frame req.StoreID (saleTxBeforeItems c req db).1.ID (userIDOf c)
    req.Items (saleTxBeforeItems c req db).2
  rw [hloop] at hl
  have hp := salePaymentsLoop_frame (saleTxBeforeItems c req db).1.ID req.Payments tx
  have hcust : (salePaymentsLoop (saleTxBeforeItems c req db).1.ID req.Payments tx).customers =
      db.customers := hp.2.1.trans (hl.2.1.trans hcust0)
  have hset : (salePaymentsLoop (saleTxBeforeItems c req db).1.ID req.Payments tx).settings =
      db.settings := hp.2.2.trans (hl.2.2.trans hset0)
  have htotal : (saleTxBeforeItems c req db).1.TotalAmount = (buildSale c req).TotalAmount := by
    rw [hsale]
  obtain ⟨after, hafter, hnon, hmem⟩ := updateCustomerStats_find
    (salePaymentsLoop (saleTxBeforeItems c req db).1.ID req.Payments tx) req
    (saleTxBeforeItems c req db).1.TotalAmount cid cust (hcust ▸ hfind)
  refine ⟨after, ?_, hnon, ?_⟩
  · rw [heq]
    exact hafter
  · intro hm hnn hc hok hT hN1 hN2
    have hE : loyaltyEarned (buildSale c req).TotalAmount (minPurchaseForPoints db) < 2 ^ 63 := by
      have hle := loyaltyEarned_le (buildSale c req).TotalAmount (minPurchaseForPoints db)
        (minPurchaseForPoints_pos db)
      rcases le_max_iff.mp hle with h | h <;> omega
    have hpts := CreateSale_accepted_points c req db hok
    have hval := hmem hm hc
    rw [minPurchaseForPoints_congr _ db hset, htotal] at hval
    obtain ⟨hearn, hearn0⟩ := earned_eq_loyaltyEarned (buildSale c req).TotalAmount
      (minPurchaseForPoints db) (minPurchaseForPoints_pos db)
    have hconv : (if (buildSale c req).TotalAmount ≥ minPurchaseForPoints db then
        goIntOfFloat (Int.tdiv (buildSale c req).TotalAmount (minPurchaseForPoints db)) else 0) =
        loyaltyEarned (buildSale c req).TotalAmount (minPurchaseForPoints db) := by
      by_cases hge : (buildSale c req).TotalAmount ≥ minPurchaseForPoints db
      · rw [if_pos hge] at hearn ⊢
        rw [← hearn] at hE hearn0 ⊢
        exact goIntOfFloat_of_range _ (by omega) hE
      · rw [if_neg hge] at hearn ⊢
        exact hearn
    rw [hconv, wrapInt64_of_range _ hN1 hN2] at hval
    have hred : req.PointsRedeemed ≤ 0 ∨ req.PointsRedeemed ≤ cust.LoyaltyPoints := by
      by_cases hpos : req.PointsRedeemed > 0
      · right
        unfold pointsRedemptionOK at hpts
        rw [hc] at hpts
        simp only [hpos, if_true, hfind] at hpts
        simp at hpts
        exact hpts.2
      · left; omega
    refine ⟨hpts, ?_, ?_⟩
    · rw [hval]; omega
    · rw [hval]; rcases hred with h | h <;> omega

/-- C29 amended, at a member holding 10 points who redeems 3 on a sale of total 100 with one
point per 40: the points afterwards are 10 + 2 - 3 = 9. -/
theorem loyalty_points_nonnegative_witness :
    ∃ after, (CreateSale {} exSaleRedeeming exLoyaltyDB).db.customers.find?
        (fun r => r.ID == 1) = some after ∧ after.LoyaltyPoints = 9 := by
  have he : loyaltyEarned (buildSale {} exSaleRedeeming).TotalAmount
      (minPurchaseForPoints exLoyaltyDB) = 2 := by
    have h1 : (buildSale {} exSaleRedeeming).TotalAmount = 100 := by decide
    have h2 : minPurchaseForPoints exLoyaltyDB = 40 := by decide
    rw [h1, h2]
    unfold loyaltyEarned
    norm_num
  obtain ⟨after, hafter, -, hmem⟩ := loyalty_points_nonnegative {} exSaleRedeeming exLoyaltyDB 1
    { ID := 1, IsMember := true, LoyaltyPoints := 10 } (by decide)
  obtain ⟨-, hval, -⟩ := hmem rfl (by decide) rfl (by decide) (by decide)
    (by rw [he]; decide) (by rw [he]; decide)
  refine ⟨after, hafter, ?_⟩
  rw [hval, he]
  decide

theorem ValidateDiscount_ok (c : Ctx) (q : ValidateDiscountQuery) (db : DB)
    (hok : (ValidateDiscount c q db).status = 200) :
    ∃ d, db.discounts.find? (fun d => d.Code == q.code && d.IsActive && !d.Deleted) = some d ∧
      ValidateDiscount c q db =
        { status := 200, discount := some d,
          discount_amount := calculateDiscountAmount d q.amount } := by
  unfold ValidateDiscount at hok ⊢
  by_cases h0 : q.code = ""
  · simp [h0] at hok
  simp only [h0, if_false] at hok ⊢
  cases hf : db.discounts.find? (fun d => d.Code == q.code && d.IsActive && !d.Deleted) with
  | none => simp [hf] at hok
  | some d =>
    simp only [hf] at hok ⊢
    refine ⟨d, rfl, ?_⟩
    split_ifs at hok ⊢ <;> first
      | rfl
      | exact absurd hok (by decide)

theorem F64.lt_irrefl (x : F64) : F64.lt x x = false := by
  cases x with
  | fin q => simp [F64.lt]
  | inf n => cases n <;> rfl
  | nan => rfl

/-! ### C24: discount amount and cap -/

/-- C24 as stated fails: for the discount of 7 % without a cap and the purchase amount 100,
`ValidateDiscount` answers 200 with `discount_amount` 7 + 2^-50 (printed 7.000000000000001),
not 100 * 7 / 100 = 7: the quotient 7 / 100 is rounded to a `float64` before it is multiplied
by 100, and the product is rounded again. -/
theorem discount_amount_is_rounded :
    (ValidateDiscount {} exValidateSeven exSevenPercentDB).status = 200 ∧
      (ValidateDiscount {} exValidateSeven exSevenPercentDB).discount = some exSevenPercent ∧
      (ValidateDiscount {} exValidateSeven exSevenPercentDB).discount_amount =
        F64.fin (7 + 1 / 2 ^ 50) ∧
      (7 + 1 / 2 ^ 50 : ℚ) ≠ 100 * 7 / 100 := by
  refine ⟨by decide, by decide, by decide!, by norm_num⟩

/-- C24 amended. When `ValidateDiscount` accepts a code with purchase amount `a`, it returns an
active discount with that code, and the returned `discount_amount` is, for a percentage
discount, the `float64` product of `a` and the `float64` quotient `discount_value / 100` (each
of the two operations rounded to the nearest `float64`; it is `a * discount_value / 100`
whenever neither operation rounds), and `discount_value` for a fixed discount; it is replaced
by `max_discount` when `max_discount > 0` and the computed amount exceeds it. With
`max_discount = 0` the computed amount is returned, and with `max_discount > 0` the returned
amount does not exceed `max_discount`. -/
theorem discount_amount_and_cap (c : Ctx) (q : ValidateDiscountQuery) (db : DB) (a : F64)
    (ha : q.amount = some a) (hok : (ValidateDiscount c q db).status = 200) :
    ∃ d, (ValidateDiscount c q db).discount = some d ∧ d ∈ db.discounts ∧
      d.Code = q.code ∧ d.IsActive = true ∧
      (ValidateDiscount c q db).discount_amount =
        (if F64.lt 0 d.MaxDiscount = true ∧
            F64.lt d.MaxDiscount (uncappedDiscountAmount d a) = true then d.MaxDiscount
          else uncappedDiscountAmount d a) ∧
      (d.DiscountType = "percentage" → ∀ x y : ℚ, a = F64.fin y → d.DiscountValue = F64.fin x →
        F64.round (x / 100) = F64.fin (x / 100) →
        F64.round (y * (x / 100)) = F64.fin (y * (x / 100)) →
        uncappedDiscountAmount d a = F64.fin (y * x / 100)) ∧
      (d.MaxDiscount = 0 →
        (ValidateDiscount c q db).discount_amount = uncappedDiscountAmount d a) ∧
      (F64.lt 0 d.MaxDiscount = true →
        F64.lt d.MaxDiscount (ValidateDiscount c q db).discount_amount = false) := by
  obtain ⟨d, hfind, heq⟩ := ValidateDiscount_ok c q db hok
  have hp := List.find?_some hfind
  simp only [Bool.and_eq_true, beq_iff_eq] at hp
  have hcalc : calculateDiscountAmount d q.amount =
      (if F64.lt 0 d.MaxDiscount = true ∧
          F64.lt d.MaxDiscount (uncappedDiscountAmount d a) = true then d.MaxDiscount
        else uncappedDiscountAmount d a) := by
    rw [ha]
    rfl
  refine ⟨d, ?_, List.mem_of_find?_eq_some hfind, hp.1.1, hp.1.2, ?_, ?_, ?_, ?_⟩
  · rw [heq]
  · rw [heq]; exact hcalc
  · intro ht x y hy hx h1 h2
    have h100 : (100 : F64) = F64.fin 100 := by
      show F64.fin ((100 : Nat) : ℚ) = F64.fin 100
      norm_num
    have hne : (100 : ℚ) ≠ 0 := by norm_num
    unfold uncappedDiscountAmount
    rw [if_pos ht, hy, hx, h100]
    simp only [F64.div, if_neg hne, h1, F64.mul, h2]
    congr 1
    ring
  · intro h0
    rw [heq]
    show calculateDiscountAmount d q.amount = _
    rw [hcalc, if_neg]
    intro h
    rw [h0, F64.lt_irrefl] at h
    exact absurd h.1 (by decide)
  · intro hpos
    rw [heq]
    show F64.lt d.MaxDiscount (calculateDiscountAmount d q.amount) = false
    rw [hcalc]
    by_cases hgt : F64.lt d.MaxDiscount (uncappedDiscountAmount d a) = true
    · rw [if_pos ⟨hpos, hgt⟩]
      exact F64.lt_irrefl _
    · rw [if_neg (fun h => hgt h.2)]
      simpa using hgt

/-- C24 amended, at a 10 % discount capped at 15 and a purchase of 200: the computed 20 is
replaced by the cap 15. -/
theorem discount_amount_and_cap_witness :
    (ValidateDiscount {} exValidateTen exCappedDiscountDB).discount_amount = F64.fin 15 := by
  obtain ⟨d, hd, -, -, -, hamount, -, -, -⟩ := discount_amount_and_cap {} exValidateTen
    exCappedDiscountDB 200 rfl (by decide)
  have hd1 : d = exTenPercent := by
    have h2 : (ValidateDiscount {} exValidateTen exCappedDiscountDB).discount =
        some exTenPercent := by decide
    rw [h2] at hd
    exact (Option.some.inj hd).symm
  subst hd1
  rw [hamount]
  decide!

theorem find?_congr_of_mem {α : Type} (p q : α → Bool) (t : List α)
    (h : ∀ r ∈ t, p r = q r) : t.find? p = t.find? q := by
  induction t with
  | nil => rfl
  | cons a rest ih =>
    simp only [List.find?_cons, h a (List.mem_cons_self _ _)]
    rw [ih (fun r hr => h r (List.mem_cons_of_mem _ hr))]

theorem find?_and_of_first {α : Type} (p c : α → Bool) (t : List α)
    (h : ∀ r, t.find? p = some r → c r = true) :
    t.find? (fun r => p r && c r) = t.find? p := by
  induction t with
  | nil => rfl
  | cons a rest ih =>
    simp only [List.find?_cons] at h ⊢
    cases hpa : p a with
    | true =>
      simp only [hpa] at h
      simp [h a rfl]
    | false =>
      simp only [hpa] at h
      simpa using ih h

theorem firstInventory_eq_record (t : List Inventory) (p : Nat) (v : Option Nat) (w : Nat)
    (h : warehouseKeyExact t p v w) :
    firstInventory t { ProductID := p, ProductVariantID := v, WarehouseID := w } =
      warehouseRecord t p v w := by
  obtain ⟨hp, hw, hv⟩ := h
  have hp0 : (p == 0) = false := by simpa using hp
  have hl0 : (w == 0) = false := by simpa using hw
  unfold firstInventory warehouseRecord
  cases v with
  | some x =>
    apply find?_congr_of_mem
    intro r _
    simp [Inventory.matchesWhere, condUint, condPtr, condNum, hp0, hl0]
  | none =>
    have hfirst : ∀ r, t.find? (fun r => r.ProductID == p && r.WarehouseID == w) = some r →
        (r.ProductVariantID == none) = true := by
      intro r hr
      have := hv rfl
      rw [hr] at this
      simpa using this
    have h1 := find?_and_of_first (fun r : Inventory => r.ProductID == p && r.WarehouseID == w)
      (fun r => r.ProductVariantID == none) t hfirst
    have h2 : t.find? (fun r => Inventory.matchesWhere
        { ProductID := p, ProductVariantID := none, WarehouseID := w } r) =
        t.find? (fun r => r.ProductID == p && r.WarehouseID == w) := by
      apply find?_congr_of_mem
      intro r _
      simp [Inventory.matchesWhere, condUint, condPtr, condNum, hp0, hl0]
    have h3 : t.find? (fun r => r.ProductID == p && r.ProductVariantID == none &&
        r.WarehouseID == w) =
        t.find? (fun r => (r.ProductID == p && r.WarehouseID == w) &&
          (r.ProductVariantID == none)) := by
      apply find?_congr_of_mem
      intro r _
      cases (r.ProductID == p) <;> cases (r.ProductVariantID == none) <;>
        cases (r.WarehouseID == w) <;> rfl
    rw [h2, h3, h1]

theorem firstStoreInventory_eq_record (t : List StoreInventory) (p : Nat) (v : Option Nat)
    (s : Nat) (h : storeKeyExact t p v s) :
    firstStoreInventory t { ProductID := p, ProductVariantID := v, StoreID := s } =
      storeRecord t p v s := by
  obtain ⟨hp, hs, hv⟩ := h
  have hp0 : (p == 0) = false := by simpa using hp
  have hl0 : (s == 0) = false := by simpa using hs
  unfold firstStoreInventory storeRecord
  cases v with
  | some x =>
    apply find?_congr_of_mem
    intro r _
    simp [StoreInventory.matchesWhere, condUint, condPtr, condNum, hp0, hl0]
  | none =>
    have hfirst : ∀ r, t.find? (fun r => r.ProductID == p && r.StoreID == s) = some r →
        (r.ProductVariantID == none) = true := by
      intro r hr
      have := hv rfl
      rw [hr] at this
      simpa using this
    have h1 := find?_and_of_first
      (fun r : StoreInventory => r.ProductID == p && r.StoreID == s)
      (fun r => r.ProductVariantID == none) t hfirst
    have h2 : t.find? (fun r => StoreInventory.matchesWhere
        { ProductID := p, ProductVariantID := none, StoreID := s } r) =
        t.find? (fun r => r.ProductID == p && r.StoreID == s) := by
      apply find?_congr_of_mem
      intro r _
      simp [StoreInventory.matchesWhere, condUint, condPtr, condNum, hp0, hl0]
    have h3 : t.find? (fun r => r.ProductID == p && r.ProductVariantID == none &&
        r.StoreID == s) =
        t.find? (fun r => (r.ProductID == p && r.StoreID == s) &&
          (r.ProductVariantID == none)) := by
      apply find?_congr_of_mem
      intro r _
      cases (r.ProductID == p) <;> cases (r.ProductVariantID == none) <;>
        cases (r.StoreID == s) <;> rfl
    rw [h2, h3, h1]

theorem warehouseKeyExact_firstOrCreate (t : List Inventory) (p : Nat) (v : Option Nat)
    (w : Nat) (h : warehouseKeyExact t p v w) :
    warehouseKeyExact
      (firstOrCreateInventory t { ProductID := p, ProductVariantID := v, WarehouseID := w }).2
      p v w := by
  unfold firstOrCreateInventory
  cases hf : firstInventory t { ProductID := p, ProductVariantID := v, WarehouseID := w } with
  | some r => exact h
  | none =>
    refine ⟨h.1, h.2.1, ?_⟩
    intro hv
    have h0 := h.2.2 hv
    subst hv
    simp only [List.find?_append]
    cases hq : t.find? (fun r => r.ProductID == p && r.WarehouseID == w) with
    | some r =>
      rw [hq] at h0
      simpa using h0
    | none =>
      simp only [List.find?_cons, List.find?_nil, Option.none_or]
      split <;> rfl

theorem storeKeyExact_firstOrCreate (t : List StoreInventory) (p : Nat) (v : Option Nat)
    (s : Nat) (h : storeKeyExact t p v s) :
    storeKeyExact
      (firstOrCreateStoreInventory t { ProductID := p, ProductVariantID := v, StoreID := s }).2
      p v s := by
  unfold firstOrCreateStoreInventory
  cases hf : firstStoreInventory t { ProductID := p, ProductVariantID := v, StoreID := s } with
  | some r => exact h
  | none =>
    refine ⟨h.1, h.2.1, ?_⟩
    intro hv
    have h0 := h.2.2 hv
    subst hv
    simp only [List.find?_append]
    cases hq : t.find? (fun r => r.ProductID == p && r.StoreID == s) with
    | some r =>
      rw [hq] at h0
      simpa using h0
    | none =>
      simp only [List.find?_cons, List.find?_nil, Option.none_or]
      split <;> rfl

theorem warehouseRecord_save (t : List Inventory) (p : Nat) (v : Option Nat) (w : Nat)
    (a : Inventory) (n : Int) (h : warehouseRecord t p v w = some a) :
    warehouseRecord (saveInventory t { a with Quantity := n }) p v w =
      some { a with Quantity := n } := by
  have hm := List.find?_some h
  unfold warehouseRecord saveInventory
  exact find?_save_same (fun r : Inventory => r.ID) _ t a { a with Quantity := n } h hm

theorem storeRecord_save (t : List StoreInventory) (p : Nat) (v : Option Nat) (s : Nat)
    (a : StoreInventory) (n : Int) (h : storeRecord t p v s = some a) :
    storeRecord (saveStoreInventory t { a with Quantity := n }) p v s =
      some { a with Quantity := n } := by
  have hm := List.find?_some h
  unfold storeRecord saveStoreInventory
  exact find?_save_same (fun r : StoreInventory => r.ID) _ t a { a with Quantity := n } h hm

/-! ### C3: sale stock deduction -/

/-- C3 as stated fails: store 1 holds product 1 as variant 7 (50) and without a variant (50).
A sale line of 20 of product 1 without a variant succeeds, but the balance of its key
(product 1, no variant, store 1) is still 50 afterwards, and another record, that of variant 7,
went from 50 to 30. -/
theorem sale_line_deducts_another_variant :
    exLine20.ProductVariantID = none ∧
      storeRecord exTwoVariantStoreDB.store_inventories 1 none 1 =
        some { ID := 2, ProductID := 1, StoreID := 1, Quantity := 50 } ∧
      (updateInventoryForSale exTwoVariantStoreDB 1 exLine20 1).2 = none ∧
      storeRecord (updateInventoryForSale exTwoVariantStoreDB 1 exLine20 1).1.store_inventories
          1 none 1 = some { ID := 2, ProductID := 1, StoreID := 1, Quantity := 50 } ∧
      (updateInventoryForSale exTwoVariantStoreDB 1 exLine20 1).1.store_inventories =
        [{ ID := 1, ProductID := 1, ProductVariantID := some 7, StoreID := 1, Quantity := 30 },
         { ID := 2, ProductID := 1, StoreID := 1, Quantity := 50 }] := by
  decide

/-- C3 amended. For a sale line asking `q` whose key (product, variant, store) cannot be
mistaken by the lookup (non-zero ids; for a line without a variant, the first balance record
of the product at the store has no variant) and the balance record `inv` of that key, with
`q ≤ inv.Quantity`:
`updateInventoryForSale` returns no error, the record of the key afterwards is `inv` with
quantity `inv.Quantity - q`, the store balances are the former ones with that one row replaced,
and the warehouse balances are untouched. Primary keys are distinct. -/
theorem sale_deducts_keyed_record (tx : DB) (storeID : Nat) (item : SaleItem)
    (userID : Nat) (inv : StoreInventory)
    (hnd : (tx.store_inventories.map (fun r => r.ID)).Nodup)
    (hexact : storeKeyExact tx.store_inventories item.ProductID item.ProductVariantID storeID)
    (hrec : storeRecord tx.store_inventories item.ProductID item.ProductVariantID storeID
      = some inv)
    (hq : item.Quantity ≤ inv.Quantity) :
    (updateInventoryForSale tx storeID item userID).2 = none ∧
      storeRecord (updateInventoryForSale tx storeID item userID).1.store_inventories
          item.ProductID item.ProductVariantID storeID =
        some { inv with Quantity := inv.Quantity - item.Quantity } ∧
      (∃ i : Nat, tx.store_inventories[i]? = some inv ∧
        (updateInventoryForSale tx storeID item userID).1.store_inventories =
          tx.store_inventories.set i { inv with Quantity := inv.Quantity - item.Quantity }) ∧
      (updateInventoryForSale tx storeID item userID).1.inventories = tx.inventories := by
  have hfind := (firstStoreInventory_eq_record _ _ _ _ hexact).trans hrec
  obtain ⟨h1, h2, h3⟩ := updateInventoryForSale_deducts tx storeID item userID inv hnd hfind hq
  refine ⟨h1, ?_, h2, h3⟩
  have hnlt : ¬ inv.Quantity < item.Quantity := not_lt.mpr hq
  simp only [updateInventoryForSale, hfind, if_neg hnlt, createTransaction,
    DB.writeStoreInventory]
  exact storeRecord_save _ _ _ _ inv _ hrec

/-- C3 amended, at the balance of 50 and a line of 20: the balance of the key becomes 30. -/
theorem sale_deducts_keyed_record_witness :
    (updateInventoryForSale exDB 1 exLine20 1).2 = none ∧
      storeRecord (updateInventoryForSale exDB 1 exLine20 1).1.store_inventories 1 none 1 =
        some { ID := 1, ProductID := 1, StoreID := 1, Quantity := 30 } ∧
      (∃ i : Nat, exDB.store_inventories[i]? =
          some { ID := 1, ProductID := 1, StoreID := 1, Quantity := 50 } ∧
        (updateInventoryForSale exDB 1 exLine20 1).1.store_inventories =
          exDB.store_inventories.set i { ID := 1, ProductID := 1, StoreID := 1, Quantity := 30 }) ∧
      (updateInventoryForSale exDB 1 exLine20 1).1.inventories = exDB.inventories :=
  sale_deducts_keyed_record exDB 1 exLine20 1
    { ID := 1, ProductID := 1, StoreID := 1, Quantity := 50 } (by decide) (by decide)
    (by decide) (by decide)

/-! ### C4: insufficient stock -/

/-- C4 as stated fails: store 1 holds product 1 only as variant 7 (50). For a sale line of 20
of product 1 without a variant the balance record of the key (product 1, no variant, store 1)
is missing, yet `updateInventoryForSale` returns no error; it deducts the variant's record. -/
theorem sale_line_without_record_succeeds :
    exLine20.ProductVariantID = none ∧
      storeRecord exVariantStoreDB.store_inventories 1 none 1 = none ∧
      (updateInventoryForSale exVariantStoreDB 1 exLine20 1).2 = none ∧
      (updateInventoryForSale exVariantStoreDB 1 exLine20 1).1.store_inventories =
        [{ ID := 1, ProductID := 1, ProductVariantID := some 7, StoreID := 1,
           Quantity := 30 }] := by
  decide

/-- C4 amended. For a sale line asking `q` whose key (product, variant, store) cannot be
mistaken by the lookup (non-zero ids; for a line without a variant, the first balance record
of the product at the store, if any, has no variant): `updateInventoryForSale` returns an error
exactly when the balance
record of the key is missing or holds less than `q`; the error is the insufficient-stock one
exactly in the second case; and whenever an error is returned the transaction state is the one
the call started from (balance as before, no ledger entry). -/
theorem sale_error_iff_keyed_record (tx : DB) (storeID : Nat) (item : SaleItem)
    (userID : Nat)
    (hexact : storeKeyExact tx.store_inventories item.ProductID item.ProductVariantID
      storeID) :
    ((updateInventoryForSale tx storeID item userID).2 ≠ none ↔
      (storeRecord tx.store_inventories item.ProductID item.ProductVariantID storeID = none ∨
        ∃ inv, storeRecord tx.store_inventories item.ProductID item.ProductVariantID storeID
          = some inv ∧ inv.Quantity < item.Quantity)) ∧
    ((∃ p a r, (updateInventoryForSale tx storeID item userID).2 =
        some (InvError.insufficient p a r)) ↔
      ∃ inv, storeRecord tx.store_inventories item.ProductID item.ProductVariantID storeID
        = some inv ∧ inv.Quantity < item.Quantity) ∧
    ((updateInventoryForSale tx storeID item userID).2 ≠ none →
      (updateInventoryForSale tx storeID item userID).1 = tx ∧
      (updateInventoryForSale tx storeID item userID).1.inventory_transactions =
        tx.inventory_transactions) := by
  have hfind := firstStoreInventory_eq_record _ _ _ _ hexact
  obtain ⟨h1, h2, h3⟩ := updateInventoryForSale_error_iff tx storeID item userID
  rw [hfind] at h1 h2
  exact ⟨h1, h2, fun h => ⟨h3 h, by rw [h3 h]⟩⟩

/-- C4 amended, at the balance of 50 and a line of 60: the insufficient-stock error is
returned and nothing is changed. -/
theorem sale_error_iff_keyed_record_witness :
    (∃ p a r, (updateInventoryForSale exDB 1 exLine60 1).2 =
        some (InvError.insufficient p a r)) ∧
      (updateInventoryForSale exDB 1 exLine60 1).1 = exDB :=
  have h := sale_error_iff_keyed_record exDB 1 exLine60 1 (by decide)
  have hins := h.2.1.mpr ⟨{ ID := 1, ProductID := 1, StoreID := 1, Quantity := 50 },
    by decide, by decide⟩
  ⟨hins, (h.2.2 (h.1.mpr (Or.inr ⟨{ ID := 1, ProductID := 1, StoreID := 1, Quantity := 50 },
    by decide, by decide⟩))).1⟩

theorem keyedBalance_warehouse_eq (db : DB) (p : Nat) (v : Option Nat) (w : Nat)
    (h : warehouseKeyExact db.inventories p v w) :
    keyedBalance db (Location.warehouse w) p v = balanceAt db (Location.warehouse w) p v := by
  simp only [keyedBalance, balanceAt, warehouseBalance]
  rw [← firstInventory_eq_record _ _ _ _ h]

theorem keyedBalance_store_eq (db : DB) (p : Nat) (v : Option Nat) (s : Nat)
    (h : storeKeyExact db.store_inventories p v s) :
    keyedBalance db (Location.store s) p v = balanceAt db (Location.store s) p v := by
  simp only [keyedBalance, balanceAt, storeBalance]
  rw [← firstStoreInventory_eq_record _ _ _ _ h]

theorem warehouseRecord_firstOrCreate_save (t : List Inventory) (p : Nat) (v : Option Nat)
    (w : Nat) (n : Int) (h : warehouseKeyExact t p v w) :
    warehouseRecord
      (saveInventory
        (firstOrCreateInventory t { ProductID := p, ProductVariantID := v, WarehouseID := w }).2
        { (firstOrCreateInventory t
            { ProductID := p, ProductVariantID := v, WarehouseID := w }).1 with Quantity := n })
      p v w =
    some { (firstOrCreateInventory t
      { ProductID := p, ProductVariantID := v, WarehouseID := w }).1 with Quantity := n } := by
  have hex := warehouseKeyExact_firstOrCreate t p v w h
  obtain ⟨hfind, -⟩ := firstOrCreateInventory_found t
    { ProductID := p, ProductVariantID := v, WarehouseID := w } rfl rfl
  rw [firstInventory_eq_record _ _ _ _ hex] at hfind
  exact warehouseRecord_save _ _ _ _ _ n hfind

theorem storeRecord_firstOrCreate_save (t : List StoreInventory) (p : Nat) (v : Option Nat)
    (s : Nat) (n : Int) (h : storeKeyExact t p v s) :
    storeRecord
      (saveStoreInventory
        (firstOrCreateStoreInventory t
          { ProductID := p, ProductVariantID := v, StoreID := s }).2
        { (firstOrCreateStoreInventory t
            { ProductID := p, ProductVariantID := v, StoreID := s }).1 with Quantity := n })
      p v s =
    some { (firstOrCreateStoreInventory t
      { ProductID := p, ProductVariantID := v, StoreID := s }).1 with Quantity := n } := by
  have hex := storeKeyExact_firstOrCreate t p v s h
  obtain ⟨hfind, -⟩ := firstOrCreateStoreInventory_found t
    { ProductID := p, ProductVariantID := v, StoreID := s } rfl rfl
  rw [firstStoreInventory_eq_record _ _ _ _ hex] at hfind
  exact storeRecord_save _ _ _ _ _ n hfind

theorem receiveLine_keyed (po : PurchaseOrder) (poItem : PurchaseOrderItem)
    (line : ReceiveItem) (userID : Nat) (tx : DB)
    (h : warehouseKeyExact tx.inventories poItem.ProductID poItem.ProductVariantID
      po.WarehouseID) :
    keyedBalance (receiveLine po poItem line userID tx) (Location.warehouse po.WarehouseID)
        poItem.ProductID poItem.ProductVariantID =
      keyedBalance tx (Location.warehouse po.WarehouseID) poItem.ProductID
        poItem.ProductVariantID + line.QuantityReceived := by
  rw [keyedBalance_warehouse_eq tx _ _ _ h]
  obtain ⟨-, hqty⟩ := firstOrCreateInventory_found tx.inventories
    { ProductID := poItem.ProductID, WarehouseID := po.WarehouseID,
      ProductVariantID := poItem.ProductVariantID } rfl rfl
  have hrec := warehouseRecord_firstOrCreate_save tx.inventories poItem.ProductID
    poItem.ProductVariantID po.WarehouseID
    ((firstOrCreateInventory tx.inventories
      { ProductID := poItem.ProductID, WarehouseID := po.WarehouseID,
        ProductVariantID := poItem.ProductVariantID }).1.Quantity + line.QuantityReceived) h
  simp only [keyedBalance, balanceAt, receiveLine, createTransaction, DB.writeInventory]
  rw [hrec, hqty]

/-! ### C9: manual adjustment -/

/-- C9 as stated fails: warehouse 1 holds product 1 only as variant 7 (100). An adjustment of
product 1 without a variant to the target 80 is answered 200; the balance of the request's key
(product 1, no variant, warehouse 1) is 0 before (no record) and still 0 afterwards, not 80,
and the entry logged has quantity -20, not 80 - 0. -/
theorem adjustment_misses_keyed_record :
    exAdjustTo80.ProductVariantID = none ∧
      warehouseRecord exVariantDB.inventories 1 none 1 = none ∧
      keyedBalance exVariantDB (Location.warehouse 1) 1 none = 0 ∧
      (AdjustInventory {} exAdjustTo80 exVariantDB).status = 200 ∧
      keyedBalance (AdjustInventory {} exAdjustTo80 exVariantDB).db (Location.warehouse 1) 1 none
        = 0 ∧
      (AdjustInventory {} exAdjustTo80 exVariantDB).db.inventory_transactions.map
        (fun e => (e.TransactionType, e.Quantity)) = [("adjustment", -20)] := by
  decide

/-- C9 amended. For a valid adjustment request with target quantity `t` whose key (product,
variant, warehouse) cannot be mistaken by the lookup (for a request without a variant, the
first balance record of the product at the warehouse, if any, has no variant),
`AdjustInventory` answers 200, the balance of
the key afterwards is exactly `t`, and exactly one ledger entry is appended: of kind
adjustment, with quantity `t - old` where `old` is the balance of the key before the call (0
when it had no record), and with the supplied reason as its notes. `AdjustStoreInventory` does
the same on the store balances. -/
theorem adjust_sets_keyed_target (c : Ctx) (db : DB) (req : AdjustInventoryRequest)
    (reqS : AdjustStoreInventoryRequest) (hreq : req.bindOK = true)
    (hreqS : reqS.bindOK = true)
    (hexact : warehouseKeyExact db.inventories req.ProductID req.ProductVariantID
      req.WarehouseID)
    (hexactS : storeKeyExact db.store_inventories reqS.ProductID reqS.ProductVariantID
      reqS.StoreID) :
    ((AdjustInventory c req db).status = 200 ∧
      keyedBalance (AdjustInventory c req db).db (Location.warehouse req.WarehouseID)
        req.ProductID req.ProductVariantID = req.Quantity ∧
      ∃ e, (AdjustInventory c req db).db.inventory_transactions =
          db.inventory_transactions ++ [e] ∧
        e.TransactionType = "adjustment" ∧ e.Notes = req.Reason ∧
        e.Quantity = req.Quantity - keyedBalance db (Location.warehouse req.WarehouseID)
          req.ProductID req.ProductVariantID) ∧
    ((AdjustStoreInventory c reqS db).status = 200 ∧
      keyedBalance (AdjustStoreInventory c reqS db).db (Location.store reqS.StoreID)
        reqS.ProductID reqS.ProductVariantID = reqS.Quantity ∧
      ∃ e, (AdjustStoreInventory c reqS db).db.inventory_transactions =
          db.inventory_transactions ++ [e] ∧
        e.TransactionType = "adjustment" ∧ e.Notes = reqS.Reason ∧
        e.Quantity = reqS.Quantity - keyedBalance db (Location.store reqS.StoreID)
          reqS.ProductID reqS.ProductVariantID) := by
  obtain ⟨⟨h1, -, h3⟩, ⟨k1, -, k3⟩⟩ := adjust_sets_target c db req reqS hreq hreqS
  rw [keyedBalance_warehouse_eq db _ _ _ hexact, keyedBalance_store_eq db _ _ _ hexactS]
  refine ⟨⟨h1, ?_, h3⟩, ⟨k1, ?_, k3⟩⟩
  · have hb : (req.bindOK = false) = False := by simp [hreq]
    have hrec := warehouseRecord_firstOrCreate_save db.inventories req.ProductID
      req.ProductVariantID req.WarehouseID req.Quantity hexact
    simp only [AdjustInventory, hb, if_false, createTransaction, DB.writeInventory,
      keyedBalance, AdjustInventoryRequest.cond]
    rw [hrec]
  · have hb : (reqS.bindOK = false) = False := by simp [hreqS]
    have hrec := storeRecord_firstOrCreate_save db.store_inventories reqS.ProductID
      reqS.ProductVariantID reqS.StoreID reqS.Quantity hexactS
    simp only [AdjustStoreInventory, hb, if_false, createTransaction, DB.writeStoreInventory,
      keyedBalance, AdjustStoreInventoryRequest.cond]
    rw [hrec]

/-- C9 amended, at the adjustment of product 1 in warehouse 1 from 100 to 80 with reason
"damage" (the entry logged carries -20) and of the store balance from 50 to 80. -/
theorem adjust_sets_keyed_target_witness :
    (keyedBalance exDB (Location.warehouse 1) 1 none = 100 ∧
      keyedBalance exDB (Location.store 1) 1 none = 50) ∧
    (((AdjustInventory {} exAdjustTo80 exDB).status = 200 ∧
      keyedBalance (AdjustInventory {} exAdjustTo80 exDB).db (Location.warehouse 1) 1 none = 80 ∧
      ∃ e, (AdjustInventory {} exAdjustTo80 exDB).db.inventory_transactions =
          exDB.inventory_transactions ++ [e] ∧
        e.TransactionType = "adjustment" ∧ e.Notes = "damage" ∧
        e.Quantity = 80 - keyedBalance exDB (Location.warehouse 1) 1 none) ∧
    ((AdjustStoreInventory {} exAdjustStoreTo80 exDB).status = 200 ∧
      keyedBalance (AdjustStoreInventory {} exAdjustStoreTo80 exDB).db (Location.store 1) 1 none
        = 80 ∧
      ∃ e, (AdjustStoreInventory {} exAdjustStoreTo80 exDB).db.inventory_transactions =
          exDB.inventory_transactions ++ [e] ∧
        e.TransactionType = "adjustment" ∧ e.Notes = "damage" ∧
        e.Quantity = 80 - keyedBalance exDB (Location.store 1) 1 none)) :=
  ⟨by decide, adjust_sets_keyed_target {} exDB exAdjustTo80 exAdjustStoreTo80 (by decide)
    (by decide) (by decide) (by decide)⟩

/-! ### C10: purchase receipt -/

/-- C10 as stated fails: order 1 is for product 2 without a variant, and warehouse 1 holds
product 2 only as variant 7 (100). Receiving 100 is answered 200; the balance of the item's key
(product 2, no variant, warehouse 1) is 0 before (no record) and still 0 afterwards: no record
is created for it, and the variant's record went from 100 to 200. -/
theorem receipt_misses_keyed_record :
    exVariantReceiveDB.purchase_order_items.map (fun it => (it.ProductID, it.ProductVariantID))
        = [(2, none)] ∧
      keyedBalance exVariantReceiveDB (Location.warehouse 1) 2 none = 0 ∧
      (ReceivePurchaseOrder {} 1 exReceive100 exVariantReceiveDB).status = 200 ∧
      keyedBalance (ReceivePurchaseOrder {} 1 exReceive100 exVariantReceiveDB).db
        (Location.warehouse 1) 2 none = 0 ∧
      (ReceivePurchaseOrder {} 1 exReceive100 exVariantReceiveDB).db.inventories =
        [{ ID := 1, ProductID := 2, ProductVariantID := some 7, WarehouseID := 1,
           Quantity := 200 }] := by
  decide

/-- C10 amended. For a purchase order `po` in a receivable status (draft or pending) at
warehouse `W` and a request line receiving `r > 0` of the order's item `poItem`, whose key
(product, variant, `W`) cannot be mistaken by the lookup (non-zero ids; for an item without a
variant, the first balance record of the product at `W`, if any, has no variant): a request
made of that line is
answered 200, the balance of the key rises by exactly `r` (from 0 when it had no record, the
record being created first), and exactly one ledger entry is appended, of kind in, with
quantity `r`, the item's unit cost, and reference kind purchase with the order's id. The same
holds for the line's pass through the item loop from any transaction state in which the key
cannot be mistaken, which is how each line of a longer request is processed. -/
theorem receive_raises_keyed_balance (c : Ctx) (id : Nat) (db : DB) (po : PurchaseOrder)
    (poItem : PurchaseOrderItem) (line : ReceiveItem)
    (hpo : db.purchase_orders.find? (fun p => p.ID == id) = some po)
    (hst : po.Status = "draft" ∨ po.Status = "pending")
    (hitem : (db.purchase_order_items.filter (fun it => it.PurchaseOrderID == po.ID)).find?
      (fun item => item.ID == line.ItemID) = some poItem)
    (hid : line.ItemID ≠ 0) (hr : 0 < line.QuantityReceived)
    (hexact : warehouseKeyExact db.inventories poItem.ProductID poItem.ProductVariantID
      po.WarehouseID) :
    ((ReceivePurchaseOrder c id [line] db).status = 200 ∧
      keyedBalance (ReceivePurchaseOrder c id [line] db).db (Location.warehouse po.WarehouseID)
          poItem.ProductID poItem.ProductVariantID =
        keyedBalance db (Location.warehouse po.WarehouseID) poItem.ProductID
          poItem.ProductVariantID + line.QuantityReceived ∧
      ∃ e, (ReceivePurchaseOrder c id [line] db).db.inventory_transactions =
          db.inventory_transactions ++ [e] ∧
        e.ProductID = poItem.ProductID ∧ e.ProductVariantID = poItem.ProductVariantID ∧
        e.LocationType = "warehouse" ∧ e.LocationID = po.WarehouseID ∧
        e.TransactionType = "in" ∧ e.Quantity = line.QuantityReceived ∧
        e.UnitCost = poItem.UnitCost ∧ e.ReferenceType = "purchase" ∧
        e.ReferenceID = some po.ID) ∧
    ∀ tx rest,
      warehouseKeyExact tx.inventories poItem.ProductID poItem.ProductVariantID
        po.WarehouseID →
      receiveLoop po (db.purchase_order_items.filter (fun it => it.PurchaseOrderID == po.ID))
          (userIDOf c) (line :: rest) tx =
        receiveLoop po (db.purchase_order_items.filter (fun it => it.PurchaseOrderID == po.ID))
          (userIDOf c) rest (receiveLine po poItem line (userIDOf c) tx) ∧
      keyedBalance (receiveLine po poItem line (userIDOf c) tx)
          (Location.warehouse po.WarehouseID) poItem.ProductID poItem.ProductVariantID =
        keyedBalance tx (Location.warehouse po.WarehouseID) poItem.ProductID
          poItem.ProductVariantID + line.QuantityReceived ∧
      ∃ e, (receiveLine po poItem line (userIDOf c) tx).inventory_transactions =
          tx.inventory_transactions ++ [e] ∧
        e.ProductID = poItem.ProductID ∧ e.ProductVariantID = poItem.ProductVariantID ∧
        e.LocationType = "warehouse" ∧ e.LocationID = po.WarehouseID ∧
        e.TransactionType = "in" ∧ e.Quantity = line.QuantityReceived ∧
        e.UnitCost = poItem.UnitCost ∧ e.ReferenceType = "purchase" ∧
        e.ReferenceID = some po.ID := by
  obtain ⟨⟨h1, -, h3⟩, hloop⟩ := receive_line_effect c id db po poItem line hpo hst hitem hid hr
  refine ⟨⟨h1, ?_, h3⟩, ?_⟩
  · have hbind : ([line].all ReceiveItem.bindOK = false) = False := by
      simp [ReceiveItem.bindOK, hid, hr]
    have hstat : (po.Status ≠ "draft" ∧ po.Status ≠ "pending") = False := by
      simp only [eq_iff_iff, iff_false, not_and, not_not]
      intro h
      rcases hst with h' | h'
      · exact absurd h' h
      · exact h'
    have hout : (ReceivePurchaseOrder c id [line] db).db.inventories =
        (receiveLine po poItem line (userIDOf c) db).inventories := by
      simp only [ReceivePurchaseOrder, hbind, if_false, hpo, hstat, receiveLoop, hitem]
    have hkey : keyedBalance (ReceivePurchaseOrder c id [line] db).db
        (Location.warehouse po.WarehouseID) poItem.ProductID poItem.ProductVariantID =
        keyedBalance (receiveLine po poItem line (userIDOf c) db)
          (Location.warehouse po.WarehouseID) poItem.ProductID poItem.ProductVariantID := by
      simp only [keyedBalance, hout]
    rw [hkey]
    exact receiveLine_keyed po poItem line (userIDOf c) db hexact
  · intro tx rest hex
    obtain ⟨k1, -, k3⟩ := hloop tx rest
    exact ⟨k1, receiveLine_keyed po poItem line (userIDOf c) tx hex, k3⟩

/-- C10 amended, at the first receipt of 100 of product 2 into warehouse 1, where the key had
no record: the balance of the key goes from 0 to 100 and one entry of kind in is logged. -/
theorem receive_raises_keyed_balance_witness :
    (keyedBalance exDB (Location.warehouse 1) 2 none = 0 ∧
      keyedBalance (ReceivePurchaseOrder {} 1 exReceive100 exDB).db (Location.warehouse 1) 2 none
        = 100) ∧
    (ReceivePurchaseOrder {} 1 exReceive100 exDB).status = 200 ∧
    ∃ e, (ReceivePurchaseOrder {} 1 exReceive100 exDB).db.inventory_transactions =
        exDB.inventory_transactions ++ [e] ∧
      e.ProductID = 2 ∧ e.ProductVariantID = none ∧
      e.LocationType = "warehouse" ∧ e.LocationID = 1 ∧
      e.TransactionType = "in" ∧ e.Quantity = 100 ∧
      e.UnitCost = 3 ∧ e.ReferenceType = "purchase" ∧ e.ReferenceID = some 1 :=
  have h := (receive_raises_keyed_balance {} 1 exDB
    { ID := 1, PurchaseNumber := "PO-1", WarehouseID := 1, Status := "draft" }
    { ID := 1, PurchaseOrderID := 1, ProductID := 2, QuantityOrdered := 100, UnitCost := 3 }
    { ItemID := 1, QuantityReceived := 100 }
    (by decide) (by decide) (by decide) (by decide) (by decide) (by decide)).1
  ⟨by decide, h.1, h.2.2⟩

theorem PairedUpToLookup.exact {w : BalanceWrite} {e : InventoryTransaction}
    (h : PairedUpToLookup w e) (hp : e.ProductID ≠ 0) (hl : e.LocationID ≠ 0)
    (hv : e.ProductVariantID ≠ none) : Paired w e := by
  obtain ⟨h1, h2, h3, h4, h5⟩ := h
  refine ⟨h1 hp, ?_, h3, h4 hl, h5⟩
  cases hx : e.ProductVariantID with
  | none => exact absurd hx hv
  | some v => exact (h2 v hx).symm

theorem CreateStockTransfer_missing_endpoint (c : Ctx) (req : CreateStockTransferRequest)
    (db : DB)
    (h : foreignKeyOK db.warehouses req.FromWarehouseID = false ∨
      foreignKeyOK db.warehouses req.ToWarehouseID = false ∨
      foreignKeyOK db.stores req.FromStoreID = false ∨
      foreignKeyOK db.stores req.ToStoreID = false) :
    (CreateStockTransfer c req db).status ≠ 201 ∧ (CreateStockTransfer c req db).db = db := by
  have hfk : transferEndpointsExist db
      { ID := nextID (db.stock_transfers.map (fun r => r.ID))
        TransferNumber := c.transferNumber
        FromWarehouseID := req.FromWarehouseID
        ToWarehouseID := req.ToWarehouseID
        FromStoreID := req.FromStoreID
        ToStoreID := req.ToStoreID
        Status := "pending"
        Notes := req.Notes
        RequestedBy := userIDOf c } = false := by
    simp only [transferEndpointsExist, Bool.and_eq_false_iff]
    rcases h with h | h | h | h
    · exact Or.inl (Or.inl (Or.inl h))
    · exact Or.inl (Or.inl (Or.inr h))
    · exact Or.inl (Or.inr h)
    · exact Or.inr h
  have hst : (CreateStockTransfer c req db).status ≠ 201 := by
    simp only [CreateStockTransfer, hfk, if_true]
    split_ifs <;> simp
  exact ⟨hst, CreateStockTransfer_rejected c req db hst⟩

end GoPOS
